import Mathlib

/-! MT9M111 sensor driver: shallow embedding and verified properties

Embedding of `drivers/media/i2c/soc_camera/mt9m111.c`.

Conventions of the embedding:

* C `unsigned int` / `u16` values are natural numbers; where the C code can wrap or
  truncate, the reduction modulo `2 ^ 32` or `2 ^ 16` is written out.
* C `int` return codes are integers; errors are negative errno values.
* The sensor structure `struct mt9m111` is the record `mt9m111`; everything outside the
  driver (the SMBus transfer primitives, the clock and the pin controller) is an
  environment `Env` that answers each call from the history of calls made so far, and
  every such call is appended to a chronological trace of `Event`s.
* `dev_dbg`, `dev_err`, `dev_warn`, `WARN_ON` and the mutexes have no effect on the
  modelled state and are left out.
-/

namespace MT9M111

/-! ## Constants of the driver -/

def MT9M111_CHIP_VERSION : Nat := 0x000
def MT9M111_ROW_START : Nat := 0x001
def MT9M111_COLUMN_START : Nat := 0x002
def MT9M111_WINDOW_HEIGHT : Nat := 0x003
def MT9M111_WINDOW_WIDTH : Nat := 0x004
def MT9M111_HORIZONTAL_BLANKING_B : Nat := 0x005
def MT9M111_VERTICAL_BLANKING_B : Nat := 0x006
def MT9M111_HORIZONTAL_BLANKING_A : Nat := 0x007
def MT9M111_VERTICAL_BLANKING_A : Nat := 0x008
def MT9M111_RESET : Nat := 0x00d
def MT9M111_READ_MODE_B : Nat := 0x020
def MT9M111_READ_MODE_A : Nat := 0x021
def MT9M111_GLOBAL_GAIN : Nat := 0x02f
def MT9M111_CONTEXT_CONTROL : Nat := 0x0c8
def MT9M111_PAGE_MAP : Nat := 0x0f0

def MT9M111_CTXT_CTRL_RESTART : Nat := 1 <<< 15
def MT9M111_CTXT_CTRL_DEFECTCOR_B : Nat := 1 <<< 12
def MT9M111_CTXT_CTRL_RESIZE_B : Nat := 1 <<< 10
def MT9M111_CTXT_CTRL_CTRL2_B : Nat := 1 <<< 9
def MT9M111_CTXT_CTRL_GAMMA_B : Nat := 1 <<< 8
def MT9M111_CTXT_CTRL_READ_MODE_B : Nat := 1 <<< 3
def MT9M111_CTXT_CTRL_VBLANK_SEL_B : Nat := 1 <<< 1
def MT9M111_CTXT_CTRL_HBLANK_SEL_B : Nat := 1 <<< 0

def MT9M111_OPER_MODE_CTRL : Nat := 0x106
def MT9M111_OUTPUT_FORMAT_CTRL : Nat := 0x108
def MT9M111_REDUCER_XZOOM_B : Nat := 0x1a0
def MT9M111_REDUCER_XSIZE_B : Nat := 0x1a1
def MT9M111_REDUCER_YZOOM_B : Nat := 0x1a3
def MT9M111_REDUCER_YSIZE_B : Nat := 0x1a4
def MT9M111_REDUCER_XZOOM_A : Nat := 0x1a6
def MT9M111_REDUCER_XSIZE_A : Nat := 0x1a7
def MT9M111_REDUCER_YZOOM_A : Nat := 0x1a9
def MT9M111_REDUCER_YSIZE_A : Nat := 0x1aa
def MT9M111_OUTPUT_FORMAT_CTRL2_A : Nat := 0x13a
def MT9M111_OUTPUT_FORMAT_CTRL2_B : Nat := 0x19b

def MT9M111_MIN_DARK_ROWS : Nat := 8
def MT9M111_MIN_DARK_COLS : Nat := 26
def MT9M111_MAX_HEIGHT : Nat := 1024
def MT9M111_MAX_WIDTH : Nat := 1280

/-- Errno values used by the driver (`include/uapi/asm-generic/errno-base.h`). -/
def EINVAL : Int := 22

def EBUSY : Int := 16

def ENODEV : Int := 19

/-! ## Kernel helper macros used by the driver -/

/-- Kernel macro `clamp_val(val, lo, hi)` of `include/linux/kernel.h`, which is
`min_t(typeof(val), max_t(typeof(val), val, lo), hi)`; all three operands are
`unsigned int` at every use in this driver. -/
def clamp_val (val lo hi : Nat) : Nat := min (max val lo) hi

/-- Kernel macro `ALIGN(x, a)` of `include/linux/kernel.h`: with
`mask = (typeof(x))(a) - 1` it is `((x) + (mask)) & ~(mask)`, computed in
`unsigned int`.  For a power of two `a` this is `x` rounded up to a multiple of `a`. -/
def ALIGN (x a : Nat) : Nat :=
  let mask := (a % 2 ^ 32 + 2 ^ 32 - 1) % 2 ^ 32
  ((x + mask) % 2 ^ 32) &&& (2 ^ 32 - 1 - mask)

/-! ## Data model -/

/-- Context register set, `struct mt9m111_context`. -/
structure mt9m111_context where
  read_mode : Nat
  blanking_h : Nat
  blanking_v : Nat
  reducer_xzoom : Nat
  reducer_yzoom : Nat
  reducer_xsize : Nat
  reducer_ysize : Nat
  output_fmt_ctrl2 : Nat
  control : Nat
deriving DecidableEq

def context_a : mt9m111_context where
  read_mode := MT9M111_READ_MODE_A
  blanking_h := MT9M111_HORIZONTAL_BLANKING_A
  blanking_v := MT9M111_VERTICAL_BLANKING_A
  reducer_xzoom := MT9M111_REDUCER_XZOOM_A
  reducer_yzoom := MT9M111_REDUCER_YZOOM_A
  reducer_xsize := MT9M111_REDUCER_XSIZE_A
  reducer_ysize := MT9M111_REDUCER_YSIZE_A
  output_fmt_ctrl2 := MT9M111_OUTPUT_FORMAT_CTRL2_A
  control := MT9M111_CTXT_CTRL_RESTART

def context_b : mt9m111_context where
  read_mode := MT9M111_READ_MODE_B
  blanking_h := MT9M111_HORIZONTAL_BLANKING_B
  blanking_v := MT9M111_VERTICAL_BLANKING_B
  reducer_xzoom := MT9M111_REDUCER_XZOOM_B
  reducer_yzoom := MT9M111_REDUCER_YZOOM_B
  reducer_xsize := MT9M111_REDUCER_XSIZE_B
  reducer_ysize := MT9M111_REDUCER_YSIZE_B
  output_fmt_ctrl2 := MT9M111_OUTPUT_FORMAT_CTRL2_B
  control := MT9M111_CTXT_CTRL_RESTART |||
    MT9M111_CTXT_CTRL_DEFECTCOR_B ||| MT9M111_CTXT_CTRL_RESIZE_B |||
    MT9M111_CTXT_CTRL_CTRL2_B ||| MT9M111_CTXT_CTRL_GAMMA_B |||
    MT9M111_CTXT_CTRL_READ_MODE_B ||| MT9M111_CTXT_CTRL_VBLANK_SEL_B |||
    MT9M111_CTXT_CTRL_HBLANK_SEL_B

/-- Media bus pixel codes named by the driver (`MEDIA_BUS_FMT_*`); `OTHER n` stands for
any pixel code the driver does not name. -/
inductive media_bus_fmt where
  | YUYV8_2X8
  | YVYU8_2X8
  | UYVY8_2X8
  | VYUY8_2X8
  | RGB555_2X8_PADHI_LE
  | RGB555_2X8_PADHI_BE
  | RGB565_2X8_LE
  | RGB565_2X8_BE
  | BGR565_2X8_LE
  | BGR565_2X8_BE
  | SBGGR10_2X8_PADHI_LE
  | SBGGR10_1X10
  | SGBRG10_1X10
  | SGRBG10_1X10
  | SRGGB10_1X10
  | SBGGR8_1X8
  | SGBRG8_1X8
  | SGRBG8_1X8
  | SRGGB8_1X8
  | OTHER (n : Nat)
deriving DecidableEq

inductive v4l2_colorspace where
  | JPEG
  | SRGB
deriving DecidableEq

/-- Pixel format descriptor, `struct mt9m111_datafmt`. -/
structure mt9m111_datafmt where
  code : media_bus_fmt
  colorspace : v4l2_colorspace
  bypass_ifp : Bool
  is_bayer : Bool
deriving DecidableEq

open media_bus_fmt v4l2_colorspace in
def mt9m111_colour_fmts : List mt9m111_datafmt :=
  [ ⟨YUYV8_2X8, JPEG, false, false⟩,
    ⟨YVYU8_2X8, JPEG, false, false⟩,
    ⟨UYVY8_2X8, JPEG, false, false⟩,
    ⟨VYUY8_2X8, JPEG, false, false⟩,
    ⟨RGB555_2X8_PADHI_LE, SRGB, false, false⟩,
    ⟨RGB555_2X8_PADHI_BE, SRGB, false, false⟩,
    ⟨RGB565_2X8_LE, SRGB, false, false⟩,
    ⟨RGB565_2X8_BE, SRGB, false, false⟩,
    ⟨BGR565_2X8_LE, SRGB, false, false⟩,
    ⟨BGR565_2X8_BE, SRGB, false, false⟩,
    ⟨SBGGR10_2X8_PADHI_LE, SRGB, true, true⟩ ]

open media_bus_fmt v4l2_colorspace in
def mt9m111_10bit_fmts : List mt9m111_datafmt :=
  [ ⟨SBGGR10_1X10, SRGB, true, true⟩,
    ⟨SGBRG10_1X10, SRGB, true, true⟩,
    ⟨SGRBG10_1X10, SRGB, true, true⟩,
    ⟨SRGGB10_1X10, SRGB, true, true⟩ ]

open media_bus_fmt v4l2_colorspace in
def mt9m111_processed_fmts : List mt9m111_datafmt :=
  [ ⟨SBGGR8_1X8, SRGB, false, true⟩,
    ⟨SGBRG8_1X8, SRGB, false, true⟩,
    ⟨SGRBG8_1X8, SRGB, false, true⟩,
    ⟨SRGGB8_1X8, SRGB, false, true⟩ ]

inductive mt9m111_pin_state where
  | PIN_STATE_ACTIVE
  | PIN_STATE_IDLE
  | PIN_STATE_SLEEP
deriving DecidableEq

/-- Rectangle `struct v4l2_rect`.  `width` and `height` are `__u32`; `left` and `top`
are `__s32` in the structure, but the driver hands them to `mt9m111_clamp` through
`unsigned int *` and to the register batch as `unsigned int`, so they are kept as their
32-bit unsigned bit patterns. -/
structure v4l2_rect where
  left : Nat
  top : Nat
  width : Nat
  height : Nat
deriving DecidableEq

/-- Sensor state, `struct mt9m111`.  `ctx` and `fmt` are pointers in C (`none` is the
null pointer); `has_clk` says whether `clk` is non-null; `pin_st_active`, `pin_st_idle`
and `pin_st_sleep` say whether the entries of `pin_st[3]` are non-null. -/
structure mt9m111 where
  ctx : Option mt9m111_context
  rect : v4l2_rect
  has_clk : Bool
  width : Nat
  height : Nat
  power_count : Int
  fmt : Option mt9m111_datafmt
  lastpage : Int
  skip_x : Nat
  skip_y : Nat
  invert_pixclk : Bool
  allow_10bit : Bool
  allow_burst : Bool
  dirty_dim : Bool
  is_streaming : Bool
  ref_cnt : Nat
  pin_st_active : Bool
  pin_st_idle : Bool
  pin_st_sleep : Bool
deriving DecidableEq

/-! ## Geometry: clamping and alignment -/

/-- Source `mt9m111_clamp`: returns the new `(*pos, *len)`. -/
def mt9m111_clamp (pos len min_pos max_len alignment : Nat) : Nat × Nat :=
  let l := clamp_val len 0 max_len
  let l := ALIGN l alignment
  let p := clamp_val pos min_pos ((min_pos + max_len + 2 ^ 32 - l % 2 ^ 32) % 2 ^ 32)
  (p, l)

/-- Alignment unit `(fmt->is_bayer ? 2 : 1) << skip` as passed to `mt9m111_clamp`
(an `int` converted to `unsigned int`). -/
def alignment_of (fmt : mt9m111_datafmt) (skip : Nat) : Nat :=
  ((if fmt.is_bayer then 2 else 1) <<< skip) % 2 ^ 32

/-- Source `_mt9m111_try_selection`.  The C function updates `*r`, `*width` and
`*height` in place and returns `0`, or returns `-EINVAL` without touching them; here the
updated values are the result.  `width`, `height` and `fmt` are `none` for a null
pointer. -/
def _mt9m111_try_selection (dev : mt9m111) (r : v4l2_rect)
    (width height : Option Nat) (fmt : Option mt9m111_datafmt) :
    Except Int (v4l2_rect × Option Nat × Option Nat) :=
  match fmt with
  | none => .error (-EINVAL)
  | some fmt =>
    if width = some 0 ∨ height = some 0 then .error (-EINVAL)
    else
      let allow_scaling := dev.allow_burst && !fmt.bypass_ifp
      let x := mt9m111_clamp r.left r.width MT9M111_MIN_DARK_COLS MT9M111_MAX_WIDTH
        (alignment_of fmt dev.skip_x)
      let r := { r with left := x.1, width := x.2 }
      let width := if !allow_scaling then width.map (fun _ => r.width) else width
      let y := mt9m111_clamp r.top r.height MT9M111_MIN_DARK_ROWS MT9M111_MAX_HEIGHT
        (alignment_of fmt dev.skip_y)
      let r := { r with top := y.1, height := y.2 }
      let height := if !allow_scaling then height.map (fun _ => r.height) else height
      .ok (r, width, height)

/-! ## Environment: bus, clock and pin controller -/

/-- One call that leaves the driver: an SMBus word transfer, a clock call, a pin-state
selection or a platform power call.  The trace of a run lists them in the order made. -/
inductive Event where
  | i2c_write (command value : Nat)
  | i2c_read (command : Nat)
  | clk_enable
  | clk_disable
  | pinctrl_select (st : mt9m111_pin_state)
  | soc_power_on
  | soc_power_off
  | clk_set_rate (rate : Int)
deriving DecidableEq

/-- The collaborators of the driver.  Each function gives the return value of the call
from the trace of the calls made before it: `i2c_smbus_write_word_swapped` (0 or a
negative errno), `i2c_smbus_read_word_swapped` (the 16-bit word or a negative errno),
`v4l2_clk_enable`, `pinctrl_select_state` and `soc_camera_power_on` (0 or a negative
errno). -/
structure Env where
  i2c_smbus_write_word_swapped : List Event → Nat → Nat → Int
  i2c_smbus_read_word_swapped : List Event → Nat → Int
  v4l2_clk_enable : List Event → Int
  pinctrl_select_state : List Event → mt9m111_pin_state → Int
  soc_camera_power_on : List Event → Int

/-- The sensor state together with the trace of the calls made so far. -/
structure World where
  dev : mt9m111
  trace : List Event
deriving DecidableEq

/-- Record one outgoing call in the trace. -/
def World.emit (w : World) (e : Event) : World :=
  { w with trace := w.trace ++ [e] }

/-- The return value the environment gives for the bus transfer `e` issued after the
trace `t`; calls that are not bus transfers count as 0. -/
def Event.bus_result (env : Env) (t : List Event) : Event → Int
  | .i2c_write c v => env.i2c_smbus_write_word_swapped t c v
  | .i2c_read c => env.i2c_smbus_read_word_swapped t c
  | _ => 0

/-- Whether the event is a bus transfer. -/
def Event.is_i2c : Event → Bool
  | .i2c_write _ _ => true
  | .i2c_read _ => true
  | _ => false

/-- The first failed bus transfer among the events `evs` issued after the trace `t`:
its return value and the events issued after it; `none` when no transfer failed. -/
def first_failure (env : Env) (t : List Event) : List Event → Option (Int × List Event)
  | [] => none
  | e :: rest =>
    if e.bus_result env t < 0 then some (e.bus_result env t, rest)
    else first_failure env (t ++ [e]) rest

/-! ## Power and pin lifecycle -/

/-- Source `mt9m111_pinctrl_state` (with `CONFIG_PINCTRL`): a missing state is a
successful no-op. -/
def mt9m111_pinctrl_state (env : Env) (w : World) (state : mt9m111_pin_state) :
    Int × World :=
  let st := match state with
    | .PIN_STATE_ACTIVE => w.dev.pin_st_active
    | .PIN_STATE_IDLE => w.dev.pin_st_idle
    | .PIN_STATE_SLEEP => w.dev.pin_st_sleep
  if !st then (0, w)
  else (env.pinctrl_select_state w.trace state, w.emit (.pinctrl_select state))

/-- Source `mt9m111_get_device`.  `ref_cnt` is an `unsigned int`. -/
def mt9m111_get_device (env : Env) (w : World) : Int × World :=
  if w.dev.ref_cnt = 0 then
    if w.dev.has_clk then
      let rc := env.v4l2_clk_enable w.trace
      let w1 := w.emit .clk_enable
      if rc < 0 then (rc, w1)
      else
        let p := mt9m111_pinctrl_state env w1 .PIN_STATE_IDLE
        if p.1 < 0 then (p.1, p.2.emit .clk_disable)
        else (0, { p.2 with dev := { p.2.dev with ref_cnt := (p.2.dev.ref_cnt + 1) % 2 ^ 32 } })
    else
      let p := mt9m111_pinctrl_state env w .PIN_STATE_IDLE
      if p.1 < 0 then p
      else (0, { p.2 with dev := { p.2.dev with ref_cnt := (p.2.dev.ref_cnt + 1) % 2 ^ 32 } })
  else (0, { w with dev := { w.dev with ref_cnt := (w.dev.ref_cnt + 1) % 2 ^ 32 } })

/-- Source `mt9m111_put_device`. -/
def mt9m111_put_device (env : Env) (w : World) : World :=
  if w.dev.ref_cnt = 0 then w
  else
    let w1 :=
      if w.dev.ref_cnt = 1 then
        let p := mt9m111_pinctrl_state env w .PIN_STATE_SLEEP
        if w.dev.has_clk then p.2.emit .clk_disable else p.2
      else w
    { w1 with dev := { w1.dev with ref_cnt := w1.dev.ref_cnt - 1 } }

/-! ## Paged register access -/

/-- Source `reg_page_map_set`; `reg` is a `u16`. -/
def reg_page_map_set (env : Env) (w : World) (reg : Nat) : Int × World :=
  let page := reg >>> 8
  if (page : Int) = w.dev.lastpage then (0, w)
  else if page > 2 then (-EINVAL, w)
  else
    let ret := env.i2c_smbus_write_word_swapped w.trace MT9M111_PAGE_MAP page
    let w1 := w.emit (.i2c_write MT9M111_PAGE_MAP page)
    if ret = 0 then (ret, { w1 with dev := { w1.dev with lastpage := page } })
    else (ret, w1)

/-- Source `mt9m111_reg_read`; the argument is converted to the `u16` parameter. -/
def mt9m111_reg_read (env : Env) (w : World) (reg : Nat) : Int × World :=
  let reg := reg % 2 ^ 16
  let p := reg_page_map_set env w reg
  if p.1 = 0 then
    (env.i2c_smbus_read_word_swapped p.2.trace (reg &&& 0xff), p.2.emit (.i2c_read (reg &&& 0xff)))
  else p

/-- Source `mt9m111_reg_write`; both arguments are converted to the `u16` parameters. -/
def mt9m111_reg_write (env : Env) (w : World) (reg data : Nat) : Int × World :=
  let reg := reg % 2 ^ 16
  let data := data % 2 ^ 16
  let p := reg_page_map_set env w reg
  if p.1 = 0 then
    (env.i2c_smbus_write_word_swapped p.2.trace (reg &&& 0xff) data,
      p.2.emit (.i2c_write (reg &&& 0xff) data))
  else p

/-- Source `mt9m111_reg_set`. -/
def mt9m111_reg_set (env : Env) (w : World) (reg data : Nat) : Int × World :=
  let p := mt9m111_reg_read env w reg
  if 0 ≤ p.1 then mt9m111_reg_write env p.2 reg (p.1.toNat ||| (data % 2 ^ 16))
  else p

/-- Source `mt9m111_reg_clear`; `~data` is the complement of the promoted `int`. -/
def mt9m111_reg_clear (env : Env) (w : World) (reg data : Nat) : Int × World :=
  let p := mt9m111_reg_read env w reg
  if 0 ≤ p.1 then mt9m111_reg_write env p.2 reg (p.1.toNat &&& (2 ^ 32 - 1 - data % 2 ^ 16))
  else p

/-- Source `mt9m111_reg_mask`; `~mask` is the complement of the promoted `int`. -/
def mt9m111_reg_mask (env : Env) (w : World) (reg data mask : Nat) : Int × World :=
  let p := mt9m111_reg_read env w reg
  if 0 ≤ p.1 then
    mt9m111_reg_write env p.2 reg
      ((p.1.toNat &&& (2 ^ 32 - 1 - mask % 2 ^ 16)) ||| (data % 2 ^ 16))
  else p

/-- A register access issued by a caller of the paged access layer. -/
inductive reg_access where
  | read (reg : Nat)
  | write (reg data : Nat)
deriving DecidableEq

/-- The register address of an access. -/
def reg_access.reg : reg_access → Nat
  | .read reg => reg
  | .write reg _ => reg

/-- Perform one access with `mt9m111_reg_read` or `mt9m111_reg_write`. -/
def reg_access.run (env : Env) (w : World) : reg_access → Int × World
  | .read reg => mt9m111_reg_read env w reg
  | .write reg data => mt9m111_reg_write env w reg data

/-- The data transfer that an access puts on the bus once its page is selected. -/
def reg_access.data_event : reg_access → Event
  | .read reg => .i2c_read (reg % 2 ^ 16 &&& 0xff)
  | .write reg data => .i2c_write (reg % 2 ^ 16 &&& 0xff) (data % 2 ^ 16)

/-- Perform a sequence of accesses one after the other, whatever each one returns. -/
def run_accesses (env : Env) (w : World) : List reg_access → World
  | [] => w
  | a :: rest => run_accesses env (a.run env w).2 rest

/-! ## Geometry commit -/

/-- Entry of the register batch, the local `struct regval` of `_mt9m111_set_selection`. -/
structure regval where
  reg : Nat
  val : Nat
deriving DecidableEq

/-- The batch `setup[]` that `_mt9m111_set_selection` builds before touching the device. -/
def set_selection_setup (dev : mt9m111) (ctx : mt9m111_context) (r : v4l2_rect)
    (width height : Nat) : List regval :=
  [ ⟨MT9M111_COLUMN_START, r.left⟩,
    ⟨MT9M111_ROW_START, r.top⟩,
    ⟨MT9M111_WINDOW_WIDTH, r.width⟩,
    ⟨MT9M111_WINDOW_HEIGHT, r.height⟩ ] ++
  (if dev.dirty_dim = true ∨ width ≠ dev.width then
    [⟨ctx.reducer_xsize, width >>> dev.skip_x⟩] else []) ++
  (if dev.dirty_dim = true ∨ r.width ≠ dev.rect.width then
    [⟨ctx.reducer_xzoom, r.width⟩] else []) ++
  (if dev.dirty_dim = true ∨ width ≠ dev.width then
    [⟨ctx.reducer_xsize, width >>> dev.skip_x⟩] else []) ++
  (if dev.dirty_dim = true ∨ height ≠ dev.height then
    [⟨ctx.reducer_ysize, height >>> dev.skip_y⟩] else []) ++
  (if dev.dirty_dim = true ∨ r.height ≠ dev.rect.height then
    [⟨ctx.reducer_yzoom, r.height⟩] else []) ++
  (if dev.dirty_dim = true ∨ height ≠ dev.height then
    [⟨ctx.reducer_ysize, height >>> dev.skip_y⟩] else [])

/-- The write loop of `_mt9m111_set_selection`: `rc` is the value of the local `rc` on
entry; the loop stops at the first write that returns a negative value. -/
def write_setup (env : Env) : List regval → Int → World → Int × World
  | [], rc, w => (rc, w)
  | s :: rest, _, w =>
    let p := mt9m111_reg_write env w s.reg s.val
    if p.1 < 0 then p else write_setup env rest p.1 p.2

/-- The skip code `skip == 0 ? 0 : skip == 1 ? 1 : skip == 2 ? 4 : 5` of
`_mt9m111_set_selection`. -/
def skip_code (skip : Nat) : Nat :=
  if skip = 0 then 0 else if skip = 1 then 1 else if skip = 2 then 4 else 5

/-- Source `_mt9m111_set_selection`. -/
def _mt9m111_set_selection (env : Env) (w : World) (r : v4l2_rect)
    (fmt : Option mt9m111_datafmt) (width height : Nat) : Int × World :=
  match fmt, w.dev.ctx with
  | some _, some ctx =>
    if w.dev.width = 0 ∨ w.dev.height = 0 then (-EINVAL, w)
    else
      let setup := set_selection_setup w.dev ctx r width height
      let g := mt9m111_get_device env w
      if g.1 < 0 then g
      else
        let b := write_setup env setup g.1 g.2
        if b.1 < 0 then (b.1, mt9m111_put_device env b.2)
        else
          let m := mt9m111_reg_mask env b.2 ctx.read_mode
            ((skip_code b.2.dev.skip_x <<< 3) ||| (skip_code b.2.dev.skip_y <<< 2))
            (0x0f <<< 2)
          if m.1 < 0 then (m.1, mt9m111_put_device env m.2)
          else
            (0, mt9m111_put_device env
              { m.2 with dev := { m.2.dev with
                  width := width, height := height, rect := r, dirty_dim := false } })
  | _, _ => (-EINVAL, w)

/-! ## Gain -/

/-- Source `mt9m111_get_global_gain`. -/
def mt9m111_get_global_gain (env : Env) (w : World) : Int × World :=
  let p := mt9m111_reg_read env w MT9M111_GLOBAL_GAIN
  if 0 ≤ p.1 then
    let data := p.1.toNat
    (((data &&& 0x2f) * (1 <<< ((data >>> 10) &&& 1)) * (1 <<< ((data >>> 9) &&& 1)) : Nat),
      p.2)
  else p

/-- The value of the local `u16 val` of `mt9m111_set_global_gain` for an accepted
gain. -/
def global_gain_val (gain : Int) : Nat :=
  let val : Int :=
    if gain ≥ 64 * 2 ∧ gain < 63 * 2 * 2 then
      (((1 <<< 10) ||| (1 <<< 9) ||| (gain / 4).toNat : Nat) : Int)
    else if gain ≥ 64 ∧ gain < 64 * 2 then
      (((1 <<< 9) ||| (gain / 2).toNat : Nat) : Int)
    else gain
  (val % 2 ^ 16).toNat

/-- Source `mt9m111_set_global_gain`. -/
def mt9m111_set_global_gain (env : Env) (w : World) (gain : Int) : Int × World :=
  if gain > 63 * 2 * 2 then (-EINVAL, w)
  else mt9m111_reg_write env w MT9M111_GLOBAL_GAIN (global_gain_val gain)

/-- Proof vocabulary: `res` is the outcome of a run of bus transfers started in `w`.
The run appends the transfers `evs` to the trace and changes at most the page cache;
a non-negative return means no transfer failed, a failed transfer is the last one of
the run and its return value is the result, and on valid register pages the run can
only fail through a failed transfer. -/
def BusRun (env : Env) (w : World) (res : Int × World) (valid : Prop) : Prop :=
  ∃ evs lp, res.2.trace = w.trace ++ evs ∧ res.2.dev = { w.dev with lastpage := lp } ∧
    (0 ≤ res.1 → first_failure env w.trace evs = none) ∧
    (∀ rc rest, first_failure env w.trace evs = some (rc, rest) → res.1 = rc ∧ rest = []) ∧
    (valid → first_failure env w.trace evs = none → 0 ≤ res.1)

/-- Proof vocabulary: what a geometry commit started in `w` with the arguments `r`,
`width`, `height` guarantees about its outcome `res`.  The call appends `evs` to the
trace; the first failed bus transfer, if any, gives the return value and is followed by
no further bus transfer; a negative return leaves the mirror and `ref_cnt` as they were;
a non-negative return is 0, no transfer failed and the mirror holds the arguments with
`dirty_dim` cleared; under `valid` a run without failed transfer returns 0. -/
def CommitOutcome (env : Env) (w : World) (r : v4l2_rect) (width height : Nat)
    (res : Int × World) (valid : Prop) : Prop :=
  ∃ evs, res.2.trace = w.trace ++ evs ∧
    (∀ rc rest, first_failure env w.trace evs = some (rc, rest) →
      res.1 = rc ∧ ∀ e ∈ rest, e.is_i2c = false) ∧
    (res.1 < 0 → res.2.dev.rect = w.dev.rect ∧ res.2.dev.width = w.dev.width ∧
      res.2.dev.height = w.dev.height ∧ res.2.dev.dirty_dim = w.dev.dirty_dim ∧
      res.2.dev.ref_cnt = w.dev.ref_cnt) ∧
    (0 ≤ res.1 → res.1 = 0 ∧ first_failure env w.trace evs = none ∧
      res.2.dev.rect = r ∧ res.2.dev.width = width ∧ res.2.dev.height = height ∧
      res.2.dev.dirty_dim = false ∧ res.2.dev.ref_cnt = w.dev.ref_cnt) ∧
    (valid → first_failure env w.trace evs = none → res.1 = 0)

/-- Proof vocabulary: a data transfer is a register read, or a register write that is not
a write to the page-select register `MT9M111_PAGE_MAP`. -/
def Event.is_data : Event → Bool
  | .i2c_write c _ => decide (c ≠ MT9M111_PAGE_MAP)
  | .i2c_read _ => true
  | _ => false

/-- Proof vocabulary: the data transfers among the events `t`, in their order. -/
def data_transfers (t : List Event) : List Event :=
  t.filter Event.is_data

/-- The data write that `mt9m111_reg_write` puts on the bus for a batch entry: the low
address byte and the value converted to `u16`. -/
def regval.event (s : regval) : Event :=
  .i2c_write (s.reg % 2 ^ 16 &&& 0xff) (s.val % 2 ^ 16)

/-! ## Register bits used by the control, format and power paths -/

def MT9M111_RESET_RESET_SOC : Nat := 1 <<< 5
def MT9M111_RESET_OUTPUT_DISABLE : Nat := 1 <<< 4
def MT9M111_RESET_CHIP_ENABLE : Nat := 1 <<< 3
def MT9M111_RESET_ANALOG_STANDBY : Nat := 1 <<< 2
def MT9M111_RESET_RESET_MODE : Nat := 1 <<< 0

def MT9M111_RMB_MIRROR_COLS : Nat := 1 <<< 1
def MT9M111_RMB_MIRROR_ROWS : Nat := 1 <<< 0

def MT9M111_OPMODE_AUTOEXPO_EN : Nat := 1 <<< 14
def MT9M111_OPMODE_AUTOWHITEBAL_EN : Nat := 1 <<< 1

def MT9M111_OUTFMT_PROCESSED_BAYER : Nat := 1 <<< 14
def MT9M111_OUTFMT_SOC_AS_SENSOR : Nat := 1 <<< 12
def MT9M111_OUTFMT_BYPASS_IFP : Nat := 1 <<< 10
def MT9M111_OUTFMT_INV_PIX_CLOCK : Nat := 1 <<< 9
def MT9M111_OUTFMT_RGB : Nat := 1 <<< 8
def MT9M111_OUTFMT_RGB565 : Nat := 0 <<< 6
def MT9M111_OUTFMT_RGB555 : Nat := 1 <<< 6
def MT9M111_OUTFMT_RGB444x : Nat := 2 <<< 6
def MT9M111_OUTFMT_RGBx444 : Nat := 3 <<< 6
def MT9M111_OUTFMT_SWAP_YCbCr_C_Y_RGB_EVEN : Nat := 1 <<< 1
def MT9M111_OUTFMT_SWAP_YCbCr_Cb_Cr_RGB_R_B : Nat := 1 <<< 0

/-- Errno used for a dereference of a null `ctx` or `fmt` pointer, which the C code does
not check on these paths; the model returns `-EFAULT` without any effect. -/
def EFAULT : Int := 14

/-- Value `V4L2_EXPOSURE_AUTO` of `enum v4l2_exposure_auto_type`
(`include/uapi/linux/v4l2-controls.h`). -/
def V4L2_EXPOSURE_AUTO : Int := 0

/-! ## Format lookup -/

/-- Source `mt9m111_find_datafmt`: the first entry of the base catalog with the code,
else of the 10-bit catalog when `allow_10bit`, else of the processed-Bayer catalog when
`allow_burst`, else the stored format `mt9m111->fmt`. -/
def mt9m111_find_datafmt (dev : mt9m111) (code : media_bus_fmt) : Option mt9m111_datafmt :=
  match mt9m111_colour_fmts.find? (fun f => f.code = code) with
  | some f => some f
  | none =>
    match (if dev.allow_10bit then mt9m111_10bit_fmts.find? (fun f => f.code = code)
           else none) with
    | some f => some f
    | none =>
      match (if dev.allow_burst then mt9m111_processed_fmts.find? (fun f => f.code = code)
             else none) with
      | some f => some f
      | none => dev.fmt

/-- The `switch (code)` of `mt9m111_set_pixfmt`: the value of `data_outfmt2`, or `none`
for the `default:` branch. -/
def pixfmt_outfmt2 : media_bus_fmt → Option Nat
  | .SBGGR8_1X8 | .SGBRG8_1X8 | .SGRBG8_1X8 | .SRGGB8_1X8 =>
    some (MT9M111_OUTFMT_PROCESSED_BAYER ||| MT9M111_OUTFMT_RGB)
  | .SBGGR10_1X10 | .SGBRG10_1X10 | .SGRBG10_1X10 | .SRGGB10_1X10 =>
    some MT9M111_OUTFMT_SOC_AS_SENSOR
  | .SBGGR10_2X8_PADHI_LE => some (MT9M111_OUTFMT_BYPASS_IFP ||| MT9M111_OUTFMT_RGB)
  | .RGB555_2X8_PADHI_LE =>
    some (MT9M111_OUTFMT_RGB ||| MT9M111_OUTFMT_RGB555 |||
      MT9M111_OUTFMT_SWAP_YCbCr_C_Y_RGB_EVEN)
  | .RGB555_2X8_PADHI_BE => some (MT9M111_OUTFMT_RGB ||| MT9M111_OUTFMT_RGB555)
  | .RGB565_2X8_LE =>
    some (MT9M111_OUTFMT_RGB ||| MT9M111_OUTFMT_RGB565 |||
      MT9M111_OUTFMT_SWAP_YCbCr_C_Y_RGB_EVEN)
  | .RGB565_2X8_BE => some (MT9M111_OUTFMT_RGB ||| MT9M111_OUTFMT_RGB565)
  | .BGR565_2X8_BE =>
    some (MT9M111_OUTFMT_RGB ||| MT9M111_OUTFMT_RGB565 |||
      MT9M111_OUTFMT_SWAP_YCbCr_Cb_Cr_RGB_R_B)
  | .BGR565_2X8_LE =>
    some (MT9M111_OUTFMT_RGB ||| MT9M111_OUTFMT_RGB565 |||
      MT9M111_OUTFMT_SWAP_YCbCr_C_Y_RGB_EVEN ||| MT9M111_OUTFMT_SWAP_YCbCr_Cb_Cr_RGB_R_B)
  | .UYVY8_2X8 => some 0
  | .VYUY8_2X8 => some MT9M111_OUTFMT_SWAP_YCbCr_Cb_Cr_RGB_R_B
  | .YUYV8_2X8 => some MT9M111_OUTFMT_SWAP_YCbCr_C_Y_RGB_EVEN
  | .YVYU8_2X8 =>
    some (MT9M111_OUTFMT_SWAP_YCbCr_C_Y_RGB_EVEN ||| MT9M111_OUTFMT_SWAP_YCbCr_Cb_Cr_RGB_R_B)
  | .OTHER _ => none

/-- The constant `mask_outfmt2` of `mt9m111_set_pixfmt`. -/
def mask_outfmt2 : Nat :=
  MT9M111_OUTFMT_PROCESSED_BAYER ||| MT9M111_OUTFMT_BYPASS_IFP ||| MT9M111_OUTFMT_RGB |||
  MT9M111_OUTFMT_SOC_AS_SENSOR ||| MT9M111_OUTFMT_RGB565 ||| MT9M111_OUTFMT_RGB555 |||
  MT9M111_OUTFMT_RGB444x ||| MT9M111_OUTFMT_RGBx444 |||
  MT9M111_OUTFMT_SWAP_YCbCr_C_Y_RGB_EVEN ||| MT9M111_OUTFMT_SWAP_YCbCr_Cb_Cr_RGB_R_B |||
  MT9M111_OUTFMT_INV_PIX_CLOCK

/-- Source `mt9m111_set_pixfmt`. -/
def mt9m111_set_pixfmt (env : Env) (w : World) (code : media_bus_fmt) : Int × World :=
  match pixfmt_outfmt2 code with
  | none => (-EINVAL, w)
  | some d =>
    let data_outfmt2 := if w.dev.invert_pixclk then d ||| MT9M111_OUTFMT_INV_PIX_CLOCK else d
    let a := mt9m111_reg_mask env w context_a.output_fmt_ctrl2 data_outfmt2 mask_outfmt2
    if a.1 = 0 then
      mt9m111_reg_mask env a.2 context_b.output_fmt_ctrl2 data_outfmt2 mask_outfmt2
    else a

/-! ## Controls -/

/-- Control identifiers handled by `mt9m111_s_ctrl`; `OTHER n` is any other id. -/
inductive v4l2_ctrl_id where
  | VFLIP
  | HFLIP
  | GAIN
  | EXPOSURE_AUTO
  | AUTO_WHITE_BALANCE
  | SKIP_X
  | SKIP_Y
  | X_PIXEL_RATE
  | OTHER (n : Nat)
deriving DecidableEq

/-- The part of `struct v4l2_ctrl` that `mt9m111_s_ctrl` reads: `id` and the new value
`val` (an `s32`). -/
structure v4l2_ctrl where
  id : v4l2_ctrl_id
  val : Int
deriving DecidableEq

/-- Source `mt9m111_set_flip`. -/
def mt9m111_set_flip (env : Env) (w : World) (flip : Int) (mask : Nat) : Int × World :=
  match w.dev.ctx with
  | none => (-EFAULT, w)
  | some ctx =>
    if flip ≠ 0 then mt9m111_reg_set env w ctx.read_mode mask
    else mt9m111_reg_clear env w ctx.read_mode mask

/-- Source `mt9m111_set_autoexposure`. -/
def mt9m111_set_autoexposure (env : Env) (w : World) (val : Int) : Int × World :=
  if val = V4L2_EXPOSURE_AUTO then
    mt9m111_reg_set env w MT9M111_OPER_MODE_CTRL MT9M111_OPMODE_AUTOEXPO_EN
  else mt9m111_reg_clear env w MT9M111_OPER_MODE_CTRL MT9M111_OPMODE_AUTOEXPO_EN

/-- Source `mt9m111_set_autowhitebalance`; `on_val` is the argument `on`. -/
def mt9m111_set_autowhitebalance (env : Env) (w : World) (on_val : Int) : Int × World :=
  if on_val ≠ 0 then
    mt9m111_reg_set env w MT9M111_OPER_MODE_CTRL MT9M111_OPMODE_AUTOWHITEBAL_EN
  else mt9m111_reg_clear env w MT9M111_OPER_MODE_CTRL MT9M111_OPMODE_AUTOWHITEBAL_EN

/-- Source `mt9m111_s_ctrl`.  `skip_x` and `skip_y` are `unsigned char`, so the stored
value is `ctrl->val` modulo 256.  For `V4L2_CID_X_PIXEL_RATE` the rate read back goes into
`ctrl->val`, which belongs to the control core and is not part of the sensor state. -/
def mt9m111_s_ctrl (env : Env) (w : World) (ctrl : v4l2_ctrl) : Int × World :=
  match ctrl.id with
  | .VFLIP => mt9m111_set_flip env w ctrl.val MT9M111_RMB_MIRROR_ROWS
  | .HFLIP => mt9m111_set_flip env w ctrl.val MT9M111_RMB_MIRROR_COLS
  | .GAIN => mt9m111_set_global_gain env w ctrl.val
  | .EXPOSURE_AUTO => mt9m111_set_autoexposure env w ctrl.val
  | .AUTO_WHITE_BALANCE => mt9m111_set_autowhitebalance env w ctrl.val
  | .SKIP_X =>
    if w.dev.is_streaming then (-EBUSY, w)
    else
      let w1 : World := { w with dev := { w.dev with
        skip_x := (ctrl.val % 256).toNat, dirty_dim := true } }
      _mt9m111_set_selection env w1 w1.dev.rect w1.dev.fmt w1.dev.width w1.dev.height
  | .SKIP_Y =>
    if w.dev.is_streaming then (-EBUSY, w)
    else
      let w1 : World := { w with dev := { w.dev with
        skip_y := (ctrl.val % 256).toNat, dirty_dim := true } }
      _mt9m111_set_selection env w1 w1.dev.rect w1.dev.fmt w1.dev.width w1.dev.height
  | .X_PIXEL_RATE =>
    if w.dev.has_clk then (0, w.emit (.clk_set_rate ctrl.val)) else (0, w)
  | .OTHER _ => (-EINVAL, w)

/-- Source `_mt9m111_s_ctrl`, the `s_ctrl` operation registered with the control core. -/
def _mt9m111_s_ctrl (env : Env) (w : World) (ctrl : v4l2_ctrl) : Int × World :=
  let g := mt9m111_get_device env w
  if g.1 < 0 then g
  else
    let c := mt9m111_s_ctrl env g.2 ctrl
    (c.1, mt9m111_put_device env c.2)

/-- Modelled from the spec: the V4L2 control core (`v4l2_ctrl_handler_setup` and
`v4l2_ctrl_s_ctrl`, in `drivers/media/v4l2-core`, not under src/) as this driver meets it.
The core reaches the sensor only through the registered `s_ctrl` operation: `ctrls` are
the controls with their current values in the order in which `v4l2_ctrl_handler_setup`
applies them ("restore all user-configured controls"), and `gain_update v` is the value
that `v4l2_ctrl_s_ctrl(gain, v)` hands to `s_ctrl` when it snapshots the gain, or `none`
when it does not call the operation. -/
structure v4l2_ctrl_handler where
  ctrls : List v4l2_ctrl
  gain_update : Int → Option Int

/-- Modelled from the spec: `v4l2_ctrl_handler_setup` over a list of controls, calling
the `s_ctrl` operation for each one and stopping at the first non-zero result. -/
def handler_setup_list (env : Env) : List v4l2_ctrl → World → Int × World
  | [], w => (0, w)
  | c :: rest, w =>
    let p := _mt9m111_s_ctrl env w c
    if p.1 = 0 then handler_setup_list env rest p.2 else p

/-- Modelled from the spec: `v4l2_ctrl_handler_setup(&mt9m111->hdl)`. -/
def v4l2_ctrl_handler_setup (env : Env) (hdl : v4l2_ctrl_handler) (w : World) :
    Int × World :=
  handler_setup_list env hdl.ctrls w

/-- Modelled from the spec: `v4l2_ctrl_s_ctrl(mt9m111->gain, val)`; its result is not
used by the driver. -/
def v4l2_ctrl_s_ctrl_gain (env : Env) (hdl : v4l2_ctrl_handler) (w : World) (val : Int) :
    World :=
  match hdl.gain_update val with
  | none => w
  | some v => (_mt9m111_s_ctrl env w ⟨.GAIN, v⟩).2

/-! ## Power sequencing -/

/-- Source `mt9m111_set_context`, called with `mt9m111->ctx`. -/
def mt9m111_set_context (env : Env) (w : World) : Int × World :=
  match w.dev.ctx with
  | none => (-EFAULT, w)
  | some ctx => mt9m111_reg_write env w MT9M111_CONTEXT_CONTROL ctx.control

/-- Source `mt9m111_enable`. -/
def mt9m111_enable (env : Env) (w : World) : Int × World :=
  mt9m111_reg_write env w MT9M111_RESET MT9M111_RESET_CHIP_ENABLE

/-- Source `mt9m111_reset`. -/
def mt9m111_reset (env : Env) (w : World) : Int × World :=
  let a := mt9m111_reg_set env w MT9M111_RESET MT9M111_RESET_RESET_MODE
  if a.1 = 0 then
    let b := mt9m111_reg_set env a.2 MT9M111_RESET MT9M111_RESET_RESET_SOC
    if b.1 = 0 then
      mt9m111_reg_clear env b.2 MT9M111_RESET
        (MT9M111_RESET_RESET_MODE ||| MT9M111_RESET_RESET_SOC)
    else b
  else a

/-- Source `mt9m111_suspend`. -/
def mt9m111_suspend (env : Env) (hdl : v4l2_ctrl_handler) (w : World) : Int × World :=
  let g := mt9m111_get_global_gain env w
  let w1 := v4l2_ctrl_s_ctrl_gain env hdl g.2 g.1
  let a := mt9m111_reg_set env w1 MT9M111_RESET MT9M111_RESET_RESET_MODE
  if a.1 = 0 then
    let b := mt9m111_reg_set env a.2 MT9M111_RESET
      (MT9M111_RESET_RESET_SOC ||| MT9M111_RESET_OUTPUT_DISABLE |||
        MT9M111_RESET_ANALOG_STANDBY)
    if b.1 = 0 then mt9m111_reg_clear env b.2 MT9M111_RESET MT9M111_RESET_CHIP_ENABLE
    else b
  else a

/-- Source `mt9m111_restore_state`; every return value is dropped.  A null `fmt`, which
the C code would dereference, skips the pixel-format step. -/
def mt9m111_restore_state (env : Env) (hdl : v4l2_ctrl_handler) (w : World) : World :=
  let w0 : World := { w with dev := { w.dev with dirty_dim := true } }
  let w1 := (mt9m111_set_context env w0).2
  let w2 := match w1.dev.fmt with
    | none => w1
    | some f => (mt9m111_set_pixfmt env w1 f.code).2
  let w3 := (_mt9m111_set_selection env w2 w2.dev.rect w2.dev.fmt w2.dev.width
    w2.dev.height).2
  (v4l2_ctrl_handler_setup env hdl w3).2

/-- Source `mt9m111_resume`. -/
def mt9m111_resume (env : Env) (hdl : v4l2_ctrl_handler) (w : World) : Int × World :=
  let a := mt9m111_enable env w
  if a.1 = 0 then
    let b := mt9m111_reset env a.2
    if b.1 = 0 then (b.1, mt9m111_restore_state env hdl b.2) else b
  else a

/-- Source `mt9m111_init`. -/
def mt9m111_init (env : Env) (w : World) : Int × World :=
  let a := mt9m111_enable env w
  if a.1 = 0 then
    let b := mt9m111_reset env a.2
    if b.1 = 0 then mt9m111_set_context env b.2 else b
  else a

/-- Source `mt9m111_power_on`. -/
def mt9m111_power_on (env : Env) (hdl : v4l2_ctrl_handler) (w : World) : Int × World :=
  let ret := env.soc_camera_power_on w.trace
  let w1 := w.emit .soc_power_on
  if ret < 0 then (ret, w1)
  else
    let r := mt9m111_resume env hdl w1
    if r.1 < 0 then (r.1, r.2.emit .soc_power_off) else r

/-- Source `mt9m111_power_off`. -/
def mt9m111_power_off (env : Env) (hdl : v4l2_ctrl_handler) (w : World) : World :=
  (mt9m111_suspend env hdl w).2.emit .soc_power_off

/-- Source `mt9m111_s_power`; `on_val` is the C `int` argument `on`. -/
def mt9m111_s_power (env : Env) (hdl : v4l2_ctrl_handler) (w : World) (on_val : Int) :
    Int × World :=
  let g := mt9m111_get_device env w
  if g.1 < 0 then g
  else
    let p : Int × World :=
      if g.2.dev.power_count = (if on_val = 0 then 1 else 0) then
        if on_val ≠ 0 then mt9m111_power_on env hdl g.2
        else (0, mt9m111_power_off env hdl g.2)
      else (0, g.2)
    let w2 : World :=
      if p.1 = 0 then
        { p.2 with dev := { p.2.dev with
            power_count := p.2.dev.power_count + (if on_val ≠ 0 then 1 else -1) } }
      else p.2
    (p.1, mt9m111_put_device env w2)

/-- Source `mt9m111_video_probe`. -/
def mt9m111_video_probe (env : Env) (hdl : v4l2_ctrl_handler) (w : World) : Int × World :=
  let g := mt9m111_get_device env w
  if g.1 < 0 then g
  else
    let p := mt9m111_s_power env hdl g.2 1
    if p.1 < 0 then (p.1, mt9m111_put_device env p.2)
    else
      let d := mt9m111_reg_read env p.2 MT9M111_CHIP_VERSION
      let body : Int × World :=
        if d.1 = 0x143a ∨ d.1 = 0x148c then
          let i := mt9m111_init env d.2
          if i.1 ≠ 0 then i else v4l2_ctrl_handler_setup env hdl i.2
        else (-ENODEV, d.2)
      (body.1, mt9m111_put_device env (mt9m111_s_power env hdl body.2 0).2)

/-- The chip-version read of `mt9m111_video_probe`: `reg_read(CHIP_VERSION)` in the world
that the acquire and `mt9m111_s_power(sd, 1)` leave. -/
def probe_id_read (env : Env) (hdl : v4l2_ctrl_handler) (w : World) : Int × World :=
  mt9m111_reg_read env (mt9m111_s_power env hdl (mt9m111_get_device env w).2 1).2
    MT9M111_CHIP_VERSION

/-! ## Streaming -/

/-- Source `mt9m111_s_stream_on`. -/
def mt9m111_s_stream_on (env : Env) (w : World) : Int × World :=
  let g := mt9m111_get_device env w
  if g.1 < 0 then g
  else
    let p := mt9m111_pinctrl_state env g.2 .PIN_STATE_ACTIVE
    if p.1 < 0 then (p.1, mt9m111_put_device env p.2)
    else (0, { p.2 with dev := { p.2.dev with is_streaming := true } })

/-- Source `mt9m111_s_stream_off`; a failed selection of the Idle profile is ignored. -/
def mt9m111_s_stream_off (env : Env) (w : World) : Int × World :=
  let p := mt9m111_pinctrl_state env w .PIN_STATE_IDLE
  let w1 := mt9m111_put_device env p.2
  (0, { w1 with dev := { w1.dev with is_streaming := false } })

/-- Source `mt9m111_s_stream`; `enable` is the C `int` argument. -/
def mt9m111_s_stream (env : Env) (w : World) (enable : Int) : Int × World :=
  if enable ≠ 0 ∧ w.dev.is_streaming = true then (-EBUSY, w)
  else if enable = 0 ∧ w.dev.is_streaming = false then (-EINVAL, w)
  else if enable ≠ 0 then mt9m111_s_stream_on env w
  else mt9m111_s_stream_off env w

/-! ## Pad operations: format and crop selection -/

inductive v4l2_subdev_format_whence where
  | V4L2_SUBDEV_FORMAT_TRY
  | V4L2_SUBDEV_FORMAT_ACTIVE
deriving DecidableEq

/-- The fields of `struct v4l2_mbus_framefmt` that `mt9m111_set_fmt` reads or writes. -/
structure v4l2_mbus_framefmt where
  width : Nat
  height : Nat
  code : media_bus_fmt
deriving DecidableEq

/-- Pad configuration `struct v4l2_subdev_pad_config` of pad 0: the try format and the
try crop rectangle. -/
structure v4l2_subdev_pad_config where
  try_fmt : v4l2_mbus_framefmt
  try_crop : v4l2_rect
deriving DecidableEq

structure v4l2_subdev_format where
  which : v4l2_subdev_format_whence
  pad : Nat
  format : v4l2_mbus_framefmt
deriving DecidableEq

/-- Selection targets; `OTHER n` is any target the driver does not name. -/
inductive v4l2_sel_tgt where
  | V4L2_SEL_TGT_CROP
  | V4L2_SEL_TGT_CROP_DEFAULT
  | V4L2_SEL_TGT_CROP_BOUNDS
  | OTHER (n : Nat)
deriving DecidableEq

structure v4l2_subdev_selection where
  which : v4l2_subdev_format_whence
  pad : Nat
  target : v4l2_sel_tgt
  r : v4l2_rect
deriving DecidableEq

/-- Outcome of `mt9m111_set_fmt`: the return value, the sensor and trace, the caller's
`*format` and the pad configuration after the call. -/
structure set_fmt_result where
  rc : Int
  w : World
  format : v4l2_subdev_format
  cfg : v4l2_subdev_pad_config

/-- Source `mt9m111_set_fmt`.  `width` and `height` are `unsigned int`, so the shifted
request is reduced modulo `2 ^ 32`. -/
def mt9m111_set_fmt (env : Env) (w : World) (cfg : v4l2_subdev_pad_config)
    (format : v4l2_subdev_format) : set_fmt_result :=
  let mf := format.format
  let width := (mf.width <<< w.dev.skip_x) % 2 ^ 32
  let height := (mf.height <<< w.dev.skip_y) % 2 ^ 32
  if format.pad ≠ 0 then ⟨-EINVAL, w, format, cfg⟩
  else if format.which = .V4L2_SUBDEV_FORMAT_ACTIVE ∧ w.dev.is_streaming = true then
    ⟨-EBUSY, w, format, cfg⟩
  else
    match mt9m111_find_datafmt w.dev mf.code with
    | none => ⟨-EINVAL, w, format, cfg⟩
    | some fmt =>
      match _mt9m111_try_selection w.dev w.dev.rect (some width) (some height) (some fmt) with
      | .error rc => ⟨rc, w, format, cfg⟩
      | .ok (r, width', height') =>
        let width := width'.getD width
        let height := height'.getD height
        let mf' : v4l2_mbus_framefmt :=
          { width := width >>> w.dev.skip_x, height := height >>> w.dev.skip_y,
            code := fmt.code }
        let format' := { format with format := mf' }
        if format.which = .V4L2_SUBDEV_FORMAT_TRY then
          ⟨0, w, format', { cfg with try_fmt := mf' }⟩
        else
          let g := mt9m111_get_device env w
          if g.1 < 0 then ⟨g.1, g.2, format', cfg⟩
          else
            let s := _mt9m111_set_selection env g.2 r (some fmt) width height
            if s.1 < 0 then ⟨s.1, mt9m111_put_device env s.2, format', cfg⟩
            else
              let x := mt9m111_set_pixfmt env s.2 fmt.code
              if x.1 < 0 then ⟨x.1, mt9m111_put_device env x.2, format', cfg⟩
              else
                ⟨0, mt9m111_put_device env
                  { x.2 with dev := { x.2.dev with fmt := some fmt } }, format', cfg⟩

/-- Outcome of `mt9m111_set_selection`: the return value, the sensor and trace and the
pad configuration after the call (`*sel` is not written). -/
structure set_selection_result where
  rc : Int
  w : World
  cfg : v4l2_subdev_pad_config

/-- Source `mt9m111_set_selection`. -/
def mt9m111_set_selection (env : Env) (w : World) (cfg : v4l2_subdev_pad_config)
    (sel : v4l2_subdev_selection) : set_selection_result :=
  if sel.pad ≠ 0 then ⟨-EINVAL, w, cfg⟩
  else
    match sel.target with
    | .V4L2_SEL_TGT_CROP_DEFAULT => ⟨-EINVAL, w, cfg⟩
    | .V4L2_SEL_TGT_CROP_BOUNDS => ⟨-EINVAL, w, cfg⟩
    | .V4L2_SEL_TGT_CROP =>
      match _mt9m111_try_selection w.dev sel.r none none w.dev.fmt with
      | .error rc => ⟨rc, w, cfg⟩
      | .ok (r, _, _) =>
        if w.dev.is_streaming = true ∧
            (r.width ≠ w.dev.rect.width ∨ r.height ≠ w.dev.rect.height) then
          ⟨-EBUSY, w, cfg⟩
        else if sel.which = .V4L2_SUBDEV_FORMAT_ACTIVE then
          let s := _mt9m111_set_selection env w r w.dev.fmt w.dev.width w.dev.height
          ⟨s.1, s.2, cfg⟩
        else ⟨0, w, { cfg with try_crop := r }⟩
    | .OTHER _ => ⟨-EINVAL, w, cfg⟩

/-! ## Sequences of acquire and release -/

/-- Call `mt9m111_get_device` `n` times in a row; `none` as soon as one call fails. -/
def acquire_n (env : Env) : Nat → World → Option World
  | 0, w => some w
  | n + 1, w =>
    let g := mt9m111_get_device env w
    if g.1 < 0 then none else acquire_n env n g.2

/-- Call `mt9m111_put_device` `n` times in a row. -/
def release_n (env : Env) : Nat → World → World
  | 0, w => w
  | n + 1, w => release_n env n (mt9m111_put_device env w)

/-- The call `pinctrl_select_state` that `mt9m111_pinctrl_state` makes for a pin state:
one event when the state exists, none otherwise. -/
def pin_events (present : Bool) (st : mt9m111_pin_state) : List Event :=
  if present then [.pinctrl_select st] else []

/-- The last pin profile requested in a trace, if any. -/
def last_pin_select : List Event → Option mt9m111_pin_state
  | [] => none
  | e :: rest =>
    match last_pin_select rest with
    | some st => some st
    | none =>
      match e with
      | .pinctrl_select st => some st
      | _ => none

/-! ## Proof vocabulary: what an operation leaves alone -/

/-- The fields of the sensor state outside the geometry mirror (`rect`, `width`,
`height`, `dirty_dim`), the page cache and the reference count. -/
def mt9m111.config (d : mt9m111) :
    Option mt9m111_context × Bool × Int × Option mt9m111_datafmt × Nat × Nat × Bool × Bool ×
      Bool × Bool × Bool × Bool × Bool :=
  (d.ctx, d.has_clk, d.power_count, d.fmt, d.skip_x, d.skip_y, d.invert_pixclk,
    d.allow_10bit, d.allow_burst, d.is_streaming, d.pin_st_active, d.pin_st_idle,
    d.pin_st_sleep)

/-- The page cache of `d'` is that of `d` or a valid page (0, 1 or 2). -/
def PageOk (d d' : mt9m111) : Prop :=
  d'.lastpage = d.lastpage ∨ (0 ≤ d'.lastpage ∧ d'.lastpage ≤ 2)

/-- The state `d'` has the configuration of `d` and a page cache that is that of `d` or a
valid page. -/
def Frame (d d' : mt9m111) : Prop :=
  d'.config = d.config ∧ PageOk d d'

/-! ## Concrete states used in examples -/

/-- A sensor state as set up by `mt9m111_probe` before the chip is probed: context B,
full window, first format of the base catalog, page cache unknown. -/
def probe_state : mt9m111 where
  ctx := some context_b
  rect := ⟨26, 8, 1280, 1024⟩
  has_clk := true
  width := 1280
  height := 1024
  power_count := 0
  fmt := mt9m111_colour_fmts.head?
  lastpage := -1
  skip_x := 0
  skip_y := 0
  invert_pixclk := false
  allow_10bit := false
  allow_burst := false
  dirty_dim := true
  is_streaming := false
  ref_cnt := 0
  pin_st_active := true
  pin_st_idle := true
  pin_st_sleep := true

/-- Register file of a simulated sensor after the bus trace `t`: the selected page (the
last value written to `MT9M111_PAGE_MAP`, page 0 at first) and the words written so far,
newest first, each with its page and command byte. -/
def sim_regs : List Event → Nat × List (Nat × Nat × Nat) :=
  List.foldl
    (fun s e =>
      match e with
      | .i2c_write c v =>
        if c = MT9M111_PAGE_MAP then (v, s.2) else (s.1, (s.1, c, v) :: s.2)
      | _ => s)
    (0, [])

/-- The word that the simulated sensor holds in register `c` of the selected page
(0 when it was never written). -/
def sim_read (t : List Event) (c : Nat) : Nat :=
  match (sim_regs t).2.find? (fun x => x.1 = (sim_regs t).1 ∧ x.2.1 = c) with
  | some x => x.2.2
  | none => 0

/-- A well-behaved environment: every call succeeds and a read returns the word last
written to the addressed register. -/
def sim_env : Env where
  i2c_smbus_write_word_swapped := fun _ _ _ => 0
  i2c_smbus_read_word_swapped := fun t c => sim_read t c
  v4l2_clk_enable := fun _ => 0
  pinctrl_select_state := fun _ _ => 0
  soc_camera_power_on := fun _ => 0

/-- The sensor of `probe_state`, held by one user (`ref_cnt = 1`), before any outgoing
call. -/
def held_world : World where
  dev := { probe_state with ref_cnt := 1 }
  trace := []

/-- An environment like `sim_env` whose bus fails once: the transfer issued when the trace
holds `n` events returns `-EIO` (`-5`). -/
def fail_at_env (n : Nat) : Env where
  i2c_smbus_write_word_swapped := fun t _ _ => if t.length = n then -5 else 0
  i2c_smbus_read_word_swapped := fun t c => if t.length = n then -5 else sim_read t c
  v4l2_clk_enable := fun _ => 0
  pinctrl_select_state := fun _ _ => 0
  soc_camera_power_on := fun _ => 0

/-- The sensor of `probe_state` with no user (`ref_cnt = 0`), before any outgoing call. -/
def idle_world : World where
  dev := probe_state
  trace := []

/-- An environment like `sim_env` in which selecting the pin profile `st` fails with
`-5`. -/
def pin_fail_env (st : mt9m111_pin_state) : Env where
  i2c_smbus_write_word_swapped := fun _ _ _ => 0
  i2c_smbus_read_word_swapped := fun t c => sim_read t c
  v4l2_clk_enable := fun _ => 0
  pinctrl_select_state := fun _ s => if s = st then -5 else 0
  soc_camera_power_on := fun _ => 0

/-- The sensor of `probe_state` on a board without a controllable clock
(`mt9m111->clk` is null), with no user and before any outgoing call. -/
def noclk_world : World where
  dev := { probe_state with has_clk := false }
  trace := []

/-- The sensor of `probe_state` while streaming, as `mt9m111_s_stream(1)` leaves it when
called on `idle_world`: one reference held, Active profile selected. -/
def streaming_world : World where
  dev := { probe_state with ref_cnt := 1, is_streaming := true }
  trace := [.clk_enable, .pinctrl_select .PIN_STATE_IDLE, .pinctrl_select .PIN_STATE_ACTIVE]

/-- A pad configuration with the full window as try format and try crop. -/
def full_cfg : v4l2_subdev_pad_config where
  try_fmt := ⟨1280, 1024, .YUYV8_2X8⟩
  try_crop := ⟨26, 8, 1280, 1024⟩

/-- The sensor of `probe_state` once its geometry has been programmed: `dirty_dim` is
cleared; no user, before any outgoing call. -/
def clean_world : World where
  dev := { probe_state with dirty_dim := false }
  trace := []

/-- An environment like `sim_env` whose chip-version register (register 0 of page 0)
reads `id`. -/
def chip_env (id : Int) : Env where
  i2c_smbus_write_word_swapped := fun _ _ _ => 0
  i2c_smbus_read_word_swapped := fun t c =>
    if c = 0 ∧ (sim_regs t).1 = 0 then id else sim_read t c
  v4l2_clk_enable := fun _ => 0
  pinctrl_select_state := fun _ _ => 0
  soc_camera_power_on := fun _ => 0

/-- The control handler as `mt9m111_probe` fills it: the controls in creation order with
their default values; a gain snapshot is handed to the `s_ctrl` operation as it is. -/
def probe_hdl : v4l2_ctrl_handler where
  ctrls := [⟨.VFLIP, 0⟩, ⟨.HFLIP, 0⟩, ⟨.AUTO_WHITE_BALANCE, 1⟩, ⟨.GAIN, 32⟩,
    ⟨.EXPOSURE_AUTO, 0⟩, ⟨.SKIP_X, 0⟩, ⟨.SKIP_Y, 0⟩, ⟨.X_PIXEL_RATE, 27000000⟩]
  gain_update := fun v => some v

/-- An environment in which every call succeeds and every register read returns the
16-bit word `word`. -/
def const_read_env (word : Nat) : Env where
  i2c_smbus_write_word_swapped := fun _ _ _ => 0
  i2c_smbus_read_word_swapped := fun _ _ => ((word % 2 ^ 16 : Nat) : Int)
  v4l2_clk_enable := fun _ => 0
  pinctrl_select_state := fun _ _ => 0
  soc_camera_power_on := fun _ => 0

/-- The sensor of `probe_state` with skip factors `skip_x = 1` and `skip_y = 2`, with no
user and before any outgoing call. -/
def skip_world : World where
  dev := { probe_state with skip_x := 1, skip_y := 2 }
  trace := []

/-! ## Arithmetic of the helper macros -/

theorem land_high_mask (n k : Nat) (hk : k ≤ 32) (hn : n < 2 ^ 32) :
    n &&& (2 ^ 32 - 2 ^ k) = n / 2 ^ k * 2 ^ k := by
  apply Nat.eq_of_testBit_eq
  intro i
  have e : 2 ^ 32 - 2 ^ k = 2 ^ k * (2 ^ (32 - k) - 1) := by
    rw [Nat.mul_sub, ← pow_add]
    congr 1
    · congr 1; omega
    · simp
  rw [Nat.testBit_and, e, Nat.mul_comm (n / 2 ^ k), Nat.testBit_mul_pow_two,
    Nat.testBit_mul_pow_two, Nat.testBit_two_pow_sub_one, ← Nat.shiftRight_eq_div_pow,
    Nat.testBit_shiftRight]
  by_cases h : k ≤ i
  · have hki : k + (i - k) = i := by omega
    simp [h, hki]
    intro hb
    by_contra hc
    have h32 : 32 ≤ i := by omega
    have hlt : n < 2 ^ i := lt_of_lt_of_le hn (Nat.pow_le_pow_right (by norm_num) h32)
    rw [Nat.testBit_lt_two_pow hlt] at hb
    exact absurd hb (by simp)
  · simp [h]

/-- For a power of two `2 ^ k` and no overflow, `ALIGN` rounds up to a multiple. -/
theorem ALIGN_two_pow (x k : Nat) (hk : k < 32) (hx : x + 2 ^ k ≤ 2 ^ 32) :
    ALIGN x (2 ^ k) = (x + (2 ^ k - 1)) / 2 ^ k * 2 ^ k := by
  have hpos : 0 < 2 ^ k := Nat.pow_pos (by norm_num)
  have hlt : 2 ^ k < 2 ^ 32 := Nat.pow_lt_pow_right (by norm_num) hk
  have hmask : (2 ^ k % 2 ^ 32 + 2 ^ 32 - 1) % 2 ^ 32 = 2 ^ k - 1 := by
    rw [Nat.mod_eq_of_lt hlt]
    have : 2 ^ k + 2 ^ 32 - 1 = (2 ^ k - 1) + 2 ^ 32 := by omega
    rw [this, Nat.add_mod_right, Nat.mod_eq_of_lt (by omega)]
  unfold ALIGN
  simp only [hmask]
  have h1 : (x + (2 ^ k - 1)) % 2 ^ 32 = x + (2 ^ k - 1) := Nat.mod_eq_of_lt (by omega)
  have h2 : 2 ^ 32 - 1 - (2 ^ k - 1) = 2 ^ 32 - 2 ^ k := by omega
  rw [h1, h2]
  exact land_high_mask _ k (le_of_lt hk) (by omega)

theorem ALIGN_two_pow_bounds (x k : Nat) (hk : k < 32) (hx : x + 2 ^ k ≤ 2 ^ 32) :
    2 ^ k ∣ ALIGN x (2 ^ k) ∧ x ≤ ALIGN x (2 ^ k) ∧ ALIGN x (2 ^ k) < x + 2 ^ k := by
  rw [ALIGN_two_pow x k hk hx]
  have hpos : 0 < 2 ^ k := Nat.pow_pos (by norm_num)
  refine ⟨Nat.dvd_mul_left _ _, ?_, ?_⟩
  · have := Nat.div_add_mod (x + (2 ^ k - 1)) (2 ^ k)
    have := Nat.mod_lt (x + (2 ^ k - 1)) hpos
    rw [Nat.mul_comm]
    omega
  · have := Nat.div_mul_le_self (x + (2 ^ k - 1)) (2 ^ k)
    omega

theorem ALIGN_of_dvd (x k : Nat) (hk : k < 32) (hx : x + 2 ^ k ≤ 2 ^ 32) (hd : 2 ^ k ∣ x) :
    ALIGN x (2 ^ k) = x := by
  obtain ⟨hdv, hle, hlt⟩ := ALIGN_two_pow_bounds x k hk hx
  obtain ⟨c, hc⟩ := hd
  obtain ⟨d, hd⟩ := hdv
  rw [hd] at hle hlt ⊢
  rw [hc] at hle hlt ⊢
  have hpos : 0 < 2 ^ k := Nat.pow_pos (by norm_num)
  have h1 : c ≤ d := Nat.le_of_mul_le_mul_left hle hpos
  have h2 : d < c + 1 := by
    have : 2 ^ k * d < 2 ^ k * (c + 1) := by rw [Nat.mul_add]; omega
    exact Nat.lt_of_mul_lt_mul_left this
  have : d = c := by omega
  rw [this]

theorem alignment_of_eq (fmt : mt9m111_datafmt) (skip : Nat) (h : skip ≤ 3) :
    alignment_of fmt skip = 2 ^ ((if fmt.is_bayer then 1 else 0) + skip) ∧
    alignment_of fmt skip = (if fmt.is_bayer then 2 else 1) <<< skip := by
  unfold alignment_of
  cases fmt.is_bayer <;> interval_cases skip <;> simp

/-- What `mt9m111_clamp` computes for a power-of-two alignment that divides `max_len`. -/
theorem mt9m111_clamp_spec (pos len min_pos max_len k : Nat) (hk : k < 32)
    (hd : 2 ^ k ∣ max_len) (hm : min_pos + max_len + 2 ^ k ≤ 2 ^ 32) :
    (mt9m111_clamp pos len min_pos max_len (2 ^ k)).2 =
      (min len max_len + (2 ^ k - 1)) / 2 ^ k * 2 ^ k ∧
    2 ^ k ∣ (mt9m111_clamp pos len min_pos max_len (2 ^ k)).2 ∧
    (mt9m111_clamp pos len min_pos max_len (2 ^ k)).2 ≤ max_len ∧
    min len max_len ≤ (mt9m111_clamp pos len min_pos max_len (2 ^ k)).2 ∧
    (mt9m111_clamp pos len min_pos max_len (2 ^ k)).1 =
      min (max pos min_pos)
        (min_pos + max_len - (mt9m111_clamp pos len min_pos max_len (2 ^ k)).2) ∧
    min_pos ≤ (mt9m111_clamp pos len min_pos max_len (2 ^ k)).1 ∧
    (mt9m111_clamp pos len min_pos max_len (2 ^ k)).1 +
      (mt9m111_clamp pos len min_pos max_len (2 ^ k)).2 ≤ min_pos + max_len := by
  have hpos : 0 < 2 ^ k := Nat.pow_pos (by norm_num)
  have hmin : min len max_len ≤ max_len := Nat.min_le_right _ _
  have hx : min len max_len + 2 ^ k ≤ 2 ^ 32 := by omega
  have hl : (mt9m111_clamp pos len min_pos max_len (2 ^ k)).2 =
      ALIGN (min len max_len) (2 ^ k) := by
    simp [mt9m111_clamp, clamp_val]
  have hp0 : (mt9m111_clamp pos len min_pos max_len (2 ^ k)).1 =
      min (max pos min_pos) ((min_pos + max_len + 2 ^ 32 -
        (mt9m111_clamp pos len min_pos max_len (2 ^ k)).2 % 2 ^ 32) % 2 ^ 32) := by
    simp [mt9m111_clamp, clamp_val]
  generalize (mt9m111_clamp pos len min_pos max_len (2 ^ k)).2 = l at hl hp0 ⊢
  generalize (mt9m111_clamp pos len min_pos max_len (2 ^ k)).1 = p at hp0 ⊢
  obtain ⟨hdv, hle, hlt⟩ := ALIGN_two_pow_bounds (min len max_len) k hk hx
  rw [← hl] at hdv hle hlt
  have hlmax : l ≤ max_len := by
    obtain ⟨c, hc⟩ := hdv
    obtain ⟨d, hd⟩ := hd
    rw [hc]; rw [hd]
    rw [hc, hd] at hlt
    have : 2 ^ k * c < 2 ^ k * (d + 1) := by rw [Nat.mul_add]; omega
    have : c < d + 1 := Nat.lt_of_mul_lt_mul_left this
    exact Nat.mul_le_mul_left _ (by omega)
  have hp : p = min (max pos min_pos) (min_pos + max_len - l) := by
    have e1 : l % 2 ^ 32 = l := Nat.mod_eq_of_lt (by omega)
    have e2 : (min_pos + max_len + 2 ^ 32 - l) % 2 ^ 32 = min_pos + max_len - l := by
      have : min_pos + max_len + 2 ^ 32 - l = (min_pos + max_len - l) + 2 ^ 32 := by omega
      rw [this, Nat.add_mod_right, Nat.mod_eq_of_lt (by omega)]
    rw [hp0, e1, e2]
  refine ⟨?_, hdv, hlmax, hle, hp, ?_, ?_⟩
  · rw [hl, ALIGN_two_pow _ k hk hx]
  · rw [hp]; omega
  · rw [hp]; omega

/-! ## Geometry: `mt9m111_clamp` and `_mt9m111_try_selection` -/

/-- Closed form of a call of `_mt9m111_try_selection` that passes the argument check. -/
theorem try_selection_ok (dev : mt9m111) (r : v4l2_rect) (width height : Option Nat)
    (fmt : mt9m111_datafmt) (hw : width ≠ some 0) (hh : height ≠ some 0) :
    _mt9m111_try_selection dev r width height (some fmt) =
      .ok ({ left := (mt9m111_clamp r.left r.width 26 1280 (alignment_of fmt dev.skip_x)).1,
             top := (mt9m111_clamp r.top r.height 8 1024 (alignment_of fmt dev.skip_y)).1,
             width := (mt9m111_clamp r.left r.width 26 1280 (alignment_of fmt dev.skip_x)).2,
             height := (mt9m111_clamp r.top r.height 8 1024 (alignment_of fmt dev.skip_y)).2 },
           if (dev.allow_burst && !fmt.bypass_ifp) = true then width else
             width.map (fun _ =>
               (mt9m111_clamp r.left r.width 26 1280 (alignment_of fmt dev.skip_x)).2),
           if (dev.allow_burst && !fmt.bypass_ifp) = true then height else
             height.map (fun _ =>
               (mt9m111_clamp r.top r.height 8 1024 (alignment_of fmt dev.skip_y)).2)) := by
  simp only [_mt9m111_try_selection, hw, hh, or_self, if_false, MT9M111_MIN_DARK_COLS,
    MT9M111_MAX_WIDTH, MT9M111_MIN_DARK_ROWS, MT9M111_MAX_HEIGHT]
  cases dev.allow_burst <;> cases fmt.bypass_ifp <;> simp

/-- The argument check of `_mt9m111_try_selection`: a zero requested size is rejected. -/
theorem try_selection_zero (dev : mt9m111) (r : v4l2_rect) (width height : Option Nat)
    (fmt : mt9m111_datafmt) (h : width = some 0 ∨ height = some 0) :
    _mt9m111_try_selection dev r width height (some fmt) = .error (-EINVAL) := by
  simp [_mt9m111_try_selection, h]

theorem two_pow_dvd_of_le {j k : Nat} (h : j ≤ k) (n : Nat) (hn : 2 ^ k ∣ n) : 2 ^ j ∣ n :=
  Nat.dvd_trans (Nat.pow_dvd_pow 2 h) hn

theorem dvd_1280 (j : Nat) (h : j ≤ 4) : 2 ^ j ∣ 1280 :=
  two_pow_dvd_of_le h 1280 ⟨80, by norm_num⟩

theorem dvd_1024 (j : Nat) (h : j ≤ 4) : 2 ^ j ∣ 1024 :=
  two_pow_dvd_of_le h 1024 ⟨64, by norm_num⟩

theorem two_pow_le_16 (j : Nat) (h : j ≤ 4) : 2 ^ j ≤ 16 := by
  interval_cases j <;> norm_num

theorem mt9m111_clamp_len (pos len min_pos max_len a : Nat) :
    (mt9m111_clamp pos len min_pos max_len a).2 = ALIGN (min len max_len) a := by
  simp [mt9m111_clamp, clamp_val]

/-- Clamping an already clamped position and length changes nothing. -/
theorem mt9m111_clamp_idem (pos len min_pos max_len k : Nat) (hk : k < 32)
    (hd : 2 ^ k ∣ max_len) (hm : min_pos + max_len + 2 ^ k ≤ 2 ^ 32) :
    mt9m111_clamp (mt9m111_clamp pos len min_pos max_len (2 ^ k)).1
      (mt9m111_clamp pos len min_pos max_len (2 ^ k)).2 min_pos max_len (2 ^ k) =
      mt9m111_clamp pos len min_pos max_len (2 ^ k) := by
  obtain ⟨-, hdv, hle, -, -, hp1, hp2⟩ := mt9m111_clamp_spec pos len min_pos max_len k hk hd hm
  obtain ⟨-, -, -, -, hp, -, -⟩ := mt9m111_clamp_spec
    (mt9m111_clamp pos len min_pos max_len (2 ^ k)).1
    (mt9m111_clamp pos len min_pos max_len (2 ^ k)).2 min_pos max_len k hk hd hm
  have hl3 := mt9m111_clamp_len (mt9m111_clamp pos len min_pos max_len (2 ^ k)).1
    (mt9m111_clamp pos len min_pos max_len (2 ^ k)).2 min_pos max_len (2 ^ k)
  rw [Nat.min_eq_left hle, ALIGN_of_dvd _ k hk (le_trans (by omega) hm) hdv] at hl3
  rw [hl3] at hp
  refine Prod.ext ?_ hl3
  rw [hp]
  generalize (mt9m111_clamp pos len min_pos max_len (2 ^ k)).1 = p at hp1 hp2 ⊢
  generalize (mt9m111_clamp pos len min_pos max_len (2 ^ k)).2 = l at hp2 ⊢
  show min (max p min_pos) (min_pos + max_len - l) = p
  rw [Nat.max_eq_left hp1]
  exact Nat.min_eq_left (by omega)

/-- Claim C1: for every input rectangle, all skip factors in 0..3 and every format
descriptor, a call of `_mt9m111_try_selection` that passes the argument check succeeds and
returns a rectangle whose width is a multiple of `(is_bayer ? 2 : 1) << skip_x`, whose
height is a multiple of `(is_bayer ? 2 : 1) << skip_y`, and which lies inside the device
window `26 <= left`, `left + width <= 26 + 1280`, `8 <= top`, `top + height <= 8 + 1024`;
the lengths stay below the window sizes, so `min_pos + max_len - len` does not wrap. -/
theorem C1_try_selection_aligned_in_window (dev : mt9m111) (r : v4l2_rect)
    (width height : Option Nat) (fmt : mt9m111_datafmt)
    (hx : dev.skip_x ≤ 3) (hy : dev.skip_y ≤ 3)
    (hw : width ≠ some 0) (hh : height ≠ some 0) :
    ∃ r' w' h', _mt9m111_try_selection dev r width height (some fmt) = .ok (r', w', h') ∧
      ((if fmt.is_bayer then 2 else 1) <<< dev.skip_x) ∣ r'.width ∧
      ((if fmt.is_bayer then 2 else 1) <<< dev.skip_y) ∣ r'.height ∧
      26 ≤ r'.left ∧ r'.left + r'.width ≤ 26 + 1280 ∧
      8 ≤ r'.top ∧ r'.top + r'.height ≤ 8 + 1024 ∧
      r'.width ≤ 1280 ∧ r'.height ≤ 1024 := by
  refine ⟨_, _, _, try_selection_ok dev r width height fmt hw hh, ?_⟩
  obtain ⟨ex, ex2⟩ := alignment_of_eq fmt dev.skip_x hx
  obtain ⟨ey, ey2⟩ := alignment_of_eq fmt dev.skip_y hy
  have hkx : (if fmt.is_bayer then 1 else 0) + dev.skip_x ≤ 4 := by split <;> omega
  have hky : (if fmt.is_bayer then 1 else 0) + dev.skip_y ≤ 4 := by split <;> omega
  have sx := mt9m111_clamp_spec r.left r.width 26 1280 _ (by omega) (dvd_1280 _ hkx)
    (by have := two_pow_le_16 _ hkx; omega)
  have sy := mt9m111_clamp_spec r.top r.height 8 1024 _ (by omega) (dvd_1024 _ hky)
    (by have := two_pow_le_16 _ hky; omega)
  rw [← ex] at sx
  rw [← ey] at sy
  rw [← ex2, ← ey2]
  obtain ⟨-, a1, a2, -, -, a3, a4⟩ := sx
  obtain ⟨-, b1, b2, -, -, b3, b4⟩ := sy
  exact ⟨a1, b1, a3, a4, b3, b4, a2, b2⟩

/-- Witness for claim C1: full-size request on a Bayer format with skip factors 1 and 2. -/
theorem C1_try_selection_aligned_in_window_witness :
    (1 : Nat) ≤ 3 ∧ (2 : Nat) ≤ 3 ∧ (some 640 : Option Nat) ≠ some 0 ∧
    (some 480 : Option Nat) ≠ some 0 ∧
    ∃ r' w' h', _mt9m111_try_selection
        { ctx := some context_b, rect := ⟨26, 8, 1280, 1024⟩, has_clk := true, width := 1280,
          height := 1024, power_count := 0, fmt := none, lastpage := -1, skip_x := 1,
          skip_y := 2, invert_pixclk := false, allow_10bit := false, allow_burst := false,
          dirty_dim := true, is_streaming := false, ref_cnt := 0, pin_st_active := true,
          pin_st_idle := true, pin_st_sleep := true }
        ⟨3, 5000, 77, 4000000000⟩ (some 640) (some 480)
        (some ⟨media_bus_fmt.SBGGR10_2X8_PADHI_LE, v4l2_colorspace.SRGB, true, true⟩) =
          .ok (r', w', h') ∧
      ((if (true : Bool) then 2 else 1) <<< 1) ∣ r'.width ∧
      ((if (true : Bool) then 2 else 1) <<< 2) ∣ r'.height ∧
      26 ≤ r'.left ∧ r'.left + r'.width ≤ 26 + 1280 ∧
      8 ≤ r'.top ∧ r'.top + r'.height ≤ 8 + 1024 ∧
      r'.width ≤ 1280 ∧ r'.height ≤ 1024 :=
  ⟨by decide, by decide, by decide, by decide,
    C1_try_selection_aligned_in_window _ ⟨3, 5000, 77, 4000000000⟩ (some 640) (some 480)
      ⟨media_bus_fmt.SBGGR10_2X8_PADHI_LE, v4l2_colorspace.SRGB, true, true⟩
      (by decide) (by decide) (by decide) (by decide)⟩

/-- Counterexample to claim C2 as stated: on a device without the burst capability, the
crop `{26, 8, 0, 4}` with requested output size 5x5 and the first format of the base
catalog is accepted and comes back with output width 0; the second call, on that result,
fails the `*width == 0` check with `-EINVAL` instead of returning the same result. -/
theorem C2_try_selection_idempotent_counterexample :
    ⟨media_bus_fmt.YUYV8_2X8, v4l2_colorspace.JPEG, false, false⟩ ∈ mt9m111_colour_fmts ∧
    _mt9m111_try_selection probe_state ⟨26, 8, 0, 4⟩ (some 5) (some 5)
      (some ⟨media_bus_fmt.YUYV8_2X8, v4l2_colorspace.JPEG, false, false⟩) =
      .ok (⟨26, 8, 0, 4⟩, some 0, some 4) ∧
    _mt9m111_try_selection probe_state ⟨26, 8, 0, 4⟩ (some 0) (some 4)
      (some ⟨media_bus_fmt.YUYV8_2X8, v4l2_colorspace.JPEG, false, false⟩) =
      .error (-EINVAL) ∧
    _mt9m111_try_selection probe_state ⟨26, 8, 0, 4⟩ (some 0) (some 4)
      (some ⟨media_bus_fmt.YUYV8_2X8, v4l2_colorspace.JPEG, false, false⟩) ≠
      .ok (⟨26, 8, 0, 4⟩, some 0, some 4) := by
  refine ⟨by decide, rfl, rfl, ?_⟩
  rw [try_selection_zero _ _ _ _ _ (Or.inl rfl)]
  intro h
  cases h

/-- Claim C2 (amended): `_mt9m111_try_selection` is idempotent on every result whose
returned output width and height are not zero: for skip factors in 0..3, if a first call
succeeds with rectangle `r'` and output size `w'`, `h'`, neither of them zero, then the
call on `r'`, `w'`, `h'` succeeds and returns exactly `r'`, `w'`, `h'`. -/
theorem C2_try_selection_idempotent (dev : mt9m111) (r : v4l2_rect)
    (width height : Option Nat) (fmt : mt9m111_datafmt)
    (r' : v4l2_rect) (w' h' : Option Nat)
    (hx : dev.skip_x ≤ 3) (hy : dev.skip_y ≤ 3)
    (h : _mt9m111_try_selection dev r width height (some fmt) = .ok (r', w', h'))
    (hw' : w' ≠ some 0) (hh' : h' ≠ some 0) :
    _mt9m111_try_selection dev r' w' h' (some fmt) = .ok (r', w', h') := by
  have hw : width ≠ some 0 := by
    intro hc
    rw [try_selection_zero dev r width height fmt (Or.inl hc)] at h
    cases h
  have hh : height ≠ some 0 := by
    intro hc
    rw [try_selection_zero dev r width height fmt (Or.inr hc)] at h
    cases h
  rw [try_selection_ok dev r width height fmt hw hh] at h
  rw [try_selection_ok dev r' w' h' fmt hw' hh']
  obtain ⟨ex, -⟩ := alignment_of_eq fmt dev.skip_x hx
  obtain ⟨ey, -⟩ := alignment_of_eq fmt dev.skip_y hy
  have hkx : (if fmt.is_bayer then 1 else 0) + dev.skip_x ≤ 4 := by split <;> omega
  have hky : (if fmt.is_bayer then 1 else 0) + dev.skip_y ≤ 4 := by split <;> omega
  have ix := mt9m111_clamp_idem r.left r.width 26 1280 _ (by omega) (dvd_1280 _ hkx)
    (by have := two_pow_le_16 _ hkx; omega)
  have iy := mt9m111_clamp_idem r.top r.height 8 1024 _ (by omega) (dvd_1024 _ hky)
    (by have := two_pow_le_16 _ hky; omega)
  rw [← ex] at ix
  rw [← ey] at iy
  injection h with h
  obtain ⟨hr, hwe, hhe⟩ := Prod.mk.inj h |>.imp id Prod.mk.inj
  subst hr hwe hhe
  simp only [ix, iy]
  cases (dev.allow_burst && !fmt.bypass_ifp) <;> cases width <;> cases height <;> simp

/-- Witness for claim C2 (amended): a request larger than the sensor with scaling
disallowed. -/
theorem C2_try_selection_idempotent_witness :
    probe_state.skip_x ≤ 3 ∧ probe_state.skip_y ≤ 3 ∧
    _mt9m111_try_selection probe_state ⟨0, 0, 4001, 2999⟩ (some 640) (some 480)
      (some ⟨media_bus_fmt.SBGGR10_2X8_PADHI_LE, v4l2_colorspace.SRGB, true, true⟩) =
      .ok (⟨26, 8, 1280, 1024⟩, some 1280, some 1024) ∧
    (some 1280 : Option Nat) ≠ some 0 ∧ (some 1024 : Option Nat) ≠ some 0 ∧
    _mt9m111_try_selection probe_state ⟨26, 8, 1280, 1024⟩ (some 1280) (some 1024)
      (some ⟨media_bus_fmt.SBGGR10_2X8_PADHI_LE, v4l2_colorspace.SRGB, true, true⟩) =
      .ok (⟨26, 8, 1280, 1024⟩, some 1280, some 1024) :=
  ⟨by decide, by decide, rfl, by decide, by decide,
    C2_try_selection_idempotent probe_state ⟨0, 0, 4001, 2999⟩ (some 640) (some 480)
      ⟨media_bus_fmt.SBGGR10_2X8_PADHI_LE, v4l2_colorspace.SRGB, true, true⟩
      ⟨26, 8, 1280, 1024⟩ (some 1280) (some 1024)
      (by decide) (by decide) rfl (by decide) (by decide)⟩

/-- Counterexample to claim C3 as stated: for requested length 3, `max_len` 1280 and
alignment 2 the returned length is 4, which is not
`min(3, 1280) - (min(3, 1280) mod 2) = 2` and is larger than the requested length. -/
theorem C3_clamp_rounds_down_counterexample :
    (2 : Nat) ∈ [1, 2, 4, 8, 16] ∧
    (mt9m111_clamp 0 3 26 1280 2).2 = 4 ∧
    (mt9m111_clamp 0 3 26 1280 2).2 ≠ min 3 1280 - min 3 1280 % 2 ∧
    ¬ (mt9m111_clamp 0 3 26 1280 2).2 ≤ 3 := by
  decide

/-- Claim C3 (amended): `mt9m111_clamp` first clamps the requested length into
`[0, max_len]` and then rounds it UP to a multiple of the alignment unit: for every
requested length `len`, every alignment `a` in {1,2,4,8,16} and every `max_len` with
`max_len + 16 <= 2^32`, the returned length equals
`((min(len, max_len) + a - 1) / a) * a`; it is a multiple of `a`, never smaller than
`min(len, max_len)` and exceeds it by less than `a`. -/
theorem C3_clamp_rounds_up (pos len min_pos max_len a : Nat)
    (ha : a ∈ [1, 2, 4, 8, 16]) (hm : max_len + 16 ≤ 2 ^ 32) :
    (mt9m111_clamp pos len min_pos max_len a).2 = (min len max_len + (a - 1)) / a * a ∧
    a ∣ (mt9m111_clamp pos len min_pos max_len a).2 ∧
    min len max_len ≤ (mt9m111_clamp pos len min_pos max_len a).2 ∧
    (mt9m111_clamp pos len min_pos max_len a).2 < min len max_len + a := by
  have hk : ∃ k, k ≤ 4 ∧ a = 2 ^ k := by
    simp only [List.mem_cons, List.mem_singleton, List.not_mem_nil, or_false] at ha
    rcases ha with h | h | h | h | h
    · exact ⟨0, by omega, by rw [h]; rfl⟩
    · exact ⟨1, by omega, by rw [h]; rfl⟩
    · exact ⟨2, by omega, by rw [h]; rfl⟩
    · exact ⟨3, by omega, by rw [h]; rfl⟩
    · exact ⟨4, by omega, by rw [h]; rfl⟩
  obtain ⟨k, hk4, rfl⟩ := hk
  have h16 := two_pow_le_16 k hk4
  have hmin : min len max_len ≤ max_len := Nat.min_le_right _ _
  have hx : min len max_len + 2 ^ k ≤ 2 ^ 32 := by omega
  rw [mt9m111_clamp_len]
  obtain ⟨h1, h2, h3⟩ := ALIGN_two_pow_bounds (min len max_len) k (by omega) hx
  exact ⟨ALIGN_two_pow _ k (by omega) hx, h1, h2, h3⟩

/-- Witness for claim C3 (amended): length 1275 with alignment 8 becomes 1280. -/
theorem C3_clamp_rounds_up_witness :
    8 ∈ [1, 2, 4, 8, 16] ∧ 1280 + 16 ≤ 2 ^ 32 ∧
    (mt9m111_clamp 0 1275 26 1280 8).2 = (min 1275 1280 + (8 - 1)) / 8 * 8 ∧
    8 ∣ (mt9m111_clamp 0 1275 26 1280 8).2 ∧
    min 1275 1280 ≤ (mt9m111_clamp 0 1275 26 1280 8).2 ∧
    (mt9m111_clamp 0 1275 26 1280 8).2 < min 1275 1280 + 8 :=
  ⟨by decide, by decide, C3_clamp_rounds_up 0 1275 26 1280 8 (by decide) (by decide)⟩

/-- Claim C5: for every input rectangle and skip factors in 0..3, a call of
`_mt9m111_try_selection` that passes the argument check returns
`left = min(max(left, 26), 26 + 1280 - width')` and
`top = min(max(top, 8), 8 + 1024 - height')`, where `width'` and `height'` are the returned
lengths; in particular with a Bayer format and skip factors 0 (alignment 2) the crop
`{left 0, top 0, width 4, height 4}` is clamped to `{left 26, top 8, width 4, height 4}`. -/
theorem C5_try_selection_position (dev : mt9m111) (r : v4l2_rect)
    (width height : Option Nat) (fmt : mt9m111_datafmt)
    (hx : dev.skip_x ≤ 3) (hy : dev.skip_y ≤ 3)
    (hw : width ≠ some 0) (hh : height ≠ some 0) :
    ∃ r' w' h', _mt9m111_try_selection dev r width height (some fmt) = .ok (r', w', h') ∧
      r'.left = min (max r.left 26) (26 + 1280 - r'.width) ∧
      r'.top = min (max r.top 8) (8 + 1024 - r'.height) ∧
      (fmt.is_bayer = true → dev.skip_x = 0 → dev.skip_y = 0 → r = ⟨0, 0, 4, 4⟩ →
        r' = ⟨26, 8, 4, 4⟩) := by
  refine ⟨_, _, _, try_selection_ok dev r width height fmt hw hh, ?_⟩
  obtain ⟨ex, -⟩ := alignment_of_eq fmt dev.skip_x hx
  obtain ⟨ey, -⟩ := alignment_of_eq fmt dev.skip_y hy
  have hkx : (if fmt.is_bayer then 1 else 0) + dev.skip_x ≤ 4 := by split <;> omega
  have hky : (if fmt.is_bayer then 1 else 0) + dev.skip_y ≤ 4 := by split <;> omega
  have sx := mt9m111_clamp_spec r.left r.width 26 1280 _ (by omega) (dvd_1280 _ hkx)
    (by have := two_pow_le_16 _ hkx; omega)
  have sy := mt9m111_clamp_spec r.top r.height 8 1024 _ (by omega) (dvd_1024 _ hky)
    (by have := two_pow_le_16 _ hky; omega)
  rw [← ex] at sx
  rw [← ey] at sy
  refine ⟨sx.2.2.2.2.1, sy.2.2.2.2.1, ?_⟩
  intro hb h0x h0y hr
  subst hr
  have e2 : ∀ s, s = 0 → alignment_of fmt s = 2 := by
    intro s hs; subst hs; simp [alignment_of, hb]
  rw [e2 _ h0x, e2 _ h0y]
  decide

/-- Witness for claim C5: the crop `{0, 0, 4, 4}` on the Bayer format of the base catalog
with skip factors 0. -/
theorem C5_try_selection_position_witness :
    probe_state.skip_x ≤ 3 ∧ probe_state.skip_y ≤ 3 ∧
    ∃ r' w' h', _mt9m111_try_selection probe_state ⟨0, 0, 4, 4⟩ none none
        (some ⟨media_bus_fmt.SBGGR10_2X8_PADHI_LE, v4l2_colorspace.SRGB, true, true⟩) =
          .ok (r', w', h') ∧
      r'.left = min (max 0 26) (26 + 1280 - r'.width) ∧
      r'.top = min (max 0 8) (8 + 1024 - r'.height) ∧
      ((true : Bool) = true → probe_state.skip_x = 0 → probe_state.skip_y = 0 →
        (⟨0, 0, 4, 4⟩ : v4l2_rect) = ⟨0, 0, 4, 4⟩ → r' = ⟨26, 8, 4, 4⟩) :=
  ⟨by decide, by decide,
    C5_try_selection_position probe_state ⟨0, 0, 4, 4⟩ none none
      ⟨media_bus_fmt.SBGGR10_2X8_PADHI_LE, v4l2_colorspace.SRGB, true, true⟩
      (by decide) (by decide) (by decide) (by decide)⟩

/-! ## Paged register access -/

theorem emit_trace (w : World) (e : Event) : (w.emit e).trace = w.trace ++ [e] := rfl

theorem emit_dev (w : World) (e : Event) : (w.emit e).dev = w.dev := rfl

theorem page_map_cached (env : Env) (w : World) (q : Nat)
    (h : ((q >>> 8 : Nat) : Int) = w.dev.lastpage) : reg_page_map_set env w q = (0, w) := by
  simp [reg_page_map_set, h]

theorem page_map_invalid (env : Env) (w : World) (q : Nat)
    (h : ((q >>> 8 : Nat) : Int) ≠ w.dev.lastpage) (hp : 2 < q >>> 8) :
    reg_page_map_set env w q = (-EINVAL, w) := by
  simp [reg_page_map_set, h, hp]

theorem page_map_ok (env : Env) (w : World) (q : Nat)
    (h : ((q >>> 8 : Nat) : Int) ≠ w.dev.lastpage) (hp : q >>> 8 ≤ 2)
    (hok : env.i2c_smbus_write_word_swapped w.trace MT9M111_PAGE_MAP (q >>> 8) = 0) :
    reg_page_map_set env w q =
      (0, { dev := { w.dev with lastpage := ((q >>> 8 : Nat) : Int) },
            trace := w.trace ++ [Event.i2c_write MT9M111_PAGE_MAP (q >>> 8)] }) := by
  have hp2 : ¬ 2 < q >>> 8 := by omega
  simp [reg_page_map_set, h, hp2, hok, World.emit]

theorem page_map_fail (env : Env) (w : World) (q : Nat)
    (h : ((q >>> 8 : Nat) : Int) ≠ w.dev.lastpage) (hp : q >>> 8 ≤ 2)
    (hf : env.i2c_smbus_write_word_swapped w.trace MT9M111_PAGE_MAP (q >>> 8) ≠ 0) :
    reg_page_map_set env w q =
      (env.i2c_smbus_write_word_swapped w.trace MT9M111_PAGE_MAP (q >>> 8),
        { dev := w.dev, trace := w.trace ++ [Event.i2c_write MT9M111_PAGE_MAP (q >>> 8)] }) := by
  have hp2 : ¬ 2 < q >>> 8 := by omega
  simp [reg_page_map_set, h, hp2, hf, World.emit]

theorem reg_read_def (env : Env) (w : World) (reg : Nat) :
    mt9m111_reg_read env w reg =
      if (reg_page_map_set env w (reg % 2 ^ 16)).1 = 0 then
        (env.i2c_smbus_read_word_swapped (reg_page_map_set env w (reg % 2 ^ 16)).2.trace
            (reg % 2 ^ 16 &&& 0xff),
          (reg_page_map_set env w (reg % 2 ^ 16)).2.emit (.i2c_read (reg % 2 ^ 16 &&& 0xff)))
      else reg_page_map_set env w (reg % 2 ^ 16) := rfl

theorem reg_write_def (env : Env) (w : World) (reg data : Nat) :
    mt9m111_reg_write env w reg data =
      if (reg_page_map_set env w (reg % 2 ^ 16)).1 = 0 then
        (env.i2c_smbus_write_word_swapped (reg_page_map_set env w (reg % 2 ^ 16)).2.trace
            (reg % 2 ^ 16 &&& 0xff) (data % 2 ^ 16),
          (reg_page_map_set env w (reg % 2 ^ 16)).2.emit
            (.i2c_write (reg % 2 ^ 16 &&& 0xff) (data % 2 ^ 16)))
      else reg_page_map_set env w (reg % 2 ^ 16) := rfl

/-- An access to the cached page only puts its data transfer on the bus. -/
theorem run_cached (env : Env) (w : World) (a : reg_access)
    (h : (((a.reg % 2 ^ 16) >>> 8 : Nat) : Int) = w.dev.lastpage) :
    (a.run env w).2 = w.emit a.data_event := by
  cases a <;>
    simp only [reg_access.run, reg_access.data_event, reg_access.reg, reg_read_def,
      reg_write_def] at h ⊢ <;>
    rw [page_map_cached env w _ h] <;> rfl

/-- An access to another valid page first selects the page; when that write succeeds the
cache is updated and the data transfer follows. -/
theorem run_uncached (env : Env) (w : World) (a : reg_access)
    (h : (((a.reg % 2 ^ 16) >>> 8 : Nat) : Int) ≠ w.dev.lastpage)
    (hp : (a.reg % 2 ^ 16) >>> 8 ≤ 2)
    (hok : env.i2c_smbus_write_word_swapped w.trace MT9M111_PAGE_MAP
      ((a.reg % 2 ^ 16) >>> 8) = 0) :
    (a.run env w).2 =
      ({ dev := { w.dev with lastpage := (((a.reg % 2 ^ 16) >>> 8 : Nat) : Int) },
         trace := w.trace ++ [Event.i2c_write MT9M111_PAGE_MAP ((a.reg % 2 ^ 16) >>> 8)] } :
        World).emit a.data_event := by
  cases a <;>
    simp only [reg_access.run, reg_access.data_event, reg_access.reg, reg_read_def,
      reg_write_def] at h hp hok ⊢ <;>
    rw [page_map_ok env w _ h hp hok] <;> rfl

theorem run_accesses_cached (env : Env) (ops : List reg_access) (p : Nat) :
    ∀ w : World, w.dev.lastpage = (p : Int) → (∀ a ∈ ops, (a.reg % 2 ^ 16) >>> 8 = p) →
      (run_accesses env w ops).trace = w.trace ++ ops.map reg_access.data_event ∧
      (run_accesses env w ops).dev = w.dev := by
  induction ops with
  | nil => intro w _ _; simp [run_accesses]
  | cons a rest ih =>
    intro w hw hops
    have ha : (a.reg % 2 ^ 16) >>> 8 = p := hops a (List.mem_cons_self _ _)
    have hrun := run_cached env w a (by rw [ha, hw])
    have hrest := ih (w.emit a.data_event) (by rw [emit_dev]; exact hw)
      (fun b hb => hops b (List.mem_cons_of_mem _ hb))
    simp only [run_accesses, hrun]
    rw [hrest.1, hrest.2, emit_trace, emit_dev]
    simp

/-- Claim C9: page selection is idempotent.  On a bus whose writes succeed, for every
non-empty sequence of register reads and writes whose addresses all have the same page
byte `p <= 2`: if the page cache is unknown or holds another page, the trace grows by
exactly one write of `p` to the page-select register `0xF0` followed by the data
transfers at the low address bytes, and the cache then holds `p`; if the cache already
holds `p`, the trace grows by the data transfers alone, with no page-select write. -/
theorem C9_page_select_once (env : Env) (w : World) (ops : List reg_access) (p : Nat)
    (hbus : ∀ t c v, env.i2c_smbus_write_word_swapped t c v = 0)
    (hp : p ≤ 2) (hops : ∀ a ∈ ops, (a.reg % 2 ^ 16) >>> 8 = p) (hne : ops ≠ []) :
    (w.dev.lastpage ≠ (p : Int) →
      (run_accesses env w ops).trace =
        w.trace ++ Event.i2c_write MT9M111_PAGE_MAP p :: ops.map reg_access.data_event ∧
      (run_accesses env w ops).dev.lastpage = (p : Int)) ∧
    (w.dev.lastpage = (p : Int) →
      (run_accesses env w ops).trace = w.trace ++ ops.map reg_access.data_event) := by
  refine ⟨?_, fun hw => (run_accesses_cached env ops p w hw hops).1⟩
  intro hw
  cases ops with
  | nil => exact absurd rfl hne
  | cons a rest =>
    have ha : (a.reg % 2 ^ 16) >>> 8 = p := hops a (List.mem_cons_self _ _)
    have hrun := run_uncached env w a (by rw [ha]; exact fun h => hw h.symm)
      (by rw [ha]; exact hp) (hbus _ _ _)
    rw [ha] at hrun
    have hrest := run_accesses_cached env rest p
      (({ dev := { w.dev with lastpage := (p : Int) },
          trace := w.trace ++ [Event.i2c_write MT9M111_PAGE_MAP p] } : World).emit
        a.data_event) rfl
      (fun b hb => hops b (List.mem_cons_of_mem _ hb))
    simp only [run_accesses, hrun]
    rw [hrest.1, hrest.2, emit_trace, emit_dev]
    simp

/-- Witness for claim C9: three accesses to colour-pipe page 1 from the unknown page. -/
theorem C9_page_select_once_witness :
    (∀ (t : List Event) (c v : Nat), sim_env.i2c_smbus_write_word_swapped t c v = 0) ∧
    (1 : Nat) ≤ 2 ∧
    (held_world.dev.lastpage ≠ ((1 : Nat) : Int) →
      (run_accesses sim_env held_world
          [.write MT9M111_REDUCER_XSIZE_B 640, .read MT9M111_OPER_MODE_CTRL,
           .write MT9M111_REDUCER_XZOOM_B 1280]).trace =
        held_world.trace ++ Event.i2c_write MT9M111_PAGE_MAP 1 ::
          [reg_access.write MT9M111_REDUCER_XSIZE_B 640, .read MT9M111_OPER_MODE_CTRL,
           .write MT9M111_REDUCER_XZOOM_B 1280].map reg_access.data_event ∧
      (run_accesses sim_env held_world
          [.write MT9M111_REDUCER_XSIZE_B 640, .read MT9M111_OPER_MODE_CTRL,
           .write MT9M111_REDUCER_XZOOM_B 1280]).dev.lastpage = ((1 : Nat) : Int)) ∧
    (held_world.dev.lastpage = ((1 : Nat) : Int) →
      (run_accesses sim_env held_world
          [.write MT9M111_REDUCER_XSIZE_B 640, .read MT9M111_OPER_MODE_CTRL,
           .write MT9M111_REDUCER_XZOOM_B 1280]).trace =
        held_world.trace ++
          [reg_access.write MT9M111_REDUCER_XSIZE_B 640, .read MT9M111_OPER_MODE_CTRL,
           .write MT9M111_REDUCER_XZOOM_B 1280].map reg_access.data_event) :=
  ⟨fun _ _ _ => rfl, by decide,
    C9_page_select_once sim_env held_world
      [.write MT9M111_REDUCER_XSIZE_B 640, .read MT9M111_OPER_MODE_CTRL,
       .write MT9M111_REDUCER_XZOOM_B 1280] 1 (fun _ _ _ => rfl) (by decide)
      (by decide) (by decide)⟩

/-- Claim C10: a register access whose page selection fails is aborted without touching
the cache.  When the page byte of the address differs from the cached page: if it is
`> 2`, `mt9m111_reg_read` and `mt9m111_reg_write` return `-EINVAL` and leave state and
trace untouched (no bus transfer); if it is `<= 2` and the page-select write returns a
non-zero value, that value is returned, the only bus transfer is the page-select write,
the data transfer is not issued and `lastpage` keeps its previous value. -/
theorem C10_page_select_failure (env : Env) (w : World) (reg data : Nat)
    (hne : (((reg % 2 ^ 16) >>> 8 : Nat) : Int) ≠ w.dev.lastpage) :
    (2 < (reg % 2 ^ 16) >>> 8 →
      mt9m111_reg_read env w reg = (-EINVAL, w) ∧
      mt9m111_reg_write env w reg data = (-EINVAL, w)) ∧
    ((reg % 2 ^ 16) >>> 8 ≤ 2 →
      env.i2c_smbus_write_word_swapped w.trace MT9M111_PAGE_MAP ((reg % 2 ^ 16) >>> 8) ≠ 0 →
      mt9m111_reg_read env w reg =
        (env.i2c_smbus_write_word_swapped w.trace MT9M111_PAGE_MAP ((reg % 2 ^ 16) >>> 8),
          { dev := w.dev,
            trace := w.trace ++ [Event.i2c_write MT9M111_PAGE_MAP ((reg % 2 ^ 16) >>> 8)] }) ∧
      mt9m111_reg_write env w reg data =
        (env.i2c_smbus_write_word_swapped w.trace MT9M111_PAGE_MAP ((reg % 2 ^ 16) >>> 8),
          { dev := w.dev,
            trace := w.trace ++ [Event.i2c_write MT9M111_PAGE_MAP ((reg % 2 ^ 16) >>> 8)] })) := by
  have hE : (-EINVAL : Int) ≠ 0 := by decide
  constructor
  · intro hp
    rw [reg_read_def, reg_write_def, page_map_invalid env w _ hne hp]
    simp [hE]
  · intro hp hfail
    rw [reg_read_def, reg_write_def, page_map_fail env w _ hne hp hfail]
    exact ⟨if_neg hfail, if_neg hfail⟩

/-- Witness for claim C10: the page-select write for `GLOBAL_GAIN` fails with `-5` while
the page cache is unknown. -/
theorem C10_page_select_failure_witness :
    (((MT9M111_GLOBAL_GAIN % 2 ^ 16) >>> 8 : Nat) : Int) ≠ held_world.dev.lastpage ∧
    mt9m111_reg_read (fail_at_env 0) held_world MT9M111_GLOBAL_GAIN =
      (-5, { dev := held_world.dev, trace := [Event.i2c_write MT9M111_PAGE_MAP 0] }) ∧
    mt9m111_reg_write (fail_at_env 0) held_world MT9M111_GLOBAL_GAIN 16 =
      (-5, { dev := held_world.dev, trace := [Event.i2c_write MT9M111_PAGE_MAP 0] }) :=
  ⟨by decide,
    (C10_page_select_failure (fail_at_env 0) held_world MT9M111_GLOBAL_GAIN 16
      (by decide)).2 (by decide) (by decide)⟩

/-! ## Gain -/

/-- The register encoding of `mt9m111_set_global_gain` on the ranges where it follows the
piecewise scheme: raw for 0..63, halved with `0x200` for 64..127, quartered with `0x600`
for 128..251; above 252 the call is rejected without a bus transfer. -/
theorem set_global_gain_encoding (env : Env) (w : World) (g : Nat) :
    (g ≤ 63 → mt9m111_set_global_gain env w g =
      mt9m111_reg_write env w MT9M111_GLOBAL_GAIN g) ∧
    (64 ≤ g → g ≤ 127 → mt9m111_set_global_gain env w g =
      mt9m111_reg_write env w MT9M111_GLOBAL_GAIN ((g / 2) ||| 0x200)) ∧
    (128 ≤ g → g ≤ 251 → mt9m111_set_global_gain env w g =
      mt9m111_reg_write env w MT9M111_GLOBAL_GAIN ((g / 4) ||| 0x600)) ∧
    (252 < g → mt9m111_set_global_gain env w g = (-EINVAL, w)) := by
  refine ⟨?_, ?_, ?_, ?_⟩
  · intro h
    have hv : global_gain_val g = g := by interval_cases g <;> rfl
    have hn : ¬ ((g : Int) > 63 * 2 * 2) := by omega
    simp only [mt9m111_set_global_gain, hn, if_false, hv]
  · intro h1 h2
    have hv : global_gain_val g = (g / 2) ||| 0x200 := by interval_cases g <;> rfl
    have hn : ¬ ((g : Int) > 63 * 2 * 2) := by omega
    simp only [mt9m111_set_global_gain, hn, if_false, hv]
  · intro h1 h2
    have hv : global_gain_val g = (g / 4) ||| 0x600 := by interval_cases g <;> rfl
    have hn : ¬ ((g : Int) > 63 * 2 * 2) := by omega
    simp only [mt9m111_set_global_gain, hn, if_false, hv]
  · intro h
    have hn : (g : Int) > 63 * 2 * 2 := by omega
    simp only [mt9m111_set_global_gain, hn, if_true]

/-- Claim C7, the code at the failing input: gain 252 is accepted (it is not `> 252`) but
falls outside the quarter range `gain < 252`, so the raw value 252 (`0x0fc`) is written to
`GLOBAL_GAIN` and not `(252 / 4) | 0x600 = 0x63f`. -/
theorem C7_set_global_gain_at_252 :
    mt9m111_set_global_gain sim_env held_world 252 =
      (0, { dev := { held_world.dev with lastpage := 0 },
            trace := [Event.i2c_write MT9M111_PAGE_MAP 0,
                      Event.i2c_write MT9M111_GLOBAL_GAIN 252] }) ∧
    ((252 / 4) ||| 0x600 : Nat) = 0x63f ∧
    ∀ (env : Env) (w : World), mt9m111_set_global_gain env w 252 =
      mt9m111_reg_write env w MT9M111_GLOBAL_GAIN 252 :=
  ⟨rfl, rfl, fun _ _ => rfl⟩

/-- What `mt9m111_get_global_gain` returns for a register word below `2 ^ 16`. -/
theorem get_global_gain_decode (env : Env) (w : World)
    (h : 0 ≤ (mt9m111_reg_read env w MT9M111_GLOBAL_GAIN).1) :
    (mt9m111_get_global_gain env w).1 =
      ((((mt9m111_reg_read env w MT9M111_GLOBAL_GAIN).1.toNat &&& 0x2f) *
        (1 <<< (((mt9m111_reg_read env w MT9M111_GLOBAL_GAIN).1.toNat >>> 10) &&& 1)) *
        (1 <<< (((mt9m111_reg_read env w MT9M111_GLOBAL_GAIN).1.toNat >>> 9) &&& 1)) : Nat) :
        Int) := by
  simp only [mt9m111_get_global_gain, h, if_true]

/-- Claim C8, the code at the failing input: gain 16 is written as the register word 16,
and decoding that word with `mt9m111_get_global_gain` (mask `0x2f`, which drops bit 4)
returns 0, not 16. -/
theorem C8_gain_roundtrip_at_16 :
    mt9m111_set_global_gain sim_env held_world 16 =
      (0, { dev := { held_world.dev with lastpage := 0 },
            trace := [Event.i2c_write MT9M111_PAGE_MAP 0,
                      Event.i2c_write MT9M111_GLOBAL_GAIN 16] }) ∧
    sim_env.i2c_smbus_read_word_swapped
      [Event.i2c_write MT9M111_PAGE_MAP 0, Event.i2c_write MT9M111_GLOBAL_GAIN 16]
      MT9M111_GLOBAL_GAIN = 16 ∧
    (mt9m111_get_global_gain sim_env
      (mt9m111_set_global_gain sim_env held_world 16).2).1 = 0 :=
  ⟨rfl, rfl, rfl⟩

/-! ## Failed transfers in a trace -/

theorem ff_single (env : Env) (t : List Event) (e : Event) :
    first_failure env t [e] =
      if e.bus_result env t < 0 then some (e.bus_result env t, []) else none := rfl

theorem ff_append_none (env : Env) (a b : List Event) :
    ∀ t, first_failure env t a = none →
      first_failure env t (a ++ b) = first_failure env (t ++ a) b := by
  induction a with
  | nil => intro t _; simp
  | cons e rest ih =>
    intro t h
    simp only [first_failure, List.cons_append] at h ⊢
    split at h
    · cases h
    · rename_i hneg
      rw [if_neg hneg]
      show first_failure env (t ++ [e]) (rest ++ b) = _
      rw [ih _ h, List.append_assoc]
      rfl

theorem ff_append_some (env : Env) (a b : List Event) (rc : Int) (rest : List Event) :
    ∀ t, first_failure env t a = some (rc, rest) →
      first_failure env t (a ++ b) = some (rc, rest ++ b) := by
  induction a with
  | nil => intro t h; cases h
  | cons e tl ih =>
    intro t h
    simp only [first_failure, List.cons_append] at h ⊢
    split at h
    · rename_i hneg
      rw [if_pos hneg]
      cases h
      rfl
    · rename_i hneg
      rw [if_neg hneg]
      exact ih _ h

theorem ff_non_i2c (env : Env) (a : List Event) :
    ∀ t, (∀ e ∈ a, e.is_i2c = false) → first_failure env t a = none := by
  induction a with
  | nil => intro t _; rfl
  | cons e tl ih =>
    intro t h
    have he : e.is_i2c = false := h e (List.mem_cons_self _ _)
    have hr : e.bus_result env t = 0 := by
      cases e <;> simp [Event.is_i2c] at he <;> rfl
    simp only [first_failure, hr, lt_irrefl, if_false]
    exact ih _ (fun x hx => h x (List.mem_cons_of_mem _ hx))

/-! ## Runs of bus transfers -/

theorem BusRun_mono {env : Env} {w : World} {res : Int × World} {v v' : Prop}
    (hv : v' → v) (h : BusRun env w res v) : BusRun env w res v' := by
  obtain ⟨evs, lp, h1, h2, h3, h4, h5⟩ := h
  exact ⟨evs, lp, h1, h2, h3, h4, fun x => h5 (hv x)⟩

theorem BusRun_pure (env : Env) (w : World) (rc : Int) (v : Prop) (h : v → 0 ≤ rc) :
    BusRun env w (rc, w) v :=
  ⟨[], w.dev.lastpage, by simp, rfl, fun _ => rfl, fun _ _ hc => (by cases hc),
    fun hv _ => h hv⟩

theorem BusRun_single (env : Env) (w w' : World) (pre : List Event) (lp : Int) (e : Event)
    (v : Prop) (ht : w'.trace = w.trace ++ pre) (hd : w'.dev = { w.dev with lastpage := lp })
    (hpre : first_failure env w.trace pre = none) :
    BusRun env w (e.bus_result env w'.trace, w'.emit e) v := by
  refine ⟨pre ++ [e], lp, ?_, ?_, ?_, ?_, ?_⟩
  · rw [emit_trace, ht, List.append_assoc]
  · rw [emit_dev, hd]
  · intro h
    rw [ff_append_none env pre [e] _ hpre, ff_single, ← ht, if_neg (not_lt.mpr h)]
  · intro rc rest h
    rw [ff_append_none env pre [e] _ hpre, ff_single, ← ht] at h
    split at h
    · cases h; exact ⟨rfl, rfl⟩
    · cases h
  · intro _ h
    rw [ff_append_none env pre [e] _ hpre, ff_single, ← ht] at h
    split at h
    · cases h
    · rename_i hn; exact not_lt.mp hn

theorem BusRun_bind {env : Env} {w : World} {p q : Int × World} {v1 v2 : Prop}
    (h1 : BusRun env w p v1) (h2 : 0 ≤ p.1 → BusRun env p.2 q v2) :
    BusRun env w (if 0 ≤ p.1 then q else p) (v1 ∧ v2) := by
  by_cases hp : 0 ≤ p.1
  · rw [if_pos hp]
    obtain ⟨evs1, lp1, a1, a2, a3, a4, a5⟩ := h1
    obtain ⟨evs2, lp2, b1, b2, b3, b4, b5⟩ := h2 hp
    have hnone := a3 hp
    rw [a1] at b3 b4 b5
    refine ⟨evs1 ++ evs2, lp2, ?_, ?_, ?_, ?_, ?_⟩
    · rw [b1, a1, List.append_assoc]
    · rw [b2, a2]
    · intro h; rw [ff_append_none env evs1 evs2 _ hnone]; exact b3 h
    · intro rc rest h
      rw [ff_append_none env evs1 evs2 _ hnone] at h
      exact b4 rc rest h
    · intro hv h
      rw [ff_append_none env evs1 evs2 _ hnone] at h
      exact b5 hv.2 h
  · rw [if_neg hp]
    exact BusRun_mono (fun hv => hv.1) h1

theorem reg_write_run (env : Env) (w : World) (reg data : Nat) :
    BusRun env w (mt9m111_reg_write env w reg data) ((reg % 2 ^ 16) >>> 8 ≤ 2) := by
  rw [reg_write_def]
  by_cases hc : (((reg % 2 ^ 16) >>> 8 : Nat) : Int) = w.dev.lastpage
  · rw [page_map_cached env w _ hc]
    exact BusRun_single env w w [] w.dev.lastpage
      (.i2c_write (reg % 2 ^ 16 &&& 0xff) (data % 2 ^ 16)) _ (by simp) rfl rfl
  · by_cases hp : (reg % 2 ^ 16) >>> 8 ≤ 2
    · by_cases hok : env.i2c_smbus_write_word_swapped w.trace MT9M111_PAGE_MAP
          ((reg % 2 ^ 16) >>> 8) = 0
      · rw [page_map_ok env w _ hc hp hok]
        refine BusRun_single env w _ [Event.i2c_write MT9M111_PAGE_MAP ((reg % 2 ^ 16) >>> 8)]
          _ (.i2c_write (reg % 2 ^ 16 &&& 0xff) (data % 2 ^ 16)) _ rfl rfl ?_
        have hz : (Event.i2c_write MT9M111_PAGE_MAP ((reg % 2 ^ 16) >>> 8)).bus_result env
            w.trace = 0 := hok
        rw [ff_single, hz]
        rfl
      · rw [page_map_fail env w _ hc hp hok, if_neg hok]
        exact BusRun_single env w w [] w.dev.lastpage
          (.i2c_write MT9M111_PAGE_MAP ((reg % 2 ^ 16) >>> 8)) _ (by simp) rfl rfl
    · rw [page_map_invalid env w _ hc (by omega)]
      have hE : (-EINVAL : Int) ≠ 0 := by decide
      rw [if_neg hE]
      exact BusRun_pure env w _ _ (fun hv => absurd hv hp)

theorem reg_read_run (env : Env) (w : World) (reg : Nat) :
    BusRun env w (mt9m111_reg_read env w reg) ((reg % 2 ^ 16) >>> 8 ≤ 2) := by
  rw [reg_read_def]
  by_cases hc : (((reg % 2 ^ 16) >>> 8 : Nat) : Int) = w.dev.lastpage
  · rw [page_map_cached env w _ hc]
    exact BusRun_single env w w [] w.dev.lastpage
      (.i2c_read (reg % 2 ^ 16 &&& 0xff)) _ (by simp) rfl rfl
  · by_cases hp : (reg % 2 ^ 16) >>> 8 ≤ 2
    · by_cases hok : env.i2c_smbus_write_word_swapped w.trace MT9M111_PAGE_MAP
          ((reg % 2 ^ 16) >>> 8) = 0
      · rw [page_map_ok env w _ hc hp hok]
        refine BusRun_single env w _ [Event.i2c_write MT9M111_PAGE_MAP ((reg % 2 ^ 16) >>> 8)]
          _ (.i2c_read (reg % 2 ^ 16 &&& 0xff)) _ rfl rfl ?_
        have hz : (Event.i2c_write MT9M111_PAGE_MAP ((reg % 2 ^ 16) >>> 8)).bus_result env
            w.trace = 0 := hok
        rw [ff_single, hz]
        rfl
      · rw [page_map_fail env w _ hc hp hok, if_neg hok]
        exact BusRun_single env w w [] w.dev.lastpage
          (.i2c_write MT9M111_PAGE_MAP ((reg % 2 ^ 16) >>> 8)) _ (by simp) rfl rfl
    · rw [page_map_invalid env w _ hc (by omega)]
      have hE : (-EINVAL : Int) ≠ 0 := by decide
      rw [if_neg hE]
      exact BusRun_pure env w _ _ (fun hv => absurd hv hp)

theorem reg_mask_run (env : Env) (w : World) (reg data mask : Nat) :
    BusRun env w (mt9m111_reg_mask env w reg data mask) ((reg % 2 ^ 16) >>> 8 ≤ 2) := by
  have h := BusRun_bind (reg_read_run env w reg)
    (fun _ => reg_write_run env (mt9m111_reg_read env w reg).2 reg
      (((mt9m111_reg_read env w reg).1.toNat &&& (2 ^ 32 - 1 - mask % 2 ^ 16)) |||
        (data % 2 ^ 16)))
  exact BusRun_mono (fun hv => ⟨hv, hv⟩) h

theorem write_setup_run (env : Env) (l : List regval) :
    ∀ (rc : Int) (w : World), 0 ≤ rc →
      BusRun env w (write_setup env l rc w) (∀ s ∈ l, (s.reg % 2 ^ 16) >>> 8 ≤ 2) := by
  induction l with
  | nil => intro rc w h; exact BusRun_pure env w rc _ (fun _ => h)
  | cons s rest ih =>
    intro rc w _
    have h := BusRun_bind (reg_write_run env w s.reg s.val)
      (fun hp => ih (mt9m111_reg_write env w s.reg s.val).1
        (mt9m111_reg_write env w s.reg s.val).2 hp)
    have e : write_setup env (s :: rest) rc w =
        if 0 ≤ (mt9m111_reg_write env w s.reg s.val).1 then
          write_setup env rest (mt9m111_reg_write env w s.reg s.val).1
            (mt9m111_reg_write env w s.reg s.val).2
        else mt9m111_reg_write env w s.reg s.val := by
      simp only [write_setup]
      by_cases hn : (mt9m111_reg_write env w s.reg s.val).1 < 0
      · rw [if_pos hn, if_neg (not_le.mpr hn)]
      · rw [if_neg hn, if_pos (not_lt.mp hn)]
    rw [e]
    exact BusRun_mono
      (fun hv => ⟨hv s (List.mem_cons_self _ _), fun x hx => hv x (List.mem_cons_of_mem _ hx)⟩) h

/-! ## Acquire and release -/

theorem pinctrl_state_spec (env : Env) (w : World) (st : mt9m111_pin_state) :
    ∃ evs, (mt9m111_pinctrl_state env w st).2.trace = w.trace ++ evs ∧
      (∀ e ∈ evs, e.is_i2c = false) ∧ (mt9m111_pinctrl_state env w st).2.dev = w.dev := by
  unfold mt9m111_pinctrl_state
  simp only
  split
  · exact ⟨[], by simp, by simp, rfl⟩
  · exact ⟨[.pinctrl_select st], rfl, by simp [Event.is_i2c], rfl⟩

theorem get_device_spec (env : Env) (w : World) :
    ∃ evs, (mt9m111_get_device env w).2.trace = w.trace ++ evs ∧
      (∀ e ∈ evs, e.is_i2c = false) ∧
      ((mt9m111_get_device env w).1 < 0 → (mt9m111_get_device env w).2.dev = w.dev) ∧
      (¬ (mt9m111_get_device env w).1 < 0 → (mt9m111_get_device env w).1 = 0 ∧
        (mt9m111_get_device env w).2.dev =
          { w.dev with ref_cnt := (w.dev.ref_cnt + 1) % 2 ^ 32 }) := by
  unfold mt9m111_get_device
  by_cases h0 : w.dev.ref_cnt = 0
  · rw [if_pos h0]
    by_cases hc : w.dev.has_clk = true
    · rw [if_pos hc]
      simp only
      by_cases hrc : env.v4l2_clk_enable w.trace < 0
      · rw [if_pos hrc]
        exact ⟨[.clk_enable], rfl, by simp [Event.is_i2c], fun _ => rfl,
          fun hn => absurd hrc hn⟩
      · rw [if_neg hrc]
        obtain ⟨evs, e1, e2, e3⟩ := pinctrl_state_spec env (w.emit .clk_enable)
          .PIN_STATE_IDLE
        by_cases hp : (mt9m111_pinctrl_state env (w.emit .clk_enable) .PIN_STATE_IDLE).1 < 0
        · rw [if_pos hp]
          refine ⟨[.clk_enable] ++ evs ++ [.clk_disable], ?_, ?_, ?_, ?_⟩
          · rw [emit_trace, e1, emit_trace]; simp
          · intro e he
            simp only [List.mem_append, List.mem_singleton] at he
            rcases he with (he | he) | he
            · rw [he]; rfl
            · exact e2 e he
            · rw [he]; rfl
          · intro _; rw [emit_dev, e3, emit_dev]
          · intro hn; exact absurd hp hn
        · rw [if_neg hp]
          refine ⟨[.clk_enable] ++ evs, ?_, ?_, ?_, ?_⟩
          · show (mt9m111_pinctrl_state env (w.emit .clk_enable) .PIN_STATE_IDLE).2.trace = _
            rw [e1, emit_trace]; simp
          · intro e he
            simp only [List.mem_append, List.mem_singleton] at he
            rcases he with he | he
            · rw [he]; rfl
            · exact e2 e he
          · intro hn; exact absurd (show (0 : Int) < 0 from hn) (lt_irrefl 0)
          · intro _
            refine ⟨rfl, ?_⟩
            show ({ (mt9m111_pinctrl_state env (w.emit .clk_enable) .PIN_STATE_IDLE).2.dev with
              ref_cnt := _ } : mt9m111) = _
            rw [e3, emit_dev]
    · rw [if_neg hc]
      simp only
      obtain ⟨evs, e1, e2, e3⟩ := pinctrl_state_spec env w .PIN_STATE_IDLE
      by_cases hp : (mt9m111_pinctrl_state env w .PIN_STATE_IDLE).1 < 0
      · rw [if_pos hp]
        exact ⟨evs, e1, e2, fun _ => e3, fun hn => absurd hp hn⟩
      · rw [if_neg hp]
        refine ⟨evs, e1, e2, fun hn => absurd (show (0 : Int) < 0 from hn) (lt_irrefl 0), fun _ => ⟨rfl, ?_⟩⟩
        show ({ (mt9m111_pinctrl_state env w .PIN_STATE_IDLE).2.dev with
          ref_cnt := _ } : mt9m111) = _
        rw [e3]
  · rw [if_neg h0]
    exact ⟨[], by simp, by simp, fun hn => absurd (show (0 : Int) < 0 from hn) (lt_irrefl 0), fun _ => ⟨rfl, rfl⟩⟩

theorem put_device_spec (env : Env) (w : World) (h : w.dev.ref_cnt ≠ 0) :
    ∃ evs, (mt9m111_put_device env w).trace = w.trace ++ evs ∧
      (∀ e ∈ evs, e.is_i2c = false) ∧
      (mt9m111_put_device env w).dev = { w.dev with ref_cnt := w.dev.ref_cnt - 1 } := by
  unfold mt9m111_put_device
  rw [if_neg h]
  simp only
  by_cases h1 : w.dev.ref_cnt = 1
  · rw [if_pos h1]
    obtain ⟨evs, e1, e2, e3⟩ := pinctrl_state_spec env w .PIN_STATE_SLEEP
    by_cases hc : w.dev.has_clk = true
    · rw [if_pos hc]
      refine ⟨evs ++ [.clk_disable], ?_, ?_, ?_⟩
      · show ((mt9m111_pinctrl_state env w .PIN_STATE_SLEEP).2.emit .clk_disable).trace = _
        rw [emit_trace, e1]; simp
      · intro e he
        simp only [List.mem_append, List.mem_singleton] at he
        rcases he with he | he
        · exact e2 e he
        · rw [he]; rfl
      · show ({ ((mt9m111_pinctrl_state env w .PIN_STATE_SLEEP).2.emit .clk_disable).dev with
          ref_cnt := _ } : mt9m111) = _
        rw [emit_dev, e3]
    · rw [if_neg hc]
      refine ⟨evs, e1, e2, ?_⟩
      show ({ (mt9m111_pinctrl_state env w .PIN_STATE_SLEEP).2.dev with
        ref_cnt := _ } : mt9m111) = _
      rw [e3]
  · rw [if_neg h1]
    exact ⟨[], by simp, by simp, rfl⟩

/-! ## Geometry commit -/

theorem ff_between (env : Env) (t evs_g evs evs_p : List Event)
    (hg : ∀ e ∈ evs_g, e.is_i2c = false) (hp : ∀ e ∈ evs_p, e.is_i2c = false) :
    first_failure env t (evs_g ++ evs ++ evs_p) =
      (first_failure env (t ++ evs_g) evs).map (fun x => (x.1, x.2 ++ evs_p)) := by
  rw [List.append_assoc, ff_append_none env evs_g _ t (ff_non_i2c env evs_g t hg)]
  cases h : first_failure env (t ++ evs_g) evs with
  | none =>
    rw [ff_append_none env evs evs_p _ h, ff_non_i2c env evs_p _ hp]
    rfl
  | some x =>
    rw [ff_append_some env evs evs_p x.1 x.2 _ h]
    rfl

theorem commit_finish (env : Env) (w wg : World) (cm : Int × World) (valid : Prop)
    (r : v4l2_rect) (width height : Nat) (evs_g : List Event)
    (href : w.dev.ref_cnt + 1 < 2 ^ 32)
    (hg1 : wg.trace = w.trace ++ evs_g) (hg2 : ∀ e ∈ evs_g, e.is_i2c = false)
    (hg3 : wg.dev = { w.dev with ref_cnt := (w.dev.ref_cnt + 1) % 2 ^ 32 })
    (hrun : BusRun env wg cm valid) :
    CommitOutcome env w r width height
      (if cm.1 < 0 then (cm.1, mt9m111_put_device env cm.2)
       else (0, mt9m111_put_device env
          { cm.2 with dev := { cm.2.dev with
              width := width, height := height, rect := r, dirty_dim := false } }))
      valid := by
  obtain ⟨evs, lp, c1, c2, c3, c4, c5⟩ := hrun
  have hmod : (w.dev.ref_cnt + 1) % 2 ^ 32 = w.dev.ref_cnt + 1 := Nat.mod_eq_of_lt href
  rw [hg1] at c3 c4 c5
  by_cases hneg : cm.1 < 0
  · rw [if_pos hneg]
    have hrc : cm.2.dev.ref_cnt = w.dev.ref_cnt + 1 := by rw [c2, hg3]; exact hmod
    obtain ⟨evs_p, p1, p2, p3⟩ := put_device_spec env cm.2 (by rw [hrc]; omega)
    have hff := ff_between env w.trace evs_g evs evs_p hg2 p2
    refine ⟨evs_g ++ evs ++ evs_p, ?_, ?_, ?_, ?_, ?_⟩
    · show (mt9m111_put_device env cm.2).trace = _
      rw [p1, c1, hg1]
      simp only [List.append_assoc]
    · intro rc rest h
      rw [hff] at h
      cases hx : first_failure env (w.trace ++ evs_g) evs with
      | none => rw [hx] at h; cases h
      | some x =>
        rw [hx] at h
        obtain ⟨x1, x2⟩ := x
        obtain ⟨k1, k2⟩ := c4 x1 x2 hx
        simp only [Option.map_some', Option.some.injEq, Prod.mk.injEq] at h
        refine ⟨by rw [← h.1]; exact k1, ?_⟩
        rw [← h.2, k2]
        exact p2
    · intro _
      show (mt9m111_put_device env cm.2).dev.rect = _ ∧ _
      rw [p3, hrc, c2, hg3]
      exact ⟨rfl, rfl, rfl, rfl, by simp⟩
    · intro h
      exact absurd hneg (not_lt.mpr h)
    · intro hv h
      rw [hff] at h
      cases hx : first_failure env (w.trace ++ evs_g) evs with
      | none => exact absurd hneg (not_lt.mpr (c5 hv hx))
      | some x => rw [hx] at h; cases h
  · rw [if_neg hneg]
    have hnone := c3 (not_lt.mp hneg)
    have hrc : cm.2.dev.ref_cnt = w.dev.ref_cnt + 1 := by rw [c2, hg3]; exact hmod
    obtain ⟨evs_p, p1, p2, p3⟩ := put_device_spec env
      { cm.2 with dev := { cm.2.dev with
          width := width, height := height, rect := r, dirty_dim := false } }
      (by show cm.2.dev.ref_cnt ≠ 0; rw [hrc]; omega)
    have hff := ff_between env w.trace evs_g evs evs_p hg2 p2
    rw [hnone] at hff
    refine ⟨evs_g ++ evs ++ evs_p, ?_, ?_, ?_, ?_, ?_⟩
    · show (mt9m111_put_device env _).trace = _
      rw [p1]
      show cm.2.trace ++ evs_p = _
      rw [c1, hg1]
      simp only [List.append_assoc]
    · intro rc rest h
      rw [hff] at h
      cases h
    · intro h
      exact absurd (show (0 : Int) < 0 from h) (lt_irrefl 0)
    · intro _
      refine ⟨rfl, hff, ?_⟩
      show (mt9m111_put_device env _).dev.rect = _ ∧ _
      rw [p3]
      refine ⟨rfl, rfl, rfl, rfl, ?_⟩
      show cm.2.dev.ref_cnt - 1 = _
      rw [hrc]
      simp
    · intro _ _
      rfl

theorem mem_ite_single {c : Prop} [Decidable c] (x s : regval)
    (h : s ∈ (if c then [x] else [])) : s = x := by
  split at h
  · exact List.mem_singleton.mp h
  · exact absurd h (List.not_mem_nil _)

theorem setup_pages_valid (dev : mt9m111) (ctx : mt9m111_context) (r : v4l2_rect)
    (width height : Nat) (hctx : ctx = context_a ∨ ctx = context_b) :
    ∀ s ∈ set_selection_setup dev ctx r width height, (s.reg % 2 ^ 16) >>> 8 ≤ 2 := by
  intro s hs
  unfold set_selection_setup at hs
  simp only [List.mem_append] at hs
  rcases hs with (((((h | h) | h) | h) | h) | h) | h
  · simp only [List.mem_cons, List.mem_singleton, List.not_mem_nil, or_false] at h
    rcases h with h | h | h | h <;> rw [h] <;> dsimp only <;> decide
  all_goals
    have e := mem_ite_single _ s h
    rw [e]
    rcases hctx with rfl | rfl <;> dsimp only <;> decide

theorem commit_abort (env : Env) (w : World) (r : v4l2_rect) (width height : Nat)
    (res : Int × World) (valid : Prop) (evs : List Event)
    (h1 : res.2.trace = w.trace ++ evs) (h2 : ∀ e ∈ evs, e.is_i2c = false)
    (h3 : res.2.dev = w.dev) (h4 : res.1 < 0) (hv : ¬ valid) :
    CommitOutcome env w r width height res valid := by
  have hff := ff_non_i2c env evs w.trace h2
  refine ⟨evs, h1, ?_, ?_, ?_, ?_⟩
  · intro rc rest h; rw [hff] at h; cases h
  · intro _; rw [h3]; exact ⟨rfl, rfl, rfl, rfl, rfl⟩
  · intro h; exact absurd h4 (not_lt.mpr h)
  · intro h; exact absurd h hv

theorem set_selection_outcome (env : Env) (w : World) (r : v4l2_rect)
    (fmt : Option mt9m111_datafmt) (width height : Nat)
    (href : w.dev.ref_cnt + 1 < 2 ^ 32) :
    CommitOutcome env w r width height (_mt9m111_set_selection env w r fmt width height)
      (fmt ≠ none ∧ (w.dev.ctx = some context_a ∨ w.dev.ctx = some context_b) ∧
        w.dev.width ≠ 0 ∧ w.dev.height ≠ 0 ∧ 0 ≤ (mt9m111_get_device env w).1) := by
  have hE : (-EINVAL : Int) < 0 := by decide
  cases fmt with
  | none =>
    exact commit_abort env w r width height _ _ [] (by simp [_mt9m111_set_selection])
      (by simp) (by simp [_mt9m111_set_selection]) (by simp [_mt9m111_set_selection, hE])
      (fun hv => hv.1 rfl)
  | some f =>
    cases hctx : w.dev.ctx with
    | none =>
      exact commit_abort env w r width height _ _ []
        (by simp [_mt9m111_set_selection, hctx]) (by simp)
        (by simp [_mt9m111_set_selection, hctx]) (by simp [_mt9m111_set_selection, hctx, hE])
        (fun hv => by rcases hv.2.1 with h | h <;> cases h)
    | some ctx =>
      by_cases hguard : w.dev.width = 0 ∨ w.dev.height = 0
      · exact commit_abort env w r width height _ _ []
          (by simp [_mt9m111_set_selection, hctx, hguard]) (by simp)
          (by simp [_mt9m111_set_selection, hctx, hguard])
          (by simp [_mt9m111_set_selection, hctx, hguard, hE])
          (fun hv => by
            rcases hguard with h | h
            · exact hv.2.2.1 h
            · exact hv.2.2.2.1 h)
      · obtain ⟨evs_g, g1, g2, g3, g4⟩ := get_device_spec env w
        by_cases hg : (mt9m111_get_device env w).1 < 0
        · have e : _mt9m111_set_selection env w r (some f) width height =
              mt9m111_get_device env w := by
            simp only [_mt9m111_set_selection, hctx, hguard, if_false, hg, if_true]
          rw [e]
          exact commit_abort env w r width height _ _ evs_g g1 g2 (g3 hg) hg
            (fun hv => absurd hg (not_lt.mpr hv.2.2.2.2))
        · obtain ⟨g5, g6⟩ := g4 hg
          have hb := write_setup_run env (set_selection_setup w.dev ctx r width height)
            (mt9m111_get_device env w).1 (mt9m111_get_device env w).2 (not_lt.mp hg)
          have hcm := BusRun_bind hb (fun _ => reg_mask_run env
            (write_setup env (set_selection_setup w.dev ctx r width height)
              (mt9m111_get_device env w).1 (mt9m111_get_device env w).2).2 ctx.read_mode
            ((skip_code (write_setup env (set_selection_setup w.dev ctx r width height)
                (mt9m111_get_device env w).1 (mt9m111_get_device env w).2).2.dev.skip_x <<< 3) |||
              (skip_code (write_setup env (set_selection_setup w.dev ctx r width height)
                (mt9m111_get_device env w).1 (mt9m111_get_device env w).2).2.dev.skip_y <<< 2))
            (0x0f <<< 2))
          have hfin := commit_finish env w (mt9m111_get_device env w).2 _ _ r width height
            evs_g href g1 g2 g6 hcm
          unfold _mt9m111_set_selection
          simp only [hctx, hguard, if_false, hg]
          generalize write_setup env (set_selection_setup w.dev ctx r width height)
            (mt9m111_get_device env w).1 (mt9m111_get_device env w).2 = b at hfin ⊢
          generalize hm : mt9m111_reg_mask env b.2 ctx.read_mode
            ((skip_code b.2.dev.skip_x <<< 3) ||| (skip_code b.2.dev.skip_y <<< 2))
            (0x0f <<< 2) = m at hfin ⊢
          have hres : (if b.1 < 0 then (b.1, mt9m111_put_device env b.2)
              else if m.1 < 0 then (m.1, mt9m111_put_device env m.2)
              else (0, mt9m111_put_device env
                { m.2 with dev := { m.2.dev with
                    width := width, height := height, rect := r, dirty_dim := false } })) =
              (if (if 0 ≤ b.1 then m else b).1 < 0 then
                ((if 0 ≤ b.1 then m else b).1,
                  mt9m111_put_device env (if 0 ≤ b.1 then m else b).2)
              else (0, mt9m111_put_device env
                { (if 0 ≤ b.1 then m else b).2 with dev :=
                  { (if 0 ≤ b.1 then m else b).2.dev with
                    width := width, height := height, rect := r, dirty_dim := false } })) := by
            by_cases hbn : b.1 < 0
            · rw [if_pos hbn, if_neg (not_le.mpr hbn), if_pos hbn]
            · rw [if_neg hbn, if_pos (not_lt.mp hbn)]
          rw [hres]
          refine (?_ : CommitOutcome env w r width height _ _)
          obtain ⟨evs, k1, k2, k3, k4, k5⟩ := hfin
          refine ⟨evs, k1, k2, k3, k4, ?_⟩
          intro hv
          apply k5
          refine ⟨setup_pages_valid w.dev ctx r width height ?_, ?_⟩
          · rcases hv.2.1 with h | h
            · left; exact (Option.some.inj h)
            · right; exact (Option.some.inj h)
          · rcases hv.2.1 with h | h <;> rw [Option.some.inj h] <;> decide

/-- Claim C6: the geometry commit `_mt9m111_set_selection` updates the in-memory mirror
only if every device write succeeds.  The call appends the events `evs` to the trace.
If a bus transfer of the call fails (returns a negative value), the call returns that
error and no bus transfer follows the failed one; whenever the call returns a negative
value, `rect`, `width`, `height`, `dirty_dim` and `ref_cnt` are exactly as before the
call; whenever it does not, it returns 0, no transfer failed, `rect`, `width` and
`height` equal the arguments, `dirty_dim` is cleared and `ref_cnt` is as before the call;
and with a format, context A or B, non-zero stored sizes and a successful acquire, a run
in which no transfer fails returns 0. -/
theorem C6_set_selection_commit (env : Env) (w : World) (r : v4l2_rect)
    (fmt : Option mt9m111_datafmt) (width height : Nat)
    (href : w.dev.ref_cnt + 1 < 2 ^ 32) :
    ∃ evs, (_mt9m111_set_selection env w r fmt width height).2.trace = w.trace ++ evs ∧
      (∀ rc rest, first_failure env w.trace evs = some (rc, rest) →
        (_mt9m111_set_selection env w r fmt width height).1 = rc ∧
        ∀ e ∈ rest, e.is_i2c = false) ∧
      ((_mt9m111_set_selection env w r fmt width height).1 < 0 →
        (_mt9m111_set_selection env w r fmt width height).2.dev.rect = w.dev.rect ∧
        (_mt9m111_set_selection env w r fmt width height).2.dev.width = w.dev.width ∧
        (_mt9m111_set_selection env w r fmt width height).2.dev.height = w.dev.height ∧
        (_mt9m111_set_selection env w r fmt width height).2.dev.dirty_dim = w.dev.dirty_dim ∧
        (_mt9m111_set_selection env w r fmt width height).2.dev.ref_cnt = w.dev.ref_cnt) ∧
      (0 ≤ (_mt9m111_set_selection env w r fmt width height).1 →
        (_mt9m111_set_selection env w r fmt width height).1 = 0 ∧
        first_failure env w.trace evs = none ∧
        (_mt9m111_set_selection env w r fmt width height).2.dev.rect = r ∧
        (_mt9m111_set_selection env w r fmt width height).2.dev.width = width ∧
        (_mt9m111_set_selection env w r fmt width height).2.dev.height = height ∧
        (_mt9m111_set_selection env w r fmt width height).2.dev.dirty_dim = false ∧
        (_mt9m111_set_selection env w r fmt width height).2.dev.ref_cnt = w.dev.ref_cnt) ∧
      (fmt ≠ none ∧ (w.dev.ctx = some context_a ∨ w.dev.ctx = some context_b) ∧
          w.dev.width ≠ 0 ∧ w.dev.height ≠ 0 ∧ 0 ≤ (mt9m111_get_device env w).1 →
        first_failure env w.trace evs = none →
        (_mt9m111_set_selection env w r fmt width height).1 = 0) := by
  obtain ⟨evs, htrace, hfail, hneg, hok, hall⟩ :=
    set_selection_outcome env w r fmt width height href
  exact ⟨evs, htrace, hfail, hneg, hok, hall⟩

/-- Witness for claim C6: a commit on the idle sensor whose second data write fails; the
call returns `-5`, stops after that write and leaves the mirror untouched. -/
theorem C6_set_selection_commit_witness :
    idle_world.dev.ref_cnt + 1 < 2 ^ 32 ∧
    _mt9m111_set_selection (fail_at_env 4) idle_world ⟨30, 12, 640, 480⟩ probe_state.fmt
      640 480 =
      (-5, { dev := { probe_state with lastpage := 0 },
             trace := [.clk_enable, .pinctrl_select .PIN_STATE_IDLE,
               .i2c_write MT9M111_PAGE_MAP 0, .i2c_write MT9M111_COLUMN_START 30,
               .i2c_write MT9M111_ROW_START 12, .pinctrl_select .PIN_STATE_SLEEP,
               .clk_disable] }) ∧
    ∃ evs, (_mt9m111_set_selection (fail_at_env 4) idle_world ⟨30, 12, 640, 480⟩
        probe_state.fmt 640 480).2.trace = idle_world.trace ++ evs ∧
      (∀ rc rest, first_failure (fail_at_env 4) idle_world.trace evs = some (rc, rest) →
        (_mt9m111_set_selection (fail_at_env 4) idle_world ⟨30, 12, 640, 480⟩
          probe_state.fmt 640 480).1 = rc ∧
        ∀ e ∈ rest, e.is_i2c = false) ∧
      ((_mt9m111_set_selection (fail_at_env 4) idle_world ⟨30, 12, 640, 480⟩
          probe_state.fmt 640 480).1 < 0 →
        (_mt9m111_set_selection (fail_at_env 4) idle_world ⟨30, 12, 640, 480⟩
          probe_state.fmt 640 480).2.dev.rect = idle_world.dev.rect ∧
        (_mt9m111_set_selection (fail_at_env 4) idle_world ⟨30, 12, 640, 480⟩
          probe_state.fmt 640 480).2.dev.width = idle_world.dev.width ∧
        (_mt9m111_set_selection (fail_at_env 4) idle_world ⟨30, 12, 640, 480⟩
          probe_state.fmt 640 480).2.dev.height = idle_world.dev.height ∧
        (_mt9m111_set_selection (fail_at_env 4) idle_world ⟨30, 12, 640, 480⟩
          probe_state.fmt 640 480).2.dev.dirty_dim = idle_world.dev.dirty_dim ∧
        (_mt9m111_set_selection (fail_at_env 4) idle_world ⟨30, 12, 640, 480⟩
          probe_state.fmt 640 480).2.dev.ref_cnt = idle_world.dev.ref_cnt) :=
  ⟨by decide, rfl,
    (C6_set_selection_commit (fail_at_env 4) idle_world ⟨30, 12, 640, 480⟩ probe_state.fmt
      640 480 (by decide)).imp (fun _ h => ⟨h.1, h.2.1, h.2.2.1⟩)⟩

/-! ## Acquire and release: exact behaviour -/

theorem pinctrl_state_absent (env : Env) (w : World) (st : mt9m111_pin_state)
    (h : (match st with
      | .PIN_STATE_ACTIVE => w.dev.pin_st_active
      | .PIN_STATE_IDLE => w.dev.pin_st_idle
      | .PIN_STATE_SLEEP => w.dev.pin_st_sleep) = false) :
    mt9m111_pinctrl_state env w st = (0, w) := by
  unfold mt9m111_pinctrl_state
  simp only [h]
  rfl

theorem pinctrl_state_present (env : Env) (w : World) (st : mt9m111_pin_state)
    (h : (match st with
      | .PIN_STATE_ACTIVE => w.dev.pin_st_active
      | .PIN_STATE_IDLE => w.dev.pin_st_idle
      | .PIN_STATE_SLEEP => w.dev.pin_st_sleep) = true) :
    mt9m111_pinctrl_state env w st =
      (env.pinctrl_select_state w.trace st,
        { dev := w.dev, trace := w.trace ++ [Event.pinctrl_select st] }) := by
  unfold mt9m111_pinctrl_state
  simp only [h]
  rfl

/-- The pin call of `mt9m111_pinctrl_state` in terms of `pin_events`. -/
theorem pinctrl_state_world (env : Env) (w : World) (st : mt9m111_pin_state) :
    (mt9m111_pinctrl_state env w st).2 =
      { dev := w.dev,
        trace := w.trace ++ pin_events (match st with
          | .PIN_STATE_ACTIVE => w.dev.pin_st_active
          | .PIN_STATE_IDLE => w.dev.pin_st_idle
          | .PIN_STATE_SLEEP => w.dev.pin_st_sleep) st } := by
  cases h : (match st with
      | .PIN_STATE_ACTIVE => w.dev.pin_st_active
      | .PIN_STATE_IDLE => w.dev.pin_st_idle
      | .PIN_STATE_SLEEP => w.dev.pin_st_sleep)
  · rw [pinctrl_state_absent env w st h]
    simp [pin_events]
  · rw [pinctrl_state_present env w st h]
    simp [pin_events]

theorem get_device_held (env : Env) (w : World) (h : w.dev.ref_cnt ≠ 0)
    (hb : w.dev.ref_cnt + 1 < 2 ^ 32) :
    mt9m111_get_device env w =
      (0, { dev := { w.dev with ref_cnt := w.dev.ref_cnt + 1 }, trace := w.trace }) := by
  unfold mt9m111_get_device
  rw [if_neg h, Nat.mod_eq_of_lt hb]

theorem put_device_zero (env : Env) (w : World) (h : w.dev.ref_cnt = 0) :
    mt9m111_put_device env w = w := by
  unfold mt9m111_put_device
  rw [if_pos h]

theorem put_device_held (env : Env) (w : World) (h0 : w.dev.ref_cnt ≠ 0)
    (h1 : w.dev.ref_cnt ≠ 1) :
    mt9m111_put_device env w =
      { dev := { w.dev with ref_cnt := w.dev.ref_cnt - 1 }, trace := w.trace } := by
  unfold mt9m111_put_device
  rw [if_neg h0]
  simp only [if_neg h1]

theorem put_device_last (env : Env) (w : World) (h1 : w.dev.ref_cnt = 1) :
    mt9m111_put_device env w =
      { dev := { w.dev with ref_cnt := 0 },
        trace := w.trace ++ pin_events w.dev.pin_st_sleep .PIN_STATE_SLEEP ++
          (if w.dev.has_clk then [Event.clk_disable] else []) } := by
  unfold mt9m111_put_device
  have h0 : w.dev.ref_cnt ≠ 0 := by rw [h1]; decide
  rw [if_neg h0]
  simp only [if_pos h1]
  rw [pinctrl_state_world]
  cases hc : w.dev.has_clk
  · simp [h1, hc]
  · simp [h1, hc, World.emit]

/-- Claim C11: `mt9m111_get_device` rolls back on partial failure.  With `ref_cnt = 0`:
a failed clock enable is returned, with the failed call as the only event and the state
unchanged; a failed selection of the Idle profile is returned with the state unchanged,
and the clock, if it had just been enabled, is disabled again; when both steps succeed
(a missing clock or Idle state counts as success) the call returns 0 with
`ref_cnt = 1`.  With `0 < ref_cnt` (below the `unsigned int` limit) the call returns 0,
makes no clock or pin call and increments `ref_cnt` by exactly 1. -/
theorem C11_get_device_rollback (env : Env) (w : World) :
    (w.dev.ref_cnt = 0 → w.dev.has_clk = true → env.v4l2_clk_enable w.trace < 0 →
      mt9m111_get_device env w =
        (env.v4l2_clk_enable w.trace,
          { dev := w.dev, trace := w.trace ++ [Event.clk_enable] })) ∧
    (w.dev.ref_cnt = 0 → w.dev.has_clk = true → ¬ env.v4l2_clk_enable w.trace < 0 →
      w.dev.pin_st_idle = true →
      env.pinctrl_select_state (w.trace ++ [Event.clk_enable]) .PIN_STATE_IDLE < 0 →
      mt9m111_get_device env w =
        (env.pinctrl_select_state (w.trace ++ [Event.clk_enable]) .PIN_STATE_IDLE,
          { dev := w.dev,
            trace := w.trace ++ [Event.clk_enable, Event.pinctrl_select .PIN_STATE_IDLE,
              Event.clk_disable] })) ∧
    (w.dev.ref_cnt = 0 → w.dev.has_clk = false → w.dev.pin_st_idle = true →
      env.pinctrl_select_state w.trace .PIN_STATE_IDLE < 0 →
      mt9m111_get_device env w =
        (env.pinctrl_select_state w.trace .PIN_STATE_IDLE,
          { dev := w.dev,
            trace := w.trace ++ [Event.pinctrl_select .PIN_STATE_IDLE] })) ∧
    (w.dev.ref_cnt = 0 →
      (w.dev.has_clk = true → ¬ env.v4l2_clk_enable w.trace < 0) →
      (w.dev.pin_st_idle = true →
        ¬ env.pinctrl_select_state
          (w.trace ++ (if w.dev.has_clk then [Event.clk_enable] else []))
          .PIN_STATE_IDLE < 0) →
      mt9m111_get_device env w =
        (0, { dev := { w.dev with ref_cnt := 1 },
              trace := w.trace ++ (if w.dev.has_clk then [Event.clk_enable] else []) ++
                pin_events w.dev.pin_st_idle .PIN_STATE_IDLE })) ∧
    (w.dev.ref_cnt ≠ 0 → w.dev.ref_cnt + 1 < 2 ^ 32 →
      mt9m111_get_device env w =
        (0, { dev := { w.dev with ref_cnt := w.dev.ref_cnt + 1 }, trace := w.trace })) := by
  refine ⟨?_, ?_, ?_, ?_, get_device_held env w⟩
  · intro h0 hc he
    unfold mt9m111_get_device
    rw [if_pos h0, if_pos hc]
    simp only [if_pos he]
    rfl
  · intro h0 hc he hi hp
    unfold mt9m111_get_device
    rw [if_pos h0, if_pos hc]
    simp only [if_neg he]
    rw [pinctrl_state_present env (w.emit .clk_enable) .PIN_STATE_IDLE hi]
    simp only [emit_trace, if_pos hp]
    simp [World.emit]
  · intro h0 hc hi hp
    unfold mt9m111_get_device
    have hc' : ¬ w.dev.has_clk = true := by rw [hc]; decide
    rw [if_pos h0, if_neg hc']
    simp only
    rw [pinctrl_state_present env w .PIN_STATE_IDLE hi]
    simp only [if_pos hp]
  · intro h0 he hp
    unfold mt9m111_get_device
    rw [if_pos h0]
    cases hc : w.dev.has_clk
    · simp only [hc, Bool.false_eq_true, if_false, List.append_nil] at hp ⊢
      cases hi : w.dev.pin_st_idle
      · rw [pinctrl_state_absent env w .PIN_STATE_IDLE hi]
        simp [pin_events, h0, hc, hi]
      · rw [pinctrl_state_present env w .PIN_STATE_IDLE hi]
        simp only [if_neg (hp hi)]
        simp [pin_events, h0, hc, hi]
    · simp only [hc, if_true] at hp ⊢
      rw [if_neg (he hc)]
      cases hi : w.dev.pin_st_idle
      · rw [pinctrl_state_absent env (w.emit .clk_enable) .PIN_STATE_IDLE hi]
        simp [pin_events, h0, hc, hi, World.emit]
      · rw [pinctrl_state_present env (w.emit .clk_enable) .PIN_STATE_IDLE hi]
        simp only [emit_trace, if_neg (hp hi)]
        simp [pin_events, h0, hc, hi, World.emit]

/-- Witness for claim C11: selecting the Idle profile fails after the clock was enabled;
the clock is disabled again and `ref_cnt` stays 0. -/
theorem C11_get_device_rollback_witness :
    idle_world.dev.ref_cnt = 0 ∧ idle_world.dev.has_clk = true ∧
    idle_world.dev.pin_st_idle = true ∧
    mt9m111_get_device (pin_fail_env .PIN_STATE_IDLE) idle_world =
      (-5, { dev := idle_world.dev,
             trace := idle_world.trace ++ [Event.clk_enable,
               Event.pinctrl_select .PIN_STATE_IDLE, Event.clk_disable] }) :=
  ⟨rfl, rfl, rfl,
    (C11_get_device_rollback (pin_fail_env .PIN_STATE_IDLE) idle_world).2.1 rfl rfl
      (by decide) rfl (by decide)⟩

/-- A successful first acquire: the clock and pin calls made and the new count. -/
theorem get_device_first (env : Env) (w : World) (h0 : w.dev.ref_cnt = 0)
    (hok : ¬ (mt9m111_get_device env w).1 < 0) :
    mt9m111_get_device env w =
      (0, { dev := { w.dev with ref_cnt := 1 },
            trace := w.trace ++ (if w.dev.has_clk then [Event.clk_enable] else []) ++
              pin_events w.dev.pin_st_idle .PIN_STATE_IDLE }) := by
  revert hok
  unfold mt9m111_get_device
  rw [if_pos h0]
  cases hc : w.dev.has_clk
  · simp only [Bool.false_eq_true, if_false, List.append_nil]
    cases hi : w.dev.pin_st_idle
    · rw [pinctrl_state_absent env w .PIN_STATE_IDLE hi]
      intro _
      simp [pin_events, h0, hc, hi]
    · rw [pinctrl_state_present env w .PIN_STATE_IDLE hi]
      by_cases hp : env.pinctrl_select_state w.trace .PIN_STATE_IDLE < 0
      · simp only [if_pos hp]
        intro hn
        exact absurd hp hn
      · simp only [if_neg hp]
        intro _
        simp [pin_events, h0, hc, hi]
  · simp only [if_true]
    by_cases he : env.v4l2_clk_enable w.trace < 0
    · rw [if_pos he]
      intro hn
      exact absurd he hn
    · rw [if_neg he]
      cases hi : w.dev.pin_st_idle
      · rw [pinctrl_state_absent env (w.emit .clk_enable) .PIN_STATE_IDLE hi]
        intro _
        simp [pin_events, h0, hc, hi, World.emit]
      · rw [pinctrl_state_present env (w.emit .clk_enable) .PIN_STATE_IDLE hi]
        by_cases hp : env.pinctrl_select_state (w.emit .clk_enable).trace .PIN_STATE_IDLE < 0
        · simp only [if_pos hp]
          intro hn
          exact absurd hp hn
        · simp only [if_neg hp]
          intro _
          simp [pin_events, h0, hc, hi, World.emit]

theorem acquire_held (env : Env) :
    ∀ (k : Nat) (w : World), w.dev.ref_cnt ≠ 0 → w.dev.ref_cnt + k < 2 ^ 32 →
      acquire_n env k w =
        some { dev := { w.dev with ref_cnt := w.dev.ref_cnt + k }, trace := w.trace } := by
  intro k
  induction k with
  | zero => intro w _ _; rfl
  | succ k ih =>
    intro w h0 hb
    unfold acquire_n
    rw [get_device_held env w h0 (by omega)]
    simp only [lt_irrefl, if_false]
    rw [ih _ (by simp) (by simp; omega)]
    simp [Nat.add_assoc, Nat.add_comm 1 k]

theorem release_held (env : Env) :
    ∀ (k : Nat) (w : World), k < w.dev.ref_cnt →
      release_n env k w =
        { dev := { w.dev with ref_cnt := w.dev.ref_cnt - k }, trace := w.trace } := by
  intro k
  induction k with
  | zero => intro w _; rfl
  | succ k ih =>
    intro w hk
    unfold release_n
    rw [put_device_held env w (by omega) (by omega), ih _ (by simp; omega)]
    simp [Nat.sub_sub, Nat.add_comm 1 k]

theorem release_succ (env : Env) :
    ∀ (k : Nat) (w : World),
      release_n env (k + 1) w = mt9m111_put_device env (release_n env k w) := by
  intro k
  induction k with
  | zero => intro w; rfl
  | succ k ih =>
    intro w
    show release_n env (k + 1) (mt9m111_put_device env w) = _
    rw [ih]
    rfl

theorem dev_ref_cnt_zero (d : mt9m111) (h : d.ref_cnt = 0) :
    ({ d with ref_cnt := 0 } : mt9m111) = d := by
  cases d
  simp only at h
  simp [h]

/-- Counterexample to claim C12 as stated: on a board without a controllable clock, one
successful acquire followed by one release never enables or disables the clock (the
claim says exactly once each); only the Idle and Sleep pin profiles are selected. -/
theorem C12_power_refcount_counterexample :
    noclk_world.dev.ref_cnt = 0 ∧
    acquire_n sim_env 1 noclk_world =
      some { dev := { noclk_world.dev with ref_cnt := 1 },
             trace := [Event.pinctrl_select .PIN_STATE_IDLE] } ∧
    release_n sim_env 1
        { dev := { noclk_world.dev with ref_cnt := 1 },
          trace := [Event.pinctrl_select .PIN_STATE_IDLE] } =
      { dev := noclk_world.dev,
        trace := [Event.pinctrl_select .PIN_STATE_IDLE,
          Event.pinctrl_select .PIN_STATE_SLEEP] } ∧
    List.count Event.clk_enable
      [Event.pinctrl_select .PIN_STATE_IDLE, Event.pinctrl_select .PIN_STATE_SLEEP] = 0 ∧
    List.count Event.clk_disable
      [Event.pinctrl_select .PIN_STATE_IDLE, Event.pinctrl_select .PIN_STATE_SLEEP] = 0 := by
  refine ⟨rfl, rfl, rfl, ?_, ?_⟩ <;> decide

/-- Claim C12 (amended): power reference counting.  For every `N` with
`1 <= N < 2^32`, starting from `ref_cnt = 0`, `N` successful `mt9m111_get_device` calls
followed by `N` `mt9m111_put_device` calls end in the starting state (`ref_cnt = 0`), and
the calls made are, in this order: one clock enable if the sensor has a clock, one
selection of the Idle profile if it exists, one selection of the Sleep profile if it
exists, one clock disable if the sensor has a clock; the Sleep selection and the clock
disable happen at the last release whatever the Sleep selection returns.  And
`mt9m111_put_device` called with `ref_cnt = 0` changes nothing. -/
theorem C12_power_refcount (env : Env) (w w1 : World) (N : Nat)
    (h0 : w.dev.ref_cnt = 0) (hN : 1 ≤ N) (hb : N < 2 ^ 32)
    (hacq : acquire_n env N w = some w1) :
    w1.dev.ref_cnt = N ∧
    (release_n env N w1).dev = w.dev ∧
    (release_n env N w1).trace =
      w.trace ++ (if w.dev.has_clk then [Event.clk_enable] else []) ++
        pin_events w.dev.pin_st_idle .PIN_STATE_IDLE ++
        pin_events w.dev.pin_st_sleep .PIN_STATE_SLEEP ++
        (if w.dev.has_clk then [Event.clk_disable] else []) ∧
    (∀ w0 : World, w0.dev.ref_cnt = 0 → mt9m111_put_device env w0 = w0) := by
  obtain ⟨k, rfl⟩ : ∃ k, N = k + 1 := ⟨N - 1, by omega⟩
  have hg : ¬ (mt9m111_get_device env w).1 < 0 := by
    intro hneg
    unfold acquire_n at hacq
    simp only [if_pos hneg] at hacq
    cases hacq
  have hfirst := get_device_first env w h0 hg
  unfold acquire_n at hacq
  simp only [if_neg hg] at hacq
  rw [hfirst] at hacq
  rw [acquire_held env k _ (by simp) (by simp; omega)] at hacq
  have hw1 := (Option.some.inj hacq).symm
  have hcnt : w1.dev.ref_cnt = k + 1 := by rw [hw1]; simp [Nat.add_comm]
  have hrel := release_held env k w1 (by omega)
  have hput := put_device_last env (release_n env k w1) (by rw [hrel]; simp [hcnt])
  refine ⟨hcnt, ?_, ?_, fun w0 hw0 => put_device_zero env w0 hw0⟩
  · rw [release_succ, hput, hrel, hw1]
    show ({ w.dev with ref_cnt := 0 } : mt9m111) = w.dev
    exact dev_ref_cnt_zero w.dev h0
  · rw [release_succ, hput, hrel, hw1]

/-- Witness for claim C12 (amended): three acquires and three releases on the idle
sensor with clock and all pin profiles. -/
theorem C12_power_refcount_witness :
    idle_world.dev.ref_cnt = 0 ∧ 1 ≤ 3 ∧ 3 < 2 ^ 32 ∧
    acquire_n sim_env 3 idle_world =
      some { dev := { idle_world.dev with ref_cnt := 3 },
             trace := [Event.clk_enable, Event.pinctrl_select .PIN_STATE_IDLE] } ∧
    (release_n sim_env 3
        { dev := { idle_world.dev with ref_cnt := 3 },
          trace := [Event.clk_enable, Event.pinctrl_select .PIN_STATE_IDLE] }).trace =
      idle_world.trace ++ (if idle_world.dev.has_clk then [Event.clk_enable] else []) ++
        pin_events idle_world.dev.pin_st_idle .PIN_STATE_IDLE ++
        pin_events idle_world.dev.pin_st_sleep .PIN_STATE_SLEEP ++
        (if idle_world.dev.has_clk then [Event.clk_disable] else []) :=
  ⟨rfl, by decide, by decide, rfl,
    (C12_power_refcount sim_env idle_world _ 3 rfl (by decide) (by decide) rfl).2.2.1⟩

/-! ## Streaming -/

theorem last_pin_select_append (a b : List Event) :
    last_pin_select (a ++ b) =
      match last_pin_select b with
      | some st => some st
      | none => last_pin_select a := by
  induction a with
  | nil =>
    simp only [List.nil_append]
    cases last_pin_select b <;> rfl
  | cons e rest ih =>
    rw [List.cons_append]
    simp only [last_pin_select]
    rw [ih]
    cases last_pin_select b <;> rfl

theorem s_stream_enter (env : Env) (w : World) (hs : w.dev.is_streaming = false) :
    mt9m111_s_stream env w 1 = mt9m111_s_stream_on env w := by
  unfold mt9m111_s_stream
  simp [hs]

theorem s_stream_leave (env : Env) (w : World) (hs : w.dev.is_streaming = true) :
    mt9m111_s_stream env w 0 = mt9m111_s_stream_off env w := by
  unfold mt9m111_s_stream
  simp [hs]

/-- Counterexample to claim C14 as stated: on the idle sensor (`ref_cnt = 0`, all pin
profiles present) entering and leaving streaming selects Idle and then, in the release of
the last reference, Sleep; the profile selected last is Sleep, not Idle. -/
theorem C14_stream_round_trip_counterexample :
    idle_world.dev.is_streaming = false ∧ idle_world.dev.ref_cnt = 0 ∧
    mt9m111_s_stream sim_env idle_world 1 =
      (0, { dev := { idle_world.dev with ref_cnt := 1, is_streaming := true },
            trace := [Event.clk_enable, Event.pinctrl_select .PIN_STATE_IDLE,
              Event.pinctrl_select .PIN_STATE_ACTIVE] }) ∧
    mt9m111_s_stream sim_env (mt9m111_s_stream sim_env idle_world 1).2 0 =
      (0, { dev := idle_world.dev,
            trace := [Event.clk_enable, Event.pinctrl_select .PIN_STATE_IDLE,
              Event.pinctrl_select .PIN_STATE_ACTIVE, Event.pinctrl_select .PIN_STATE_IDLE,
              Event.pinctrl_select .PIN_STATE_SLEEP, Event.clk_disable] }) ∧
    last_pin_select
      (mt9m111_s_stream sim_env (mt9m111_s_stream sim_env idle_world 1).2 0).2.trace =
      some .PIN_STATE_SLEEP ∧
    last_pin_select
      (mt9m111_s_stream sim_env (mt9m111_s_stream sim_env idle_world 1).2 0).2.trace ≠
      some .PIN_STATE_IDLE := by
  refine ⟨rfl, rfl, rfl, rfl, rfl, ?_⟩
  decide

/-- Claim C14 (amended): streaming enter/leave round trip.  For every non-streaming
state with `ref_cnt = n` (`n + 1 < 2^32`): if the acquire succeeds but selecting the
Active profile fails, `mt9m111_s_stream(1)` returns that error, the reference is
released again (`ref_cnt = n`) and `is_streaming` stays false.  If `mt9m111_s_stream(1)`
succeeds it returns 0, sets `is_streaming`, holds one more reference (`ref_cnt = n + 1`)
and, after the acquire, selects the Active profile (when it exists).  A following
`mt9m111_s_stream(0)` returns 0, clears `is_streaming`, selects the Idle profile (when it
exists; a failure is ignored) and drops that reference (`ref_cnt = n`); when `n > 0` no
further call follows, so Idle is the profile requested last; when `n = 0` the release
then selects the Sleep profile (when it exists) and disables the clock (when there is
one), so Sleep is the profile requested last. -/
theorem C14_stream_round_trip (env : Env) (w : World) (n : Nat)
    (hs : w.dev.is_streaming = false) (hn : w.dev.ref_cnt = n) (hb : n + 1 < 2 ^ 32) :
    (¬ (mt9m111_get_device env w).1 < 0 →
      (mt9m111_pinctrl_state env (mt9m111_get_device env w).2 .PIN_STATE_ACTIVE).1 < 0 →
      (mt9m111_s_stream env w 1).1 =
        (mt9m111_pinctrl_state env (mt9m111_get_device env w).2 .PIN_STATE_ACTIVE).1 ∧
      (mt9m111_s_stream env w 1).2.dev.is_streaming = false ∧
      (mt9m111_s_stream env w 1).2.dev.ref_cnt = n) ∧
    (¬ (mt9m111_s_stream env w 1).1 < 0 →
      (mt9m111_s_stream env w 1).1 = 0 ∧
      (mt9m111_s_stream env w 1).2.dev.is_streaming = true ∧
      (mt9m111_s_stream env w 1).2.dev.ref_cnt = n + 1 ∧
      (mt9m111_s_stream env w 1).2.trace =
        (mt9m111_get_device env w).2.trace ++
          pin_events w.dev.pin_st_active .PIN_STATE_ACTIVE ∧
      (mt9m111_s_stream env (mt9m111_s_stream env w 1).2 0).1 = 0 ∧
      (mt9m111_s_stream env (mt9m111_s_stream env w 1).2 0).2.dev.is_streaming = false ∧
      (mt9m111_s_stream env (mt9m111_s_stream env w 1).2 0).2.dev.ref_cnt = n ∧
      (mt9m111_s_stream env (mt9m111_s_stream env w 1).2 0).2.trace =
        (mt9m111_s_stream env w 1).2.trace ++
          pin_events w.dev.pin_st_idle .PIN_STATE_IDLE ++
          (if n = 0 then
            pin_events w.dev.pin_st_sleep .PIN_STATE_SLEEP ++
              (if w.dev.has_clk then [Event.clk_disable] else [])
           else []) ∧
      (0 < n → w.dev.pin_st_idle = true →
        last_pin_select (mt9m111_s_stream env (mt9m111_s_stream env w 1).2 0).2.trace =
          some .PIN_STATE_IDLE) ∧
      (n = 0 → w.dev.pin_st_sleep = true →
        last_pin_select (mt9m111_s_stream env (mt9m111_s_stream env w 1).2 0).2.trace =
          some .PIN_STATE_SLEEP)) := by
  rw [s_stream_enter env w hs]
  obtain ⟨-, -, -, -, g4⟩ := get_device_spec env w
  have hmod : (w.dev.ref_cnt + 1) % 2 ^ 32 = n + 1 := by rw [hn]; exact Nat.mod_eq_of_lt hb
  constructor
  · intro hg hp
    obtain ⟨-, g6⟩ := g4 hg
    have hpw := pinctrl_state_world env (mt9m111_get_device env w).2 .PIN_STATE_ACTIVE
    have hcnt : (mt9m111_pinctrl_state env (mt9m111_get_device env w).2
        .PIN_STATE_ACTIVE).2.dev.ref_cnt = n + 1 := by rw [hpw, g6]; exact hmod
    obtain ⟨-, -, -, p3⟩ := put_device_spec env
      (mt9m111_pinctrl_state env (mt9m111_get_device env w).2 .PIN_STATE_ACTIVE).2
      (by rw [hcnt]; omega)
    have e : mt9m111_s_stream_on env w =
        ((mt9m111_pinctrl_state env (mt9m111_get_device env w).2 .PIN_STATE_ACTIVE).1,
          mt9m111_put_device env
            (mt9m111_pinctrl_state env (mt9m111_get_device env w).2
              .PIN_STATE_ACTIVE).2) := by
      unfold mt9m111_s_stream_on
      simp only [if_neg hg, if_pos hp]
    rw [e]
    refine ⟨rfl, ?_, ?_⟩
    · show (mt9m111_put_device env _).dev.is_streaming = false
      rw [p3, hpw, g6]
      exact hs
    · show (mt9m111_put_device env _).dev.ref_cnt = n
      rw [p3, hcnt]
      simp
  · intro hok
    have hg : ¬ (mt9m111_get_device env w).1 < 0 := by
      intro hneg
      apply hok
      unfold mt9m111_s_stream_on
      simp only [if_pos hneg]
      exact hneg
    have hp : ¬ (mt9m111_pinctrl_state env (mt9m111_get_device env w).2
        .PIN_STATE_ACTIVE).1 < 0 := by
      intro hneg
      apply hok
      unfold mt9m111_s_stream_on
      simp only [if_neg hg, if_pos hneg]
      exact hneg
    obtain ⟨-, g6⟩ := g4 hg
    have hpw := pinctrl_state_world env (mt9m111_get_device env w).2 .PIN_STATE_ACTIVE
    have hon : mt9m111_s_stream_on env w =
        (0, { dev := { w.dev with ref_cnt := n + 1, is_streaming := true },
              trace := (mt9m111_get_device env w).2.trace ++
                pin_events w.dev.pin_st_active .PIN_STATE_ACTIVE }) := by
      unfold mt9m111_s_stream_on
      simp only [if_neg hg, if_neg hp]
      rw [hpw, g6, hmod]
    rw [hon]
    rw [s_stream_leave env _ rfl]
    have hoff : mt9m111_s_stream_off env
        { dev := { w.dev with ref_cnt := n + 1, is_streaming := true },
          trace := (mt9m111_get_device env w).2.trace ++
            pin_events w.dev.pin_st_active .PIN_STATE_ACTIVE } =
        (0, { dev := { w.dev with ref_cnt := n, is_streaming := false },
              trace := (mt9m111_get_device env w).2.trace ++
                pin_events w.dev.pin_st_active .PIN_STATE_ACTIVE ++
                pin_events w.dev.pin_st_idle .PIN_STATE_IDLE ++
                (if n = 0 then
                  pin_events w.dev.pin_st_sleep .PIN_STATE_SLEEP ++
                    (if w.dev.has_clk then [Event.clk_disable] else [])
                 else []) }) := by
      unfold mt9m111_s_stream_off
      simp only
      rw [pinctrl_state_world]
      by_cases h0 : n = 0
      · rw [put_device_last env _ (by simp [h0])]
        simp [h0]
      · rw [put_device_held env _ (by simp) (by simp [h0])]
        simp [h0]
    rw [hoff]
    refine ⟨rfl, rfl, rfl, rfl, rfl, rfl, rfl, rfl, ?_, ?_⟩
    · intro hpos hi
      have h0 : n ≠ 0 := by omega
      simp only [if_neg h0, List.append_nil, hi, pin_events, if_true]
      rw [last_pin_select_append]
      rfl
    · intro h0 hsl
      simp only [if_pos h0, hsl, pin_events, if_true]
      cases w.dev.has_clk
      · simp only [Bool.false_eq_true, if_false, List.append_nil]
        rw [last_pin_select_append]
        rfl
      · simp only [if_true]
        rw [last_pin_select_append]
        rfl

/-- Witness for claim C14 (amended): the round trip on a sensor that another user holds
(`ref_cnt = 1`); Idle is the profile requested last. -/
theorem C14_stream_round_trip_witness :
    held_world.dev.is_streaming = false ∧ held_world.dev.ref_cnt = 1 ∧
    (1 : Nat) + 1 < 2 ^ 32 ∧
    (mt9m111_s_stream sim_env held_world 1).2.dev.ref_cnt = 1 + 1 ∧
    (mt9m111_s_stream sim_env (mt9m111_s_stream sim_env held_world 1).2 0).2.dev.ref_cnt
      = 1 ∧
    last_pin_select
      (mt9m111_s_stream sim_env (mt9m111_s_stream sim_env held_world 1).2 0).2.trace =
      some .PIN_STATE_IDLE :=
  ⟨rfl, rfl, by decide,
    ((C14_stream_round_trip sim_env held_world 1 rfl rfl (by decide)).2 (by decide)).2.2.1,
    ((C14_stream_round_trip sim_env held_world 1 rfl rfl (by decide)).2
      (by decide)).2.2.2.2.2.2.1,
    ((C14_stream_round_trip sim_env held_world 1 rfl rfl (by decide)).2
      (by decide)).2.2.2.2.2.2.2.2.1 (by decide) rfl⟩

theorem world_ref_cnt_restore (w : World) (h : w.dev.ref_cnt ≠ 0) :
    ({ dev := { ({ w.dev with ref_cnt := w.dev.ref_cnt + 1 } : mt9m111) with
          ref_cnt := w.dev.ref_cnt + 1 - 1 },
       trace := w.trace } : World) = w := by
  cases w with
  | mk dev trace =>
    cases dev
    simp

/-- The `s_ctrl` operation on a held sensor: the acquire and the release around
`mt9m111_s_ctrl` cancel when the inner call leaves the state alone. -/
theorem s_ctrl_wrapper_reject (env : Env) (w : World) (ctrl : v4l2_ctrl) (rc : Int)
    (h0 : w.dev.ref_cnt ≠ 0) (hb : w.dev.ref_cnt + 1 < 2 ^ 32)
    (hin : ∀ w' : World, w'.dev.is_streaming = w.dev.is_streaming →
      mt9m111_s_ctrl env w' ctrl = (rc, w')) :
    _mt9m111_s_ctrl env w ctrl = (rc, w) := by
  have e := hin { dev := { w.dev with ref_cnt := w.dev.ref_cnt + 1 }, trace := w.trace } rfl
  unfold _mt9m111_s_ctrl
  rw [get_device_held env w h0 hb]
  simp only [lt_irrefl, if_false]
  rw [e]
  simp only
  rw [put_device_held env _ (by simp) (by simp; exact h0)]
  simp only
  rw [world_ref_cnt_restore w h0]

/-- Claim C13: operations disallowed by the streaming state are rejected without any
state change.  `mt9m111_s_stream(enable)` while streaming returns `-EBUSY` and
`mt9m111_s_stream(0)` while not streaming returns `-EINVAL`; while streaming, an active
`mt9m111_set_fmt`, a skip-x or skip-y control change (`mt9m111_s_ctrl`, and the registered
operation `_mt9m111_s_ctrl` on the held sensor) and a crop `mt9m111_set_selection` whose
clamped width or height differs from the current crop return `-EBUSY`.  In each case the
sensor state and the trace after the call are those before the call, so no register is
accessed and no field changes. -/
theorem C13_streaming_rejects (env : Env) (w : World) (cfg : v4l2_subdev_pad_config) :
    (w.dev.is_streaming = true → ∀ enable : Int, enable ≠ 0 →
      mt9m111_s_stream env w enable = (-EBUSY, w)) ∧
    (w.dev.is_streaming = false → mt9m111_s_stream env w 0 = (-EINVAL, w)) ∧
    (w.dev.is_streaming = true → ∀ format : v4l2_subdev_format, format.pad = 0 →
      format.which = .V4L2_SUBDEV_FORMAT_ACTIVE →
      (mt9m111_set_fmt env w cfg format).rc = -EBUSY ∧
      (mt9m111_set_fmt env w cfg format).w = w ∧
      (mt9m111_set_fmt env w cfg format).format = format ∧
      (mt9m111_set_fmt env w cfg format).cfg = cfg) ∧
    (w.dev.is_streaming = true → ∀ v : Int,
      mt9m111_s_ctrl env w ⟨.SKIP_X, v⟩ = (-EBUSY, w) ∧
      mt9m111_s_ctrl env w ⟨.SKIP_Y, v⟩ = (-EBUSY, w)) ∧
    (w.dev.is_streaming = true → w.dev.ref_cnt ≠ 0 → w.dev.ref_cnt + 1 < 2 ^ 32 →
      ∀ v : Int,
      _mt9m111_s_ctrl env w ⟨.SKIP_X, v⟩ = (-EBUSY, w) ∧
      _mt9m111_s_ctrl env w ⟨.SKIP_Y, v⟩ = (-EBUSY, w)) ∧
    (w.dev.is_streaming = true → ∀ (sel : v4l2_subdev_selection) (r : v4l2_rect)
      (wo ho : Option Nat), sel.pad = 0 → sel.target = .V4L2_SEL_TGT_CROP →
      _mt9m111_try_selection w.dev sel.r none none w.dev.fmt = .ok (r, wo, ho) →
      (r.width ≠ w.dev.rect.width ∨ r.height ≠ w.dev.rect.height) →
      (mt9m111_set_selection env w cfg sel).rc = -EBUSY ∧
      (mt9m111_set_selection env w cfg sel).w = w ∧
      (mt9m111_set_selection env w cfg sel).cfg = cfg) := by
  refine ⟨?_, ?_, ?_, ?_, ?_, ?_⟩
  · intro hs enable he
    unfold mt9m111_s_stream
    rw [if_pos ⟨he, hs⟩]
  · intro hs
    unfold mt9m111_s_stream
    simp [hs]
  · intro hs format hp hw
    unfold mt9m111_set_fmt
    simp [hp, hw, hs]
  · intro hs v
    constructor <;> simp [mt9m111_s_ctrl, hs]
  · intro hs h0 hb v
    constructor
    · exact s_ctrl_wrapper_reject env w _ _ h0 hb
        (fun w' hw' => by simp [mt9m111_s_ctrl, hw', hs])
    · exact s_ctrl_wrapper_reject env w _ _ h0 hb
        (fun w' hw' => by simp [mt9m111_s_ctrl, hw', hs])
  · intro hs sel r wo ho hp ht htry hne
    unfold mt9m111_set_selection
    simp only [hp, ne_eq, not_true_eq_false, if_false, ht, htry, hs, true_and]
    rw [if_pos hne]
    exact ⟨rfl, rfl, rfl⟩

/-- Witness for claim C13: the rejected operations on the streaming sensor. -/
theorem C13_streaming_rejects_witness :
    streaming_world.dev.is_streaming = true ∧ streaming_world.dev.ref_cnt ≠ 0 ∧
    streaming_world.dev.ref_cnt + 1 < 2 ^ 32 ∧
    mt9m111_s_stream sim_env streaming_world 1 = (-EBUSY, streaming_world) ∧
    mt9m111_s_ctrl sim_env streaming_world ⟨.SKIP_X, 2⟩ = (-EBUSY, streaming_world) ∧
    _mt9m111_s_ctrl sim_env streaming_world ⟨.SKIP_Y, 1⟩ = (-EBUSY, streaming_world) ∧
    (mt9m111_set_selection sim_env streaming_world full_cfg
      ⟨.V4L2_SUBDEV_FORMAT_ACTIVE, 0, .V4L2_SEL_TGT_CROP, ⟨100, 100, 640, 480⟩⟩).rc =
      -EBUSY :=
  ⟨rfl, by decide, by decide,
    (C13_streaming_rejects sim_env streaming_world full_cfg).1 rfl 1 (by decide),
    ((C13_streaming_rejects sim_env streaming_world full_cfg).2.2.2.1 rfl 2).1,
    ((C13_streaming_rejects sim_env streaming_world full_cfg).2.2.2.2.1 rfl (by decide)
      (by decide) 1).2,
    ((C13_streaming_rejects sim_env streaming_world full_cfg).2.2.2.2.2 rfl
      ⟨.V4L2_SUBDEV_FORMAT_ACTIVE, 0, .V4L2_SEL_TGT_CROP, ⟨100, 100, 640, 480⟩⟩
      ⟨100, 100, 640, 480⟩ none none rfl rfl rfl (by decide)).1⟩

/-! ## Frame lemmas: configuration and page cache across the operations -/

theorem PageOk_refl (d : mt9m111) : PageOk d d := Or.inl rfl

theorem PageOk_trans {a b c : mt9m111} (h1 : PageOk a b) (h2 : PageOk b c) : PageOk a c := by
  rcases h2 with h2 | h2
  · rcases h1 with h1 | h1
    · exact Or.inl (h2.trans h1)
    · exact Or.inr (by rw [h2]; exact h1)
  · exact Or.inr h2

theorem Frame_refl (d : mt9m111) : Frame d d := ⟨rfl, PageOk_refl d⟩

theorem Frame_trans {a b c : mt9m111} (h1 : Frame a b) (h2 : Frame b c) : Frame a c :=
  ⟨h2.1.trans h1.1, PageOk_trans h1.2 h2.2⟩

theorem Frame_of_eq {a b : mt9m111} (h : b = a) : Frame a b := by
  rw [h]; exact Frame_refl a

theorem frame_page_map (env : Env) (w : World) (q : Nat) :
    Frame w.dev (reg_page_map_set env w q).2.dev := by
  by_cases hc : ((q >>> 8 : Nat) : Int) = w.dev.lastpage
  · rw [page_map_cached env w q hc]; exact Frame_refl _
  · by_cases hp : q >>> 8 ≤ 2
    · by_cases hok : env.i2c_smbus_write_word_swapped w.trace MT9M111_PAGE_MAP (q >>> 8) = 0
      · rw [page_map_ok env w q hc hp hok]
        exact ⟨rfl, Or.inr ⟨by show (0 : Int) ≤ ((q >>> 8 : Nat) : Int); omega,
          by show ((q >>> 8 : Nat) : Int) ≤ 2; omega⟩⟩
      · rw [page_map_fail env w q hc hp hok]; exact Frame_refl _
    · rw [page_map_invalid env w q hc (by omega)]; exact Frame_refl _

theorem frame_reg_read (env : Env) (w : World) (reg : Nat) :
    Frame w.dev (mt9m111_reg_read env w reg).2.dev := by
  rw [reg_read_def]
  split
  · exact frame_page_map env w _
  · exact frame_page_map env w _

theorem frame_reg_write (env : Env) (w : World) (reg data : Nat) :
    Frame w.dev (mt9m111_reg_write env w reg data).2.dev := by
  rw [reg_write_def]
  split
  · exact frame_page_map env w _
  · exact frame_page_map env w _

theorem frame_reg_mask (env : Env) (w : World) (reg data mask : Nat) :
    Frame w.dev (mt9m111_reg_mask env w reg data mask).2.dev := by
  unfold mt9m111_reg_mask
  simp only
  split
  · exact Frame_trans (frame_reg_read env w reg) (frame_reg_write env _ _ _)
  · exact frame_reg_read env w reg

theorem frame_write_setup (env : Env) (l : List regval) :
    ∀ (rc : Int) (w : World), Frame w.dev (write_setup env l rc w).2.dev := by
  induction l with
  | nil => intro rc w; exact Frame_refl _
  | cons s rest ih =>
    intro rc w
    simp only [write_setup]
    split
    · exact frame_reg_write env w _ _
    · exact Frame_trans (frame_reg_write env w _ _) (ih _ _)

theorem frame_pinctrl_state (env : Env) (w : World) (st : mt9m111_pin_state) :
    Frame w.dev (mt9m111_pinctrl_state env w st).2.dev := by
  rw [pinctrl_state_world]
  exact Frame_refl _

theorem frame_get_device (env : Env) (w : World) :
    Frame w.dev (mt9m111_get_device env w).2.dev := by
  obtain ⟨-, -, -, g3, g4⟩ := get_device_spec env w
  by_cases hg : (mt9m111_get_device env w).1 < 0
  · exact Frame_of_eq (g3 hg)
  · rw [(g4 hg).2]
    exact ⟨rfl, Or.inl rfl⟩

theorem frame_put_device (env : Env) (w : World) :
    Frame w.dev (mt9m111_put_device env w).dev := by
  by_cases h0 : w.dev.ref_cnt = 0
  · rw [put_device_zero env w h0]; exact Frame_refl _
  · obtain ⟨-, -, -, p3⟩ := put_device_spec env w h0
    rw [p3]
    exact ⟨rfl, Or.inl rfl⟩

theorem frame_set_selection (env : Env) (w : World) (r : v4l2_rect)
    (fmt : Option mt9m111_datafmt) (width height : Nat) :
    Frame w.dev (_mt9m111_set_selection env w r fmt width height).2.dev := by
  unfold _mt9m111_set_selection
  split
  · rename_i f ctx hctx
    split
    · exact Frame_refl _
    · simp only
      split
      · exact frame_get_device env w
      · have hg := frame_get_device env w
        have hb := frame_write_setup env (set_selection_setup w.dev ctx r width height)
          (mt9m111_get_device env w).1 (mt9m111_get_device env w).2
        split
        · exact Frame_trans hg (Frame_trans hb (frame_put_device env _))
        · have hm := frame_reg_mask env
            (write_setup env (set_selection_setup w.dev ctx r width height)
              (mt9m111_get_device env w).1 (mt9m111_get_device env w).2).2 ctx.read_mode
            ((skip_code (write_setup env (set_selection_setup w.dev ctx r width height)
                (mt9m111_get_device env w).1 (mt9m111_get_device env w).2).2.dev.skip_x <<< 3) |||
              (skip_code (write_setup env (set_selection_setup w.dev ctx r width height)
                (mt9m111_get_device env w).1 (mt9m111_get_device env w).2).2.dev.skip_y <<< 2))
            (0x0f <<< 2)
          split
          · exact Frame_trans hg (Frame_trans hb (Frame_trans hm (frame_put_device env _)))
          · refine Frame_trans hg (Frame_trans hb (Frame_trans hm ?_))
            refine Frame_trans ?_ (frame_put_device env _)
            exact ⟨rfl, Or.inl rfl⟩
  · exact Frame_refl _

theorem frame_set_pixfmt (env : Env) (w : World) (code : media_bus_fmt) :
    Frame w.dev (mt9m111_set_pixfmt env w code).2.dev := by
  unfold mt9m111_set_pixfmt
  split
  · exact Frame_refl _
  · rename_i d _
    simp only
    generalize (if w.dev.invert_pixclk = true then d ||| MT9M111_OUTFMT_INV_PIX_CLOCK
      else d) = x
    split
    · exact Frame_trans (frame_reg_mask env w _ _ _) (frame_reg_mask env _ _ _ _)
    · exact frame_reg_mask env w _ _ _

/-- Fields that a framed step cannot change. -/
theorem Frame_fields {d d' : mt9m111} (h : Frame d d') :
    d'.ctx = d.ctx ∧ d'.has_clk = d.has_clk ∧ d'.power_count = d.power_count ∧
    d'.fmt = d.fmt ∧ d'.skip_x = d.skip_x ∧ d'.skip_y = d.skip_y ∧
    d'.is_streaming = d.is_streaming ∧ d'.allow_10bit = d.allow_10bit ∧
    d'.allow_burst = d.allow_burst := by
  have hc := h.1
  simp only [mt9m111.config, Prod.mk.injEq] at hc
  obtain ⟨h1, h2, h3, h4, h5, h6, -, h8, h9, h10, -, -, -⟩ := hc
  exact ⟨h1, h2, h3, h4, h5, h6, h10, h8, h9⟩

/-! ## Format lookup and format selection -/

theorem find_datafmt_base (dev : mt9m111) :
    ∀ f ∈ mt9m111_colour_fmts, mt9m111_find_datafmt dev f.code = some f := by
  intro f hf
  simp only [mt9m111_colour_fmts, List.mem_cons, List.mem_singleton, List.not_mem_nil,
    or_false] at hf
  rcases hf with h | h | h | h | h | h | h | h | h | h | h <;> rw [h] <;> rfl

theorem find_datafmt_10bit (dev : mt9m111) (h10 : dev.allow_10bit = true) :
    ∀ f ∈ mt9m111_10bit_fmts, mt9m111_find_datafmt dev f.code = some f := by
  intro f hf
  simp only [mt9m111_10bit_fmts, List.mem_cons, List.mem_singleton, List.not_mem_nil,
    or_false] at hf
  rcases hf with h | h | h | h <;> rw [h] <;> simp [mt9m111_find_datafmt, h10] <;> rfl

theorem find_datafmt_processed (dev : mt9m111) (hb : dev.allow_burst = true) :
    ∀ f ∈ mt9m111_processed_fmts, mt9m111_find_datafmt dev f.code = some f := by
  intro f hf
  simp only [mt9m111_processed_fmts, List.mem_cons, List.mem_singleton, List.not_mem_nil,
    or_false] at hf
  rcases hf with h | h | h | h <;> rw [h] <;> cases h10 : dev.allow_10bit <;>
    simp [mt9m111_find_datafmt, hb, h10] <;> rfl

theorem find_none_of_codes (l : List mt9m111_datafmt) (code : media_bus_fmt)
    (h : ∀ f ∈ l, f.code ≠ code) : l.find? (fun f => f.code = code) = none := by
  rw [List.find?_eq_none]
  intro f hf
  simpa using h f hf

theorem find_datafmt_fallback (dev : mt9m111) (code : media_bus_fmt)
    (h1 : ∀ f ∈ mt9m111_colour_fmts, f.code ≠ code)
    (h2 : dev.allow_10bit = true → ∀ f ∈ mt9m111_10bit_fmts, f.code ≠ code)
    (h3 : dev.allow_burst = true → ∀ f ∈ mt9m111_processed_fmts, f.code ≠ code) :
    mt9m111_find_datafmt dev code = dev.fmt := by
  unfold mt9m111_find_datafmt
  rw [find_none_of_codes _ code h1]
  simp only
  have e2 : (if dev.allow_10bit = true then
      mt9m111_10bit_fmts.find? (fun f => f.code = code) else none) = none := by
    split
    · rename_i h; exact find_none_of_codes _ code (h2 h)
    · rfl
  have e3 : (if dev.allow_burst = true then
      mt9m111_processed_fmts.find? (fun f => f.code = code) else none) = none := by
    split
    · rename_i h; exact find_none_of_codes _ code (h3 h)
    · rfl
  rw [e2]
  simp only
  rw [e3]

/-- With a format found and a non-zero request, `mt9m111_set_fmt` reports the code of
the found format and leaves the stored format alone unless it stores the found one. -/
theorem set_fmt_reports (env : Env) (w : World) (cfg : v4l2_subdev_pad_config)
    (format : v4l2_subdev_format) (f : mt9m111_datafmt)
    (hfind : mt9m111_find_datafmt w.dev format.format.code = some f)
    (hp : format.pad = 0)
    (hs : ¬ (format.which = .V4L2_SUBDEV_FORMAT_ACTIVE ∧ w.dev.is_streaming = true))
    (hw : (format.format.width <<< w.dev.skip_x) % 2 ^ 32 ≠ 0)
    (hh : (format.format.height <<< w.dev.skip_y) % 2 ^ 32 ≠ 0) :
    (mt9m111_set_fmt env w cfg format).format.format.code = f.code ∧
    ((mt9m111_set_fmt env w cfg format).w.dev.fmt = w.dev.fmt ∨
      ((mt9m111_set_fmt env w cfg format).rc = 0 ∧
        (mt9m111_set_fmt env w cfg format).w.dev.fmt = some f)) := by
  obtain ⟨r, ow, oh, e⟩ : ∃ r ow oh, _mt9m111_try_selection w.dev w.dev.rect
      (some ((format.format.width <<< w.dev.skip_x) % 2 ^ 32))
      (some ((format.format.height <<< w.dev.skip_y) % 2 ^ 32)) (some f) = .ok (r, ow, oh) :=
    ⟨_, _, _, try_selection_ok w.dev w.dev.rect _ _ f (by simpa using hw) (by simpa using hh)⟩
  unfold mt9m111_set_fmt
  simp only [hp, ne_eq, not_true_eq_false, if_false, hs, hfind, e]
  split
  · exact ⟨rfl, Or.inl rfl⟩
  · split
    · exact ⟨rfl, Or.inl (Frame_fields (frame_get_device env w)).2.2.2.1⟩
    · split
      · refine ⟨rfl, Or.inl ?_⟩
        exact (Frame_fields (Frame_trans (frame_get_device env w)
          (Frame_trans (frame_set_selection env _ _ _ _ _)
            (frame_put_device env _)))).2.2.2.1
      · split
        · refine ⟨rfl, Or.inl ?_⟩
          exact (Frame_fields (Frame_trans (frame_get_device env w)
            (Frame_trans (frame_set_selection env _ _ _ _ _)
              (Frame_trans (frame_set_pixfmt env _ _) (frame_put_device env _))))).2.2.2.1
        · refine ⟨rfl, Or.inr ⟨rfl, ?_⟩⟩
          exact (Frame_fields (frame_put_device env _)).2.2.2.1

/-! ## Coarse power count and skip controls -/

/-- Claim C17: the coarse power count does not stay non-negative.  A power-off request
`mt9m111_s_power(sd, 0)` on the idle probe state, whose `power_count` is 0, returns 0
without running the power-off sequence and leaves `power_count = -1`; the only outgoing
calls are those of the acquire and release around it. -/
theorem C17_power_off_at_zero (hdl : v4l2_ctrl_handler) :
    idle_world.dev.power_count = 0 ∧
    mt9m111_s_power sim_env hdl idle_world 0 =
      (0, { dev := { probe_state with power_count := -1 },
            trace := [.clk_enable, .pinctrl_select .PIN_STATE_IDLE,
              .pinctrl_select .PIN_STATE_SLEEP, .clk_disable] }) :=
  ⟨rfl, rfl⟩

theorem ff_neg (env : Env) (evs : List Event) :
    ∀ (t : List Event) (rc : Int) (rest : List Event),
      first_failure env t evs = some (rc, rest) → rc < 0 := by
  induction evs with
  | nil => intro t rc rest h; cases h
  | cons e es ih =>
    intro t rc rest h
    unfold first_failure at h
    split at h
    · rename_i hneg
      cases h
      exact hneg
    · exact ih _ _ _ h

/-- A geometry commit of the stored geometry: a failed transfer gives the negative
result, and a negative result leaves the whole mirror, skip factors included, as it was
when the commit started. -/
theorem commit_stored_failure (env : Env) (w : World) (href : w.dev.ref_cnt + 1 < 2 ^ 32) :
    ∃ evs,
      (_mt9m111_set_selection env w w.dev.rect w.dev.fmt w.dev.width w.dev.height).2.trace
        = w.trace ++ evs ∧
      (∀ rc rest, first_failure env w.trace evs = some (rc, rest) →
        (_mt9m111_set_selection env w w.dev.rect w.dev.fmt w.dev.width w.dev.height).1 = rc ∧
        rc < 0) ∧
      ((_mt9m111_set_selection env w w.dev.rect w.dev.fmt w.dev.width w.dev.height).1 < 0 →
        (_mt9m111_set_selection env w w.dev.rect w.dev.fmt w.dev.width w.dev.height).2.dev.rect
          = w.dev.rect ∧
        (_mt9m111_set_selection env w w.dev.rect w.dev.fmt w.dev.width w.dev.height).2.dev.width
          = w.dev.width ∧
        (_mt9m111_set_selection env w w.dev.rect w.dev.fmt w.dev.width
          w.dev.height).2.dev.height = w.dev.height ∧
        (_mt9m111_set_selection env w w.dev.rect w.dev.fmt w.dev.width
          w.dev.height).2.dev.dirty_dim = w.dev.dirty_dim ∧
        (_mt9m111_set_selection env w w.dev.rect w.dev.fmt w.dev.width
          w.dev.height).2.dev.skip_x = w.dev.skip_x ∧
        (_mt9m111_set_selection env w w.dev.rect w.dev.fmt w.dev.width
          w.dev.height).2.dev.skip_y = w.dev.skip_y) := by
  obtain ⟨evs, htrace, hfail, hneg, _, _⟩ :=
    set_selection_outcome env w w.dev.rect w.dev.fmt w.dev.width w.dev.height href
  have hf := Frame_fields (frame_set_selection env w w.dev.rect w.dev.fmt w.dev.width
    w.dev.height)
  refine ⟨evs, htrace, ?_, ?_⟩
  · intro rc rest h
    exact ⟨(hfail rc rest h).1, ff_neg env evs _ rc rest h⟩
  · intro h
    obtain ⟨h1, h2, h3, h4, _⟩ := hneg h
    exact ⟨h1, h2, h3, h4, hf.2.2.2.2.1, hf.2.2.2.2.2.1⟩

/-- Counterexample to claim C18 as stated: a skip-x change to 1 on a sensor with programmed
geometry, whose first bus transfer fails, returns the error `-5` but leaves `skip_x = 1`
and `dirty_dim` set, where they were 0 and cleared before the call. -/
theorem C18_skip_failure_counterexample :
    clean_world.dev.is_streaming = false ∧
    clean_world.dev.skip_x = 0 ∧ clean_world.dev.dirty_dim = false ∧
    mt9m111_s_ctrl (fail_at_env 2) clean_world ⟨.SKIP_X, 1⟩ =
      (-5, { dev := { probe_state with skip_x := 1, dirty_dim := true },
             trace := [.clk_enable, .pinctrl_select .PIN_STATE_IDLE,
               .i2c_write MT9M111_PAGE_MAP 0, .pinctrl_select .PIN_STATE_SLEEP,
               .clk_disable] }) :=
  ⟨rfl, rfl, rfl, rfl⟩

theorem s_ctrl_skip_x (env : Env) (w : World) (val : Int)
    (hs : w.dev.is_streaming = false) :
    mt9m111_s_ctrl env w ⟨.SKIP_X, val⟩ =
      _mt9m111_set_selection env
        { w with dev := { w.dev with skip_x := (val % 256).toNat, dirty_dim := true } }
        w.dev.rect w.dev.fmt w.dev.width w.dev.height := by
  simp [mt9m111_s_ctrl, hs]

theorem s_ctrl_skip_y (env : Env) (w : World) (val : Int)
    (hs : w.dev.is_streaming = false) :
    mt9m111_s_ctrl env w ⟨.SKIP_Y, val⟩ =
      _mt9m111_set_selection env
        { w with dev := { w.dev with skip_y := (val % 256).toNat, dirty_dim := true } }
        w.dev.rect w.dev.fmt w.dev.width w.dev.height := by
  simp [mt9m111_s_ctrl, hs]

/-- Claim C18, amended: a skip-factor control change (skip-x or skip-y, not streaming)
appends the events `evs` to the trace; if a bus transfer of its geometry commit fails, the
call returns that (negative) error; and whenever the call returns a negative value,
`rect`, `width`, `height` and the other skip factor are as before the call and
`dirty_dim` is set, which marks the geometry as still to be programmed. -/
theorem C18_skip_commit_failure (env : Env) (w : World) (val : Int)
    (hs : w.dev.is_streaming = false) (href : w.dev.ref_cnt + 1 < 2 ^ 32) :
    (∃ evs, (mt9m111_s_ctrl env w ⟨.SKIP_X, val⟩).2.trace = w.trace ++ evs ∧
      (∀ rc rest, first_failure env w.trace evs = some (rc, rest) →
        (mt9m111_s_ctrl env w ⟨.SKIP_X, val⟩).1 = rc ∧ rc < 0) ∧
      ((mt9m111_s_ctrl env w ⟨.SKIP_X, val⟩).1 < 0 →
        (mt9m111_s_ctrl env w ⟨.SKIP_X, val⟩).2.dev.rect = w.dev.rect ∧
        (mt9m111_s_ctrl env w ⟨.SKIP_X, val⟩).2.dev.width = w.dev.width ∧
        (mt9m111_s_ctrl env w ⟨.SKIP_X, val⟩).2.dev.height = w.dev.height ∧
        (mt9m111_s_ctrl env w ⟨.SKIP_X, val⟩).2.dev.skip_y = w.dev.skip_y ∧
        (mt9m111_s_ctrl env w ⟨.SKIP_X, val⟩).2.dev.dirty_dim = true)) ∧
    (∃ evs, (mt9m111_s_ctrl env w ⟨.SKIP_Y, val⟩).2.trace = w.trace ++ evs ∧
      (∀ rc rest, first_failure env w.trace evs = some (rc, rest) →
        (mt9m111_s_ctrl env w ⟨.SKIP_Y, val⟩).1 = rc ∧ rc < 0) ∧
      ((mt9m111_s_ctrl env w ⟨.SKIP_Y, val⟩).1 < 0 →
        (mt9m111_s_ctrl env w ⟨.SKIP_Y, val⟩).2.dev.rect = w.dev.rect ∧
        (mt9m111_s_ctrl env w ⟨.SKIP_Y, val⟩).2.dev.width = w.dev.width ∧
        (mt9m111_s_ctrl env w ⟨.SKIP_Y, val⟩).2.dev.height = w.dev.height ∧
        (mt9m111_s_ctrl env w ⟨.SKIP_Y, val⟩).2.dev.skip_x = w.dev.skip_x ∧
        (mt9m111_s_ctrl env w ⟨.SKIP_Y, val⟩).2.dev.dirty_dim = true)) := by
  constructor
  · rw [s_ctrl_skip_x env w val hs]
    obtain ⟨evs, h1, h2, h3⟩ := commit_stored_failure env
      { w with dev := { w.dev with skip_x := (val % 256).toNat, dirty_dim := true } } href
    refine ⟨evs, h1, h2, ?_⟩
    intro h
    obtain ⟨a, b, c, d, _, f⟩ := h3 h
    exact ⟨a, b, c, f, d⟩
  · rw [s_ctrl_skip_y env w val hs]
    obtain ⟨evs, h1, h2, h3⟩ := commit_stored_failure env
      { w with dev := { w.dev with skip_y := (val % 256).toNat, dirty_dim := true } } href
    refine ⟨evs, h1, h2, ?_⟩
    intro h
    obtain ⟨a, b, c, d, e, _⟩ := h3 h
    exact ⟨a, b, c, e, d⟩

/-- Witness for claim C18: the skip-x change of the counterexample, whose page-select
write fails. -/
theorem C18_skip_commit_failure_witness :
    clean_world.dev.is_streaming = false ∧ clean_world.dev.ref_cnt + 1 < 2 ^ 32 ∧
    (mt9m111_s_ctrl (fail_at_env 2) clean_world ⟨.SKIP_X, 1⟩).1 < 0 ∧
    ∃ evs, (mt9m111_s_ctrl (fail_at_env 2) clean_world ⟨.SKIP_X, 1⟩).2.trace
        = clean_world.trace ++ evs ∧
      (∀ rc rest, first_failure (fail_at_env 2) clean_world.trace evs = some (rc, rest) →
        (mt9m111_s_ctrl (fail_at_env 2) clean_world ⟨.SKIP_X, 1⟩).1 = rc ∧ rc < 0) ∧
      ((mt9m111_s_ctrl (fail_at_env 2) clean_world ⟨.SKIP_X, 1⟩).1 < 0 →
        (mt9m111_s_ctrl (fail_at_env 2) clean_world ⟨.SKIP_X, 1⟩).2.dev.rect
          = clean_world.dev.rect ∧
        (mt9m111_s_ctrl (fail_at_env 2) clean_world ⟨.SKIP_X, 1⟩).2.dev.width
          = clean_world.dev.width ∧
        (mt9m111_s_ctrl (fail_at_env 2) clean_world ⟨.SKIP_X, 1⟩).2.dev.height
          = clean_world.dev.height ∧
        (mt9m111_s_ctrl (fail_at_env 2) clean_world ⟨.SKIP_X, 1⟩).2.dev.skip_y
          = clean_world.dev.skip_y ∧
        (mt9m111_s_ctrl (fail_at_env 2) clean_world ⟨.SKIP_X, 1⟩).2.dev.dirty_dim = true) :=
  ⟨rfl, by decide, by decide,
    (C18_skip_commit_failure (fail_at_env 2) clean_world 1 rfl (by decide)).1⟩

/-! ## Crop window after a skip change -/

/-- Claim C19: the crop-window invariant does not hold in every reachable state.  From
the idle probe state (full window, skip factors 0, first base format) a successful active
crop to `{26, 8, 1001, 1000}` followed by a successful skip-x change to 1 leaves the
rectangle at width 1001 while the alignment unit for the stored format and `skip_x = 1`
is 2: the skip control commits the stored rectangle without clamping it again. -/
theorem C19_skip_breaks_alignment :
    (mt9m111_set_selection sim_env idle_world full_cfg
      ⟨.V4L2_SUBDEV_FORMAT_ACTIVE, 0, .V4L2_SEL_TGT_CROP, ⟨26, 8, 1001, 1000⟩⟩).rc = 0 ∧
    (_mt9m111_s_ctrl sim_env
      (mt9m111_set_selection sim_env idle_world full_cfg
        ⟨.V4L2_SUBDEV_FORMAT_ACTIVE, 0, .V4L2_SEL_TGT_CROP, ⟨26, 8, 1001, 1000⟩⟩).w
      ⟨.SKIP_X, 1⟩).1 = 0 ∧
    (_mt9m111_s_ctrl sim_env
      (mt9m111_set_selection sim_env idle_world full_cfg
        ⟨.V4L2_SUBDEV_FORMAT_ACTIVE, 0, .V4L2_SEL_TGT_CROP, ⟨26, 8, 1001, 1000⟩⟩).w
      ⟨.SKIP_X, 1⟩).2.dev.rect = ⟨26, 8, 1001, 1000⟩ ∧
    (_mt9m111_s_ctrl sim_env
      (mt9m111_set_selection sim_env idle_world full_cfg
        ⟨.V4L2_SUBDEV_FORMAT_ACTIVE, 0, .V4L2_SEL_TGT_CROP, ⟨26, 8, 1001, 1000⟩⟩).w
      ⟨.SKIP_X, 1⟩).2.dev.skip_x = 1 ∧
    (_mt9m111_s_ctrl sim_env
      (mt9m111_set_selection sim_env idle_world full_cfg
        ⟨.V4L2_SUBDEV_FORMAT_ACTIVE, 0, .V4L2_SEL_TGT_CROP, ⟨26, 8, 1001, 1000⟩⟩).w
      ⟨.SKIP_X, 1⟩).2.dev.fmt = some ⟨.YUYV8_2X8, .JPEG, false, false⟩ ∧
    alignment_of ⟨.YUYV8_2X8, .JPEG, false, false⟩ 1 = 2 ∧
    1001 % alignment_of ⟨.YUYV8_2X8, .JPEG, false, false⟩ 1 ≠ 0 :=
  ⟨rfl, rfl, rfl, rfl, rfl, rfl, by decide⟩

/-! ## Chip identification -/

/-- Counterexample to claim C16 as stated: with a chip that reports id `0x9999` the probe
returns `-ENODEV`, but after the id read it still runs the power-off sequence, which
writes the gain register (`0x2f`) once and the reset register (`0x0d`) three times. -/
theorem C16_unknown_chip_counterexample :
    (probe_id_read (chip_env 0x9999) probe_hdl idle_world).1 = 0x9999 ∧
    (mt9m111_video_probe (chip_env 0x9999) probe_hdl idle_world).1 = -ENODEV ∧
    (mt9m111_video_probe (chip_env 0x9999) probe_hdl idle_world).2.trace =
      (probe_id_read (chip_env 0x9999) probe_hdl idle_world).2.trace ++
        [.i2c_read 47, .i2c_write 47 32,
         .i2c_read 13, .i2c_write 13 9, .i2c_read 13, .i2c_write 13 61,
         .i2c_read 13, .i2c_write 13 53,
         .soc_power_off, .pinctrl_select .PIN_STATE_SLEEP, .clk_disable] :=
  ⟨by decide, by decide, by decide⟩

/-- Claim C16, amended: chip identification in `mt9m111_video_probe`, once the acquire
and the power-on have succeeded.  When the chip-version register reads `0x143a` the probe
runs `mt9m111_init` and, if that returns 0, the control setup, and returns the result of
the last step run; when it reads a value other than `0x143a` and `0x148c` the probe
returns `-ENODEV` without running `mt9m111_init` or the control setup.  In both cases the
probe ends with `mt9m111_s_power(sd, 0)` and a release, so the register accesses of the
power-off sequence still follow the id read. -/
theorem C16_chip_identification (env : Env) (hdl : v4l2_ctrl_handler) (w : World)
    (hg : 0 ≤ (mt9m111_get_device env w).1)
    (hp : 0 ≤ (mt9m111_s_power env hdl (mt9m111_get_device env w).2 1).1) :
    ((probe_id_read env hdl w).1 = 0x143a →
      mt9m111_video_probe env hdl w =
        if (mt9m111_init env (probe_id_read env hdl w).2).1 ≠ 0 then
          ((mt9m111_init env (probe_id_read env hdl w).2).1,
            mt9m111_put_device env (mt9m111_s_power env hdl
              (mt9m111_init env (probe_id_read env hdl w).2).2 0).2)
        else
          ((v4l2_ctrl_handler_setup env hdl
              (mt9m111_init env (probe_id_read env hdl w).2).2).1,
            mt9m111_put_device env (mt9m111_s_power env hdl
              (v4l2_ctrl_handler_setup env hdl
                (mt9m111_init env (probe_id_read env hdl w).2).2).2 0).2)) ∧
    ((probe_id_read env hdl w).1 ≠ 0x143a → (probe_id_read env hdl w).1 ≠ 0x148c →
      mt9m111_video_probe env hdl w =
        (-ENODEV, mt9m111_put_device env
          (mt9m111_s_power env hdl (probe_id_read env hdl w).2 0).2)) := by
  have hg' : ¬ (mt9m111_get_device env w).1 < 0 := not_lt.mpr hg
  have hp' : ¬ (mt9m111_s_power env hdl (mt9m111_get_device env w).2 1).1 < 0 :=
    not_lt.mpr hp
  constructor
  · intro hid
    unfold probe_id_read at hid
    unfold mt9m111_video_probe probe_id_read
    simp only [hg', hp', if_false, hid, true_or, if_true]
    split <;> rfl
  · intro h1 h2
    unfold probe_id_read at h1 h2
    unfold mt9m111_video_probe probe_id_read
    simp only [hg', hp', if_false, h1, h2, or_self]

/-- Witness for claim C16: a chip that reports `0x143a` is initialised and set up (both
return 0 here), and a chip that reports `0x9999` is rejected with `-ENODEV`. -/
theorem C16_chip_identification_witness :
    0 ≤ (mt9m111_get_device (chip_env 0x143a) idle_world).1 ∧
    0 ≤ (mt9m111_s_power (chip_env 0x143a) probe_hdl
      (mt9m111_get_device (chip_env 0x143a) idle_world).2 1).1 ∧
    (probe_id_read (chip_env 0x143a) probe_hdl idle_world).1 = 0x143a ∧
    (mt9m111_init (chip_env 0x143a)
      (probe_id_read (chip_env 0x143a) probe_hdl idle_world).2).1 = 0 ∧
    mt9m111_video_probe (chip_env 0x143a) probe_hdl idle_world =
      (if (mt9m111_init (chip_env 0x143a)
          (probe_id_read (chip_env 0x143a) probe_hdl idle_world).2).1 ≠ 0 then
        ((mt9m111_init (chip_env 0x143a)
            (probe_id_read (chip_env 0x143a) probe_hdl idle_world).2).1,
          mt9m111_put_device (chip_env 0x143a) (mt9m111_s_power (chip_env 0x143a) probe_hdl
            (mt9m111_init (chip_env 0x143a)
              (probe_id_read (chip_env 0x143a) probe_hdl idle_world).2).2 0).2)
      else
        ((v4l2_ctrl_handler_setup (chip_env 0x143a) probe_hdl
            (mt9m111_init (chip_env 0x143a)
              (probe_id_read (chip_env 0x143a) probe_hdl idle_world).2).2).1,
          mt9m111_put_device (chip_env 0x143a) (mt9m111_s_power (chip_env 0x143a) probe_hdl
            (v4l2_ctrl_handler_setup (chip_env 0x143a) probe_hdl
              (mt9m111_init (chip_env 0x143a)
                (probe_id_read (chip_env 0x143a) probe_hdl idle_world).2).2).2 0).2)) ∧
    mt9m111_video_probe (chip_env 0x9999) probe_hdl idle_world =
      (-ENODEV, mt9m111_put_device (chip_env 0x9999)
        (mt9m111_s_power (chip_env 0x9999) probe_hdl
          (probe_id_read (chip_env 0x9999) probe_hdl idle_world).2 0).2) :=
  ⟨by decide, by decide, by decide, by decide,
    (C16_chip_identification (chip_env 0x143a) probe_hdl idle_world (by decide)
      (by decide)).1 (by decide),
    (C16_chip_identification (chip_env 0x9999) probe_hdl idle_world (by decide)
      (by decide)).2 (by decide) (by decide)⟩

/-! ## The page cache across controls and power sequencing -/

set_option maxRecDepth 100000

theorem data_transfers_append (a b : List Event) :
    data_transfers (a ++ b) = data_transfers a ++ data_transfers b := by
  simp [data_transfers]

theorem data_transfers_non_i2c (evs : List Event) (h : ∀ e ∈ evs, e.is_i2c = false) :
    data_transfers evs = [] := by
  unfold data_transfers
  rw [List.filter_eq_nil_iff]
  intro e he
  have := h e he
  cases e <;> simp_all [Event.is_i2c, Event.is_data]

theorem data_transfers_select (c : Prop) [Decidable c] (p : Nat) :
    data_transfers (if c then [] else [Event.i2c_write MT9M111_PAGE_MAP p]) = [] := by
  split <;> simp [data_transfers, Event.is_data]

theorem reg_write_ok (env : Env)
    (hw : ∀ t c v, env.i2c_smbus_write_word_swapped t c v = 0)
    (w : World) (reg data : Nat) (hp : (reg % 2 ^ 16) >>> 8 ≤ 2) :
    mt9m111_reg_write env w reg data =
      (0, { dev := { w.dev with lastpage := (((reg % 2 ^ 16) >>> 8 : Nat) : Int) },
            trace := w.trace ++
              (if (((reg % 2 ^ 16) >>> 8 : Nat) : Int) = w.dev.lastpage then []
               else [Event.i2c_write MT9M111_PAGE_MAP ((reg % 2 ^ 16) >>> 8)]) ++
              [Event.i2c_write (reg % 2 ^ 16 &&& 0xff) (data % 2 ^ 16)] }) := by
  rw [reg_write_def]
  by_cases hc : (((reg % 2 ^ 16) >>> 8 : Nat) : Int) = w.dev.lastpage
  · rw [page_map_cached env w _ hc, if_pos rfl, if_pos hc, hw, hc]
    simp [World.emit]
  · rw [page_map_ok env w _ hc hp (hw _ _ _), if_pos rfl, if_neg hc, hw]
    simp [World.emit]

theorem reg_read_ok (env : Env)
    (hw : ∀ t c v, env.i2c_smbus_write_word_swapped t c v = 0)
    (w : World) (reg : Nat) (hp : (reg % 2 ^ 16) >>> 8 ≤ 2) :
    mt9m111_reg_read env w reg =
      (env.i2c_smbus_read_word_swapped
          (w.trace ++
            (if (((reg % 2 ^ 16) >>> 8 : Nat) : Int) = w.dev.lastpage then []
             else [Event.i2c_write MT9M111_PAGE_MAP ((reg % 2 ^ 16) >>> 8)]))
          (reg % 2 ^ 16 &&& 0xff),
        { dev := { w.dev with lastpage := (((reg % 2 ^ 16) >>> 8 : Nat) : Int) },
          trace := w.trace ++
            (if (((reg % 2 ^ 16) >>> 8 : Nat) : Int) = w.dev.lastpage then []
             else [Event.i2c_write MT9M111_PAGE_MAP ((reg % 2 ^ 16) >>> 8)]) ++
            [Event.i2c_read (reg % 2 ^ 16 &&& 0xff)] }) := by
  rw [reg_read_def]
  by_cases hc : (((reg % 2 ^ 16) >>> 8 : Nat) : Int) = w.dev.lastpage
  · rw [page_map_cached env w _ hc, if_pos rfl, if_pos hc, hc]
    simp [World.emit]
  · rw [page_map_ok env w _ hc hp (hw _ _ _), if_pos rfl, if_neg hc]
    simp [World.emit]

theorem data_transfers_event (s : regval)
    (h : s.reg % 2 ^ 16 &&& 0xff ≠ MT9M111_PAGE_MAP) :
    data_transfers [s.event] = [s.event] := by
  have hd : Event.is_data s.event = true := decide_eq_true h
  simp only [data_transfers, List.filter, hd]

theorem write_setup_ok (env : Env)
    (hw : ∀ t c v, env.i2c_smbus_write_word_swapped t c v = 0) (l : List regval) :
    ∀ (rc : Int) (w : World),
      (∀ s ∈ l, (s.reg % 2 ^ 16) >>> 8 ≤ 2 ∧ s.reg % 2 ^ 16 &&& 0xff ≠ MT9M111_PAGE_MAP) →
      ∃ evs lp,
        (write_setup env l rc w).2 =
          { dev := { w.dev with lastpage := lp }, trace := w.trace ++ evs } ∧
        (write_setup env l rc w).1 = (if l = [] then rc else 0) ∧
        data_transfers evs = l.map regval.event := by
  induction l with
  | nil =>
    intro rc w _
    exact ⟨[], w.dev.lastpage, by simp [write_setup], by simp [write_setup], rfl⟩
  | cons s rest ih =>
    intro rc w hl
    obtain ⟨hp, hb⟩ := hl s (List.mem_cons_self _ _)
    obtain ⟨evs, lp, e1, e2, e3⟩ := ih 0
      { dev := { w.dev with lastpage := (((s.reg % 2 ^ 16) >>> 8 : Nat) : Int) },
        trace := w.trace ++
          (if (((s.reg % 2 ^ 16) >>> 8 : Nat) : Int) = w.dev.lastpage then []
           else [Event.i2c_write MT9M111_PAGE_MAP ((s.reg % 2 ^ 16) >>> 8)]) ++
          [s.event] }
      (fun x hx => hl x (List.mem_cons_of_mem _ hx))
    have hstep : write_setup env (s :: rest) rc w = write_setup env rest 0
        { dev := { w.dev with lastpage := (((s.reg % 2 ^ 16) >>> 8 : Nat) : Int) },
          trace := w.trace ++
            (if (((s.reg % 2 ^ 16) >>> 8 : Nat) : Int) = w.dev.lastpage then []
             else [Event.i2c_write MT9M111_PAGE_MAP ((s.reg % 2 ^ 16) >>> 8)]) ++
            [s.event] } := by
      rw [write_setup, reg_write_ok env hw w s.reg s.val hp]
      simp [regval.event]
    rw [hstep]
    refine ⟨(if (((s.reg % 2 ^ 16) >>> 8 : Nat) : Int) = w.dev.lastpage then []
           else [Event.i2c_write MT9M111_PAGE_MAP ((s.reg % 2 ^ 16) >>> 8)]) ++
          [s.event] ++ evs, lp, ?_, ?_, ?_⟩
    · rw [e1]; simp
    · rw [e2]; simp
    · rw [data_transfers_append, data_transfers_append, data_transfers_select,
        data_transfers_event s hb, e3]
      rfl

theorem reg_mask_ok (env : Env)
    (hw : ∀ t c v, env.i2c_smbus_write_word_swapped t c v = 0)
    (hr : ∀ t c, 0 ≤ env.i2c_smbus_read_word_swapped t c)
    (w : World) (reg data mask : Nat) (hp : (reg % 2 ^ 16) >>> 8 ≤ 2) :
    mt9m111_reg_mask env w reg data mask =
      (0, { dev := { w.dev with lastpage := (((reg % 2 ^ 16) >>> 8 : Nat) : Int) },
            trace := w.trace ++
              (if (((reg % 2 ^ 16) >>> 8 : Nat) : Int) = w.dev.lastpage then []
               else [Event.i2c_write MT9M111_PAGE_MAP ((reg % 2 ^ 16) >>> 8)]) ++
              [Event.i2c_read (reg % 2 ^ 16 &&& 0xff),
               Event.i2c_write (reg % 2 ^ 16 &&& 0xff)
                 ((((env.i2c_smbus_read_word_swapped
                      (w.trace ++
                        (if (((reg % 2 ^ 16) >>> 8 : Nat) : Int) = w.dev.lastpage then []
                         else [Event.i2c_write MT9M111_PAGE_MAP ((reg % 2 ^ 16) >>> 8)]))
                      (reg % 2 ^ 16 &&& 0xff)).toNat &&& (2 ^ 32 - 1 - mask % 2 ^ 16)) |||
                    (data % 2 ^ 16)) % 2 ^ 16)] }) := by
  unfold mt9m111_reg_mask
  rw [reg_read_ok env hw w reg hp]
  simp only
  rw [if_pos (hr _ _), reg_write_ok env hw _ reg _ hp]
  simp

theorem setup_regs_valid (dev : mt9m111) (ctx : mt9m111_context) (r : v4l2_rect)
    (width height : Nat) (hctx : ctx = context_a ∨ ctx = context_b) :
    ∀ s ∈ set_selection_setup dev ctx r width height,
      (s.reg % 2 ^ 16) >>> 8 ≤ 2 ∧ s.reg % 2 ^ 16 &&& 0xff ≠ MT9M111_PAGE_MAP := by
  intro s hs
  unfold set_selection_setup at hs
  simp only [List.mem_append] at hs
  rcases hs with (((((h | h) | h) | h) | h) | h) | h
  · simp only [List.mem_cons, List.mem_singleton, List.not_mem_nil, or_false] at h
    rcases h with h | h | h | h <;> rw [h] <;> dsimp only <;> decide
  all_goals
    have e := mem_ite_single _ s h
    rw [e]
    rcases hctx with rfl | rfl <;> dsimp only <;> decide

theorem setup_ne_nil (dev : mt9m111) (ctx : mt9m111_context) (r : v4l2_rect)
    (width height : Nat) : set_selection_setup dev ctx r width height ≠ [] := by
  simp [set_selection_setup]

/-- A release puts no data transfer on the bus. -/
theorem commit_release (env : Env) (w : World) :
    ∃ rel, (mt9m111_put_device env w).trace = w.trace ++ rel ∧ data_transfers rel = [] := by
  by_cases h0 : w.dev.ref_cnt = 0
  · exact ⟨[], by rw [put_device_zero env w h0]; simp, rfl⟩
  · obtain ⟨rel, e1, e2, _⟩ := put_device_spec env w h0
    exact ⟨rel, e1, data_transfers_non_i2c rel e2⟩

/-- On a bus whose writes return 0 and whose reads do not fail, a commit for context A or
B with non-zero stored sizes and a successful acquire returns 0; between the events of
the acquire (`acq`) and of the release (`rel`) its data transfers are the writes of the
batch, in order, then the read and the write of the read-mode register. -/
theorem commit_success (env : Env)
    (hw : ∀ t c v, env.i2c_smbus_write_word_swapped t c v = 0)
    (hr : ∀ t c, 0 ≤ env.i2c_smbus_read_word_swapped t c)
    (w : World) (r : v4l2_rect) (f : mt9m111_datafmt) (ctx : mt9m111_context)
    (width height : Nat)
    (hctx : w.dev.ctx = some ctx) (hab : ctx = context_a ∨ ctx = context_b)
    (hwd : w.dev.width ≠ 0) (hht : w.dev.height ≠ 0)
    (hg : 0 ≤ (mt9m111_get_device env w).1) :
    ∃ acq mid rel,
      (_mt9m111_set_selection env w r (some f) width height).1 = 0 ∧
      (_mt9m111_set_selection env w r (some f) width height).2.trace =
        w.trace ++ acq ++ mid ++
          [Event.i2c_read (ctx.read_mode % 2 ^ 16 &&& 0xff),
           Event.i2c_write (ctx.read_mode % 2 ^ 16 &&& 0xff)
             ((((env.i2c_smbus_read_word_swapped (w.trace ++ acq ++ mid)
                  (ctx.read_mode % 2 ^ 16 &&& 0xff)).toNat &&&
                  (2 ^ 32 - 1 - (0x0f <<< 2) % 2 ^ 16)) |||
                (((skip_code w.dev.skip_x <<< 3) ||| (skip_code w.dev.skip_y <<< 2))
                  % 2 ^ 16)) % 2 ^ 16)] ++ rel ∧
      data_transfers acq = [] ∧ data_transfers rel = [] ∧
      data_transfers mid = (set_selection_setup w.dev ctx r width height).map regval.event := by
  obtain ⟨acq, g1, g2, _, g4⟩ := get_device_spec env w
  have hg' : ¬ (mt9m111_get_device env w).1 < 0 := not_lt.mpr hg
  obtain ⟨_, gd⟩ := g4 hg'
  obtain ⟨mid0, lp, b1, b2, b3⟩ := write_setup_ok env hw
    (set_selection_setup w.dev ctx r width height)
    (mt9m111_get_device env w).1 (mt9m111_get_device env w).2
    (setup_regs_valid w.dev ctx r width height hab)
  rw [if_neg (setup_ne_nil w.dev ctx r width height)] at b2
  have hrm : (ctx.read_mode % 2 ^ 16) >>> 8 ≤ 2 := by
    rcases hab with rfl | rfl <;> decide
  have hguard : ¬ (w.dev.width = 0 ∨ w.dev.height = 0) := by
    intro h; rcases h with h | h
    · exact hwd h
    · exact hht h
  have hb : ¬ (write_setup env (set_selection_setup w.dev ctx r width height)
      (mt9m111_get_device env w).1 (mt9m111_get_device env w).2).1 < 0 := by
    rw [b2]; decide
  unfold _mt9m111_set_selection
  simp only [hctx]
  rw [if_neg hguard]
  rw [if_neg hg', if_neg hb, reg_mask_ok env hw hr _ ctx.read_mode _ _ hrm]
  simp only [lt_self_iff_false, if_false]
  obtain ⟨rel, r1, r2⟩ := commit_release env
    { dev := { ({ (write_setup env (set_selection_setup w.dev ctx r width height)
          (mt9m111_get_device env w).1 (mt9m111_get_device env w).2).2.dev with
          lastpage := (((ctx.read_mode % 2 ^ 16) >>> 8 : Nat) : Int) } : mt9m111) with
        width := width, height := height, rect := r, dirty_dim := false },
      trace := (write_setup env (set_selection_setup w.dev ctx r width height)
          (mt9m111_get_device env w).1 (mt9m111_get_device env w).2).2.trace ++
        (if (((ctx.read_mode % 2 ^ 16) >>> 8 : Nat) : Int) =
            (write_setup env (set_selection_setup w.dev ctx r width height)
              (mt9m111_get_device env w).1 (mt9m111_get_device env w).2).2.dev.lastpage
          then [] else [Event.i2c_write MT9M111_PAGE_MAP ((ctx.read_mode % 2 ^ 16) >>> 8)]) ++
        [Event.i2c_read (ctx.read_mode % 2 ^ 16 &&& 0xff),
         Event.i2c_write (ctx.read_mode % 2 ^ 16 &&& 0xff)
           ((((env.i2c_smbus_read_word_swapped
                ((write_setup env (set_selection_setup w.dev ctx r width height)
                    (mt9m111_get_device env w).1 (mt9m111_get_device env w).2).2.trace ++
                  (if (((ctx.read_mode % 2 ^ 16) >>> 8 : Nat) : Int) =
                      (write_setup env (set_selection_setup w.dev ctx r width height)
                        (mt9m111_get_device env w).1
                        (mt9m111_get_device env w).2).2.dev.lastpage
                    then []
                    else [Event.i2c_write MT9M111_PAGE_MAP ((ctx.read_mode % 2 ^ 16) >>> 8)]))
                (ctx.read_mode % 2 ^ 16 &&& 0xff)).toNat &&&
                (2 ^ 32 - 1 - (0x0f <<< 2) % 2 ^ 16)) |||
              (((skip_code (write_setup env (set_selection_setup w.dev ctx r width height)
                    (mt9m111_get_device env w).1
                    (mt9m111_get_device env w).2).2.dev.skip_x <<< 3) |||
                (skip_code (write_setup env (set_selection_setup w.dev ctx r width height)
                    (mt9m111_get_device env w).1
                    (mt9m111_get_device env w).2).2.dev.skip_y <<< 2)) % 2 ^ 16)) % 2 ^ 16)] }
  refine ⟨acq, mid0 ++ (if (((ctx.read_mode % 2 ^ 16) >>> 8 : Nat) : Int) = lp then []
      else [Event.i2c_write MT9M111_PAGE_MAP ((ctx.read_mode % 2 ^ 16) >>> 8)]), rel,
    trivial, ?_, data_transfers_non_i2c acq g2, r2, ?_⟩
  · rw [r1, b1, g1, gd]
    simp only [List.append_assoc]
  · rw [data_transfers_append, data_transfers_select, b3]
    simp

theorem data_transfers_rmw (c v : Nat) (h : c ≠ MT9M111_PAGE_MAP) :
    data_transfers [Event.i2c_read c, Event.i2c_write c v] =
      [Event.i2c_read c, Event.i2c_write c v] := by
  have hd : Event.is_data (Event.i2c_write c v) = true := decide_eq_true h
  have hd' : Event.is_data (Event.i2c_read c) = true := rfl
  simp only [data_transfers, List.filter, hd, hd']

theorem read_mode_not_page_map (ctx : mt9m111_context)
    (hab : ctx = context_a ∨ ctx = context_b) :
    (ctx.read_mode % 2 ^ 16 &&& 0xff) ≠ MT9M111_PAGE_MAP := by
  rcases hab with rfl | rfl <;> decide

theorem setup_dirty (dev : mt9m111) (ctx : mt9m111_context) (r : v4l2_rect)
    (width height : Nat) (hd : dev.dirty_dim = true) :
    set_selection_setup dev ctx r width height =
      [⟨MT9M111_COLUMN_START, r.left⟩, ⟨MT9M111_ROW_START, r.top⟩,
       ⟨MT9M111_WINDOW_WIDTH, r.width⟩, ⟨MT9M111_WINDOW_HEIGHT, r.height⟩,
       ⟨ctx.reducer_xsize, width >>> dev.skip_x⟩, ⟨ctx.reducer_xzoom, r.width⟩,
       ⟨ctx.reducer_xsize, width >>> dev.skip_x⟩,
       ⟨ctx.reducer_ysize, height >>> dev.skip_y⟩, ⟨ctx.reducer_yzoom, r.height⟩,
       ⟨ctx.reducer_ysize, height >>> dev.skip_y⟩] := by
  simp [set_selection_setup, hd]

theorem setup_length_le (dev : mt9m111) (ctx : mt9m111_context) (r : v4l2_rect)
    (width height : Nat) : (set_selection_setup dev ctx r width height).length ≤ 10 := by
  unfold set_selection_setup
  simp only [List.length_append]
  split_ifs <;> simp

/-- Claim C21: ordered commit batch with the double size write.  With the geometry-dirty
flag set the batch of `_mt9m111_set_selection(r, fmt, width, height)` is, in this order,
`COLUMN_START = r.left`, `ROW_START = r.top`, `WINDOW_WIDTH = r.width`,
`WINDOW_HEIGHT = r.height`, then reducer size `width >> skip_x`, reducer zoom `r.width`
and the reducer size again for the x axis, then reducer size `height >> skip_y`, reducer
zoom `r.height` and the reducer size again for the y axis, on the reducer registers of
the active context.  On a bus whose writes return 0 and whose reads do not fail, for
context A or B, non-zero stored sizes and a successful acquire, the call returns 0 and
the data transfers it issues are exactly the writes of these ten entries in this order,
followed by a read and a write of the read-mode register of the active context.  The
batch never holds more than 10 entries, whatever the arguments. -/
theorem C21_commit_batch_order (env : Env)
    (hw : ∀ t c v, env.i2c_smbus_write_word_swapped t c v = 0)
    (hr : ∀ t c, 0 ≤ env.i2c_smbus_read_word_swapped t c)
    (w : World) (r : v4l2_rect) (f : mt9m111_datafmt) (ctx : mt9m111_context)
    (width height : Nat)
    (hctx : w.dev.ctx = some ctx) (hab : ctx = context_a ∨ ctx = context_b)
    (hdirty : w.dev.dirty_dim = true)
    (hwd : w.dev.width ≠ 0) (hht : w.dev.height ≠ 0)
    (hg : 0 ≤ (mt9m111_get_device env w).1) :
    set_selection_setup w.dev ctx r width height =
      [⟨MT9M111_COLUMN_START, r.left⟩, ⟨MT9M111_ROW_START, r.top⟩,
       ⟨MT9M111_WINDOW_WIDTH, r.width⟩, ⟨MT9M111_WINDOW_HEIGHT, r.height⟩,
       ⟨ctx.reducer_xsize, width >>> w.dev.skip_x⟩, ⟨ctx.reducer_xzoom, r.width⟩,
       ⟨ctx.reducer_xsize, width >>> w.dev.skip_x⟩,
       ⟨ctx.reducer_ysize, height >>> w.dev.skip_y⟩, ⟨ctx.reducer_yzoom, r.height⟩,
       ⟨ctx.reducer_ysize, height >>> w.dev.skip_y⟩] ∧
    (_mt9m111_set_selection env w r (some f) width height).1 = 0 ∧
    (∃ evs v, (_mt9m111_set_selection env w r (some f) width height).2.trace
        = w.trace ++ evs ∧
      data_transfers evs =
        [regval.event ⟨MT9M111_COLUMN_START, r.left⟩,
         regval.event ⟨MT9M111_ROW_START, r.top⟩,
         regval.event ⟨MT9M111_WINDOW_WIDTH, r.width⟩,
         regval.event ⟨MT9M111_WINDOW_HEIGHT, r.height⟩,
         regval.event ⟨ctx.reducer_xsize, width >>> w.dev.skip_x⟩,
         regval.event ⟨ctx.reducer_xzoom, r.width⟩,
         regval.event ⟨ctx.reducer_xsize, width >>> w.dev.skip_x⟩,
         regval.event ⟨ctx.reducer_ysize, height >>> w.dev.skip_y⟩,
         regval.event ⟨ctx.reducer_yzoom, r.height⟩,
         regval.event ⟨ctx.reducer_ysize, height >>> w.dev.skip_y⟩,
         Event.i2c_read (ctx.read_mode % 2 ^ 16 &&& 0xff),
         Event.i2c_write (ctx.read_mode % 2 ^ 16 &&& 0xff) v]) ∧
    (∀ (dev : mt9m111) (c : mt9m111_context) (r' : v4l2_rect) (w' h' : Nat),
      (set_selection_setup dev c r' w' h').length ≤ 10) := by
  obtain ⟨acq, mid, rel, h1, h2, h3, h4, h5⟩ :=
    commit_success env hw hr w r f ctx width height hctx hab hwd hht hg
  refine ⟨setup_dirty w.dev ctx r width height hdirty, h1, ?_, setup_length_le⟩
  obtain ⟨v, hv⟩ : ∃ v, (_mt9m111_set_selection env w r (some f) width height).2.trace =
      w.trace ++ acq ++ mid ++ [Event.i2c_read (ctx.read_mode % 2 ^ 16 &&& 0xff),
        Event.i2c_write (ctx.read_mode % 2 ^ 16 &&& 0xff) v] ++ rel := ⟨_, h2⟩
  refine ⟨acq ++ mid ++ [Event.i2c_read (ctx.read_mode % 2 ^ 16 &&& 0xff),
        Event.i2c_write (ctx.read_mode % 2 ^ 16 &&& 0xff) v] ++ rel, v, ?_, ?_⟩
  · rw [hv]; simp only [List.append_assoc]
  · rw [data_transfers_append, data_transfers_append, data_transfers_append, h3, h4, h5,
      setup_dirty w.dev ctx r width height hdirty]
    rw [data_transfers_rmw _ _ (read_mode_not_page_map ctx hab)]
    rfl

theorem sim_env_read_nonneg :
    ∀ (t : List Event) (c : Nat), 0 ≤ sim_env.i2c_smbus_read_word_swapped t c :=
  fun _ _ => Int.ofNat_nonneg _

/-- Witness for claim C21: a commit of `{30, 12, 640, 480}` with output size 640 x 480 on
the idle probe state (context B, dirty flag set), with the whole trace of the call. -/
theorem C21_commit_batch_order_witness :
    (∀ (t : List Event) (c v : Nat), sim_env.i2c_smbus_write_word_swapped t c v = 0) ∧
    (∀ (t : List Event) (c : Nat), 0 ≤ sim_env.i2c_smbus_read_word_swapped t c) ∧
    idle_world.dev.ctx = some context_b ∧ idle_world.dev.dirty_dim = true ∧
    idle_world.dev.width ≠ 0 ∧ idle_world.dev.height ≠ 0 ∧
    0 ≤ (mt9m111_get_device sim_env idle_world).1 ∧
    set_selection_setup idle_world.dev context_b ⟨30, 12, 640, 480⟩ 640 480 =
      [⟨MT9M111_COLUMN_START, 30⟩, ⟨MT9M111_ROW_START, 12⟩,
       ⟨MT9M111_WINDOW_WIDTH, 640⟩, ⟨MT9M111_WINDOW_HEIGHT, 480⟩,
       ⟨MT9M111_REDUCER_XSIZE_B, 640⟩, ⟨MT9M111_REDUCER_XZOOM_B, 640⟩,
       ⟨MT9M111_REDUCER_XSIZE_B, 640⟩,
       ⟨MT9M111_REDUCER_YSIZE_B, 480⟩, ⟨MT9M111_REDUCER_YZOOM_B, 480⟩,
       ⟨MT9M111_REDUCER_YSIZE_B, 480⟩] ∧
    (_mt9m111_set_selection sim_env idle_world ⟨30, 12, 640, 480⟩
      (some ⟨.YUYV8_2X8, .JPEG, false, false⟩) 640 480).1 = 0 ∧
    (_mt9m111_set_selection sim_env idle_world ⟨30, 12, 640, 480⟩
      (some ⟨.YUYV8_2X8, .JPEG, false, false⟩) 640 480).2.trace =
      [.clk_enable, .pinctrl_select .PIN_STATE_IDLE,
       .i2c_write MT9M111_PAGE_MAP 0,
       .i2c_write 0x02 30, .i2c_write 0x01 12, .i2c_write 0x04 640, .i2c_write 0x03 480,
       .i2c_write MT9M111_PAGE_MAP 1,
       .i2c_write 0xa1 640, .i2c_write 0xa0 640, .i2c_write 0xa1 640,
       .i2c_write 0xa4 480, .i2c_write 0xa3 480, .i2c_write 0xa4 480,
       .i2c_write MT9M111_PAGE_MAP 0,
       .i2c_read 0x20, .i2c_write 0x20 0,
       .pinctrl_select .PIN_STATE_SLEEP, .clk_disable] :=
  ⟨fun _ _ _ => rfl, sim_env_read_nonneg, rfl, rfl, by decide, by decide, by decide,
    (C21_commit_batch_order sim_env (fun _ _ _ => rfl) sim_env_read_nonneg idle_world
      ⟨30, 12, 640, 480⟩ ⟨.YUYV8_2X8, .JPEG, false, false⟩ context_b 640 480 rfl
      (Or.inr rfl) rfl (by decide) (by decide) (by decide)).1,
    (C21_commit_batch_order sim_env (fun _ _ _ => rfl) sim_env_read_nonneg idle_world
      ⟨30, 12, 640, 480⟩ ⟨.YUYV8_2X8, .JPEG, false, false⟩ context_b 640 480 rfl
      (Or.inr rfl) rfl (by decide) (by decide) (by decide)).2.1,
    rfl⟩

/-! ## Write elision in the commit batch -/

/-- Counterexample to claim C22 as stated: on a sensor with programmed geometry
(`dirty_dim` clear, stored output width 1280, stored crop width 1280) a commit with output
width 640 and an unchanged crop builds a batch with the two x-size writes but without the
x-zoom write, although the requested output length differs from the stored one. -/
theorem C22_write_elision_counterexample :
    clean_world.dev.dirty_dim = false ∧ (640 : Nat) ≠ clean_world.dev.width ∧
    (1280 : Nat) = clean_world.dev.rect.width ∧
    set_selection_setup clean_world.dev context_b ⟨26, 8, 1280, 1024⟩ 640 1024 =
      [⟨MT9M111_COLUMN_START, 26⟩, ⟨MT9M111_ROW_START, 8⟩,
       ⟨MT9M111_WINDOW_WIDTH, 1280⟩, ⟨MT9M111_WINDOW_HEIGHT, 1024⟩,
       ⟨MT9M111_REDUCER_XSIZE_B, 640⟩, ⟨MT9M111_REDUCER_XSIZE_B, 640⟩] ∧
    (set_selection_setup clean_world.dev context_b ⟨26, 8, 1280, 1024⟩ 640 1024).filter
      (fun s => decide (s.reg = context_b.reducer_xzoom)) = [] :=
  ⟨rfl, by decide, rfl, by decide, by decide⟩

theorem filter_ite_single (p : regval → Bool) (c : Prop) [Decidable c] (x : regval) :
    (if c then [x] else []).filter p = if c ∧ p x = true then [x] else [] := by
  by_cases hc : c <;> by_cases hp : p x = true <;> simp [hc, hp]

/-- The entries of the batch for the reducer registers of one axis, for context A or B. -/
theorem setup_filter_axis (dev : mt9m111) (ctx : mt9m111_context) (r : v4l2_rect)
    (width height : Nat) (hab : ctx = context_a ∨ ctx = context_b) :
    (set_selection_setup dev ctx r width height).filter
        (fun s => decide (s.reg = ctx.reducer_xsize ∨ s.reg = ctx.reducer_xzoom)) =
      (if dev.dirty_dim = true ∨ width ≠ dev.width then
        [⟨ctx.reducer_xsize, width >>> dev.skip_x⟩] else []) ++
      (if dev.dirty_dim = true ∨ r.width ≠ dev.rect.width then
        [⟨ctx.reducer_xzoom, r.width⟩] else []) ++
      (if dev.dirty_dim = true ∨ width ≠ dev.width then
        [⟨ctx.reducer_xsize, width >>> dev.skip_x⟩] else []) ∧
    (set_selection_setup dev ctx r width height).filter
        (fun s => decide (s.reg = ctx.reducer_ysize ∨ s.reg = ctx.reducer_yzoom)) =
      (if dev.dirty_dim = true ∨ height ≠ dev.height then
        [⟨ctx.reducer_ysize, height >>> dev.skip_y⟩] else []) ++
      (if dev.dirty_dim = true ∨ r.height ≠ dev.rect.height then
        [⟨ctx.reducer_yzoom, r.height⟩] else []) ++
      (if dev.dirty_dim = true ∨ height ≠ dev.height then
        [⟨ctx.reducer_ysize, height >>> dev.skip_y⟩] else []) := by
  rcases hab with rfl | rfl <;>
    refine ⟨?_, ?_⟩ <;>
    simp only [set_selection_setup, List.filter_append, filter_ite_single] <;>
    by_cases h1 : (dev.dirty_dim = true ∨ width ≠ dev.width) <;>
    by_cases h2 : (dev.dirty_dim = true ∨ r.width ≠ dev.rect.width) <;>
    by_cases h3 : (dev.dirty_dim = true ∨ height ≠ dev.height) <;>
    by_cases h4 : (dev.dirty_dim = true ∨ r.height ≠ dev.rect.height) <;>
    simp [h1, h2, h3, h4, context_a, context_b, MT9M111_COLUMN_START, MT9M111_ROW_START,
      MT9M111_WINDOW_WIDTH, MT9M111_WINDOW_HEIGHT, MT9M111_REDUCER_XSIZE_A,
      MT9M111_REDUCER_XZOOM_A, MT9M111_REDUCER_YSIZE_A, MT9M111_REDUCER_YZOOM_A,
      MT9M111_REDUCER_XSIZE_B, MT9M111_REDUCER_XZOOM_B, MT9M111_REDUCER_YSIZE_B,
      MT9M111_REDUCER_YZOOM_B]

/-- The shape of the entries of one axis: nothing, the zoom alone, the two sizes, or the
triple, according to the two conditions of the source. -/
theorem axis_entries (dirty : Bool) (a b a' b' : Nat) (xs xz : regval) (hne : xs ≠ xz) :
    (((if dirty = true ∨ a ≠ a' then [xs] else []) ++
        (if dirty = true ∨ b ≠ b' then [xz] else []) ++
        (if dirty = true ∨ a ≠ a' then [xs] else []) = [] ↔
      dirty = false ∧ a = a' ∧ b = b') ∧
    ((if dirty = true ∨ a ≠ a' then [xs] else []) ++
        (if dirty = true ∨ b ≠ b' then [xz] else []) ++
        (if dirty = true ∨ a ≠ a' then [xs] else []) = [xs, xz, xs] ↔
      dirty = true ∨ (a ≠ a' ∧ b ≠ b'))) := by
  have hne' : xz ≠ xs := fun h => hne h.symm
  cases dirty <;> by_cases ha : a = a' <;> by_cases hb : b = b' <;> simp [ha, hb, hne, hne']

theorem size_ne_zoom (ctx : mt9m111_context) (hab : ctx = context_a ∨ ctx = context_b)
    (a b c d : Nat) :
    (⟨ctx.reducer_xsize, a⟩ : regval) ≠ ⟨ctx.reducer_xzoom, b⟩ ∧
    (⟨ctx.reducer_ysize, c⟩ : regval) ≠ ⟨ctx.reducer_yzoom, d⟩ := by
  rcases hab with rfl | rfl <;> constructor <;> intro h <;>
    have h' := congrArg regval.reg h <;> dsimp only at h' <;> exact absurd h' (by decide)

/-- Claim C22, amended: write elision in the batch of `_mt9m111_set_selection`, for
context A or B.  Per axis, the entries on the reducer size and zoom registers are, in
order, the size write if `dirty_dim` is set or the requested output length differs from
the stored one, the zoom write if `dirty_dim` is set or the requested crop length differs
from the stored one, and the size write again under the first condition.  So the batch
has no size or zoom write for the axis exactly when `dirty_dim` is clear and neither
length differs, and it has the full size, zoom, size triple exactly when `dirty_dim` is
set or both lengths differ. -/
theorem C22_write_elision (dev : mt9m111) (ctx : mt9m111_context) (r : v4l2_rect)
    (width height : Nat) (hab : ctx = context_a ∨ ctx = context_b) :
    ((set_selection_setup dev ctx r width height).filter
        (fun s => decide (s.reg = ctx.reducer_xsize ∨ s.reg = ctx.reducer_xzoom)) =
      (if dev.dirty_dim = true ∨ width ≠ dev.width then
        [⟨ctx.reducer_xsize, width >>> dev.skip_x⟩] else []) ++
      (if dev.dirty_dim = true ∨ r.width ≠ dev.rect.width then
        [⟨ctx.reducer_xzoom, r.width⟩] else []) ++
      (if dev.dirty_dim = true ∨ width ≠ dev.width then
        [⟨ctx.reducer_xsize, width >>> dev.skip_x⟩] else [])) ∧
    ((set_selection_setup dev ctx r width height).filter
        (fun s => decide (s.reg = ctx.reducer_xsize ∨ s.reg = ctx.reducer_xzoom)) = [] ↔
      dev.dirty_dim = false ∧ width = dev.width ∧ r.width = dev.rect.width) ∧
    ((set_selection_setup dev ctx r width height).filter
        (fun s => decide (s.reg = ctx.reducer_xsize ∨ s.reg = ctx.reducer_xzoom)) =
        [⟨ctx.reducer_xsize, width >>> dev.skip_x⟩, ⟨ctx.reducer_xzoom, r.width⟩,
         ⟨ctx.reducer_xsize, width >>> dev.skip_x⟩] ↔
      dev.dirty_dim = true ∨ (width ≠ dev.width ∧ r.width ≠ dev.rect.width)) ∧
    ((set_selection_setup dev ctx r width height).filter
        (fun s => decide (s.reg = ctx.reducer_ysize ∨ s.reg = ctx.reducer_yzoom)) =
      (if dev.dirty_dim = true ∨ height ≠ dev.height then
        [⟨ctx.reducer_ysize, height >>> dev.skip_y⟩] else []) ++
      (if dev.dirty_dim = true ∨ r.height ≠ dev.rect.height then
        [⟨ctx.reducer_yzoom, r.height⟩] else []) ++
      (if dev.dirty_dim = true ∨ height ≠ dev.height then
        [⟨ctx.reducer_ysize, height >>> dev.skip_y⟩] else [])) ∧
    ((set_selection_setup dev ctx r width height).filter
        (fun s => decide (s.reg = ctx.reducer_ysize ∨ s.reg = ctx.reducer_yzoom)) = [] ↔
      dev.dirty_dim = false ∧ height = dev.height ∧ r.height = dev.rect.height) ∧
    ((set_selection_setup dev ctx r width height).filter
        (fun s => decide (s.reg = ctx.reducer_ysize ∨ s.reg = ctx.reducer_yzoom)) =
        [⟨ctx.reducer_ysize, height >>> dev.skip_y⟩, ⟨ctx.reducer_yzoom, r.height⟩,
         ⟨ctx.reducer_ysize, height >>> dev.skip_y⟩] ↔
      dev.dirty_dim = true ∨ (height ≠ dev.height ∧ r.height ≠ dev.rect.height)) := by
  obtain ⟨hx, hy⟩ := setup_filter_axis dev ctx r width height hab
  obtain ⟨nx, ny⟩ := size_ne_zoom ctx hab (width >>> dev.skip_x) r.width
    (height >>> dev.skip_y) r.height
  obtain ⟨x1, x2⟩ := axis_entries dev.dirty_dim width r.width dev.width dev.rect.width _ _ nx
  obtain ⟨y1, y2⟩ := axis_entries dev.dirty_dim height r.height dev.height dev.rect.height
    _ _ ny
  refine ⟨hx, ?_, ?_, hy, ?_, ?_⟩
  · rw [hx]; exact x1
  · rw [hx]; exact x2
  · rw [hy]; exact y1
  · rw [hy]; exact y2

/-- Witness for claim C22: the commit of the counterexample (context B, only the output
width differs): the x axis has the two size writes, the y axis nothing. -/
theorem C22_write_elision_witness :
    (context_b = context_a ∨ context_b = context_b) ∧
    (set_selection_setup clean_world.dev context_b ⟨26, 8, 1280, 1024⟩ 640 1024).filter
        (fun s => decide (s.reg = context_b.reducer_xsize ∨ s.reg = context_b.reducer_xzoom))
      = [⟨MT9M111_REDUCER_XSIZE_B, 640⟩, ⟨MT9M111_REDUCER_XSIZE_B, 640⟩] ∧
    ((set_selection_setup clean_world.dev context_b ⟨26, 8, 1280, 1024⟩ 640 1024).filter
        (fun s => decide (s.reg = context_b.reducer_ysize ∨ s.reg = context_b.reducer_yzoom))
      = [] ↔
      clean_world.dev.dirty_dim = false ∧ 1024 = clean_world.dev.height ∧
        (1024 : Nat) = clean_world.dev.rect.height) :=
  ⟨Or.inr rfl,
    (C22_write_elision clean_world.dev context_b ⟨26, 8, 1280, 1024⟩ 640 1024
      (Or.inr rfl)).1.trans (by decide),
    (C22_write_elision clean_world.dev context_b ⟨26, 8, 1280, 1024⟩ 640 1024
      (Or.inr rfl)).2.2.2.2.1⟩

/-! ## Skip bits of the read-mode register -/

theorem mask_const_bits (i : Nat) (hi : i < 16) :
    (4294967235 : Nat).testBit i = (65475 : Nat).testBit i := by
  interval_cases i <;> rfl

theorem mask_low_bits (i : Nat) :
    (65475 : Nat).testBit i = (decide (i < 16) && !(decide (2 ≤ i) && decide (i ≤ 5))) := by
  by_cases hi : i < 16
  · interval_cases i <;> rfl
  · rw [Nat.testBit_lt_two_pow (lt_of_lt_of_le (by norm_num : (65475 : Nat) < 2 ^ 16)
      (Nat.pow_le_pow_right (by norm_num) (not_lt.mp hi)))]
    simp [hi]

theorem mask_word (old d : Nat) (ho : old < 2 ^ 16) (hd : d < 2 ^ 16) :
    ((old &&& (2 ^ 32 - 1 - 60)) ||| d) % 2 ^ 16 = (old &&& 65475) ||| d := by
  apply Nat.eq_of_testBit_eq
  intro i
  rw [Nat.testBit_mod_two_pow, Nat.testBit_or, Nat.testBit_or, Nat.testBit_and,
    Nat.testBit_and]
  by_cases hi : i < 16
  · have := mask_const_bits i hi
    norm_num at this ⊢
    simp [hi, this]
  · have h16 : 16 ≤ i := not_lt.mp hi
    have h1 : old < 2 ^ i := lt_of_lt_of_le ho (Nat.pow_le_pow_right (by norm_num) h16)
    have h2 : d < 2 ^ i := lt_of_lt_of_le hd (Nat.pow_le_pow_right (by norm_num) h16)
    simp [hi, Nat.testBit_lt_two_pow h1, Nat.testBit_lt_two_pow h2]

theorem field_bits (d : Nat) (hd : d &&& 60 = d) (i : Nat) (hi : i < 2 ∨ 5 < i) :
    d.testBit i = false := by
  rw [← hd, Nat.testBit_and]
  have : (60 : Nat).testBit i = false := by
    rcases hi with h | h
    · interval_cases i <;> rfl
    · exact Nat.testBit_lt_two_pow (lt_of_lt_of_le (by norm_num : (60 : Nat) < 2 ^ 6)
        (Nat.pow_le_pow_right (by norm_num) h))
  rw [this]; simp

theorem word_outside (old d : Nat) (hd : d &&& 60 = d) (i : Nat) (hi : i < 2 ∨ 5 < i)
    (ho : old < 2 ^ 16) :
    ((old &&& 65475) ||| d).testBit i = old.testBit i := by
  rw [Nat.testBit_or, Nat.testBit_and, field_bits d hd i hi, mask_low_bits]
  by_cases h16 : i < 16
  · have : ¬ (2 ≤ i ∧ i ≤ 5) := by omega
    simp [h16, this]
    intro _; exact hi
  · rw [Nat.testBit_lt_two_pow (lt_of_lt_of_le ho (Nat.pow_le_pow_right (by norm_num)
      (not_lt.mp h16)))]
    simp

theorem word_field (old d : Nat) (hd : d &&& 60 = d) :
    ((old &&& 65475) ||| d) &&& 60 = d := by
  apply Nat.eq_of_testBit_eq
  intro i
  rw [Nat.testBit_and, Nat.testBit_or, Nat.testBit_and, mask_low_bits]
  by_cases h : 2 ≤ i ∧ i ≤ 5
  · obtain ⟨h2, h5⟩ := h
    have h60 : (60 : Nat).testBit i = true := by interval_cases i <;> rfl
    have : i < 16 := by omega
    simp [h2, h5, h60, this]
  · have hi : i < 2 ∨ 5 < i := by omega
    have h60 : (60 : Nat).testBit i = false := by
      rcases hi with h | h
      · interval_cases i <;> rfl
      · exact Nat.testBit_lt_two_pow (lt_of_lt_of_le (by norm_num : (60 : Nat) < 2 ^ 6)
          (Nat.pow_le_pow_right (by norm_num) h))
    rw [h60, field_bits d hd i hi]; simp

theorem skip_field (sx sy : Nat) (hx : sx ≤ 3) (hy : sy ≤ 3) :
    ((skip_code sx <<< 3) ||| (skip_code sy <<< 2)) &&& 60
        = (skip_code sx <<< 3) ||| (skip_code sy <<< 2) ∧
    ((skip_code sx <<< 3) ||| (skip_code sy <<< 2)) < 2 ^ 16 := by
  interval_cases sx <;> interval_cases sy <;> decide

/-- Claim C23: skip-bit programming.  The skip code is 0, 1, 4, 5 for the skip factors
0, 1, 2, 3.  On a bus whose writes return 0 and whose reads return 16-bit words, for
context A or B, non-zero stored sizes, a successful acquire and skip factors of at most 3,
the last data transfers of the commit are the read of the read-mode register of the
active context, returning `old`, and the write of
`(old & 0xffc3) | ((code(skip_x) << 3) | (code(skip_y) << 2))` to it, `0xffc3` being
`~0x3C` in 16 bits.  The skip field lies inside the mask `0x3C`; every bit of the written
word outside bits 2..5 equals that bit of `old`, and bits 2..5 hold the skip field. -/
theorem C23_skip_bits (env : Env)
    (hw : ∀ t c v, env.i2c_smbus_write_word_swapped t c v = 0)
    (hr : ∀ t c, 0 ≤ env.i2c_smbus_read_word_swapped t c ∧
      env.i2c_smbus_read_word_swapped t c < 2 ^ 16)
    (w : World) (r : v4l2_rect) (f : mt9m111_datafmt) (ctx : mt9m111_context)
    (width height : Nat)
    (hctx : w.dev.ctx = some ctx) (hab : ctx = context_a ∨ ctx = context_b)
    (hwd : w.dev.width ≠ 0) (hht : w.dev.height ≠ 0)
    (hg : 0 ≤ (mt9m111_get_device env w).1)
    (hx : w.dev.skip_x ≤ 3) (hy : w.dev.skip_y ≤ 3) :
    (skip_code 0 = 0 ∧ skip_code 1 = 1 ∧ skip_code 2 = 4 ∧ skip_code 3 = 5) ∧
    ∃ (pre post : List Event) (old : Nat),
      (_mt9m111_set_selection env w r (some f) width height).2.trace =
        w.trace ++ pre ++
          [Event.i2c_read (ctx.read_mode % 2 ^ 16 &&& 0xff),
           Event.i2c_write (ctx.read_mode % 2 ^ 16 &&& 0xff)
             ((old &&& 0xffc3) |||
               ((skip_code w.dev.skip_x <<< 3) ||| (skip_code w.dev.skip_y <<< 2)))] ++
          post ∧
      (old : Int) = env.i2c_smbus_read_word_swapped (w.trace ++ pre)
        (ctx.read_mode % 2 ^ 16 &&& 0xff) ∧
      data_transfers post = [] ∧
      ((skip_code w.dev.skip_x <<< 3) ||| (skip_code w.dev.skip_y <<< 2)) &&& 0x3c
        = ((skip_code w.dev.skip_x <<< 3) ||| (skip_code w.dev.skip_y <<< 2)) ∧
      (∀ i, i < 2 ∨ 5 < i →
        ((old &&& 0xffc3) |||
          ((skip_code w.dev.skip_x <<< 3) ||| (skip_code w.dev.skip_y <<< 2))).testBit i
          = old.testBit i) ∧
      ((old &&& 0xffc3) |||
          ((skip_code w.dev.skip_x <<< 3) ||| (skip_code w.dev.skip_y <<< 2))) &&& 0x3c
        = ((skip_code w.dev.skip_x <<< 3) ||| (skip_code w.dev.skip_y <<< 2)) := by
  refine ⟨⟨rfl, rfl, rfl, rfl⟩, ?_⟩
  obtain ⟨acq, mid, rel, _, h2, _, h4, _⟩ :=
    commit_success env hw (fun t c => (hr t c).1) w r f ctx width height hctx hab hwd hht hg
  obtain ⟨hf, hlt⟩ := skip_field w.dev.skip_x w.dev.skip_y hx hy
  obtain ⟨h0, h16⟩ := hr (w.trace ++ acq ++ mid) (ctx.read_mode % 2 ^ 16 &&& 0xff)
  have ho : (env.i2c_smbus_read_word_swapped (w.trace ++ acq ++ mid)
      (ctx.read_mode % 2 ^ 16 &&& 0xff)).toNat < 2 ^ 16 := by
    omega
  have hword := mask_word _ _ ho hlt
  rw [Nat.mod_eq_of_lt hlt] at h2
  have hm : (2 ^ 32 - 1 - (0x0f <<< 2) % 2 ^ 16 : Nat) = 2 ^ 32 - 1 - 60 := by decide
  rw [hm, hword] at h2
  refine ⟨acq ++ mid, rel, (env.i2c_smbus_read_word_swapped (w.trace ++ acq ++ mid)
      (ctx.read_mode % 2 ^ 16 &&& 0xff)).toNat, ?_, ?_, h4, hf, ?_, ?_⟩
  · rw [h2]; simp only [List.append_assoc]
  · rw [← List.append_assoc]; exact Int.toNat_of_nonneg h0
  · intro i hi
    exact word_outside _ _ hf i hi ho
  · exact word_field _ _ hf

theorem const_read_env_word (word : Nat) :
    ∀ (t : List Event) (c : Nat),
      0 ≤ (const_read_env word).i2c_smbus_read_word_swapped t c ∧
      (const_read_env word).i2c_smbus_read_word_swapped t c < 2 ^ 16 := by
  intro t c
  show (0 : Int) ≤ ((word % 2 ^ 16 : Nat) : Int) ∧ ((word % 2 ^ 16 : Nat) : Int) < 2 ^ 16
  have : word % 2 ^ 16 < 2 ^ 16 := Nat.mod_lt _ (by norm_num)
  omega

/-- Witness for claim C23: a commit with `skip_x = 1` and `skip_y = 2` on a sensor whose
read-mode register reads `0x0003` (both mirror bits set) writes `0x001b`: the mirror bits
stay, bit 3 holds the column code 1 and bit 4 the row code 4. -/
theorem C23_skip_bits_witness :
    (∀ (t : List Event) (c v : Nat),
      (const_read_env 3).i2c_smbus_write_word_swapped t c v = 0) ∧
    skip_world.dev.ctx = some context_b ∧
    skip_world.dev.skip_x ≤ 3 ∧ skip_world.dev.skip_y ≤ 3 ∧
    (_mt9m111_set_selection (const_read_env 3) skip_world ⟨26, 8, 1280, 1024⟩
      (some ⟨.YUYV8_2X8, .JPEG, false, false⟩) 1280 1024).2.trace =
      [.clk_enable, .pinctrl_select .PIN_STATE_IDLE,
       .i2c_write MT9M111_PAGE_MAP 0,
       .i2c_write 0x02 26, .i2c_write 0x01 8, .i2c_write 0x04 1280, .i2c_write 0x03 1024,
       .i2c_write MT9M111_PAGE_MAP 1,
       .i2c_write 0xa1 640, .i2c_write 0xa0 1280, .i2c_write 0xa1 640,
       .i2c_write 0xa4 256, .i2c_write 0xa3 1024, .i2c_write 0xa4 256,
       .i2c_write MT9M111_PAGE_MAP 0,
       .i2c_read 0x20, .i2c_write 0x20 0x1b,
       .pinctrl_select .PIN_STATE_SLEEP, .clk_disable] ∧
    ∃ (pre post : List Event) (old : Nat),
      (_mt9m111_set_selection (const_read_env 3) skip_world ⟨26, 8, 1280, 1024⟩
        (some ⟨.YUYV8_2X8, .JPEG, false, false⟩) 1280 1024).2.trace =
        skip_world.trace ++ pre ++
          [Event.i2c_read (context_b.read_mode % 2 ^ 16 &&& 0xff),
           Event.i2c_write (context_b.read_mode % 2 ^ 16 &&& 0xff)
             ((old &&& 0xffc3) |||
               ((skip_code skip_world.dev.skip_x <<< 3) |||
                 (skip_code skip_world.dev.skip_y <<< 2)))] ++ post ∧
      (old : Int) = (const_read_env 3).i2c_smbus_read_word_swapped
        (skip_world.trace ++ pre) (context_b.read_mode % 2 ^ 16 &&& 0xff) :=
  ⟨fun _ _ _ => rfl, rfl, by decide, by decide, rfl,
    (C23_skip_bits (const_read_env 3) (fun _ _ _ => rfl) (const_read_env_word 3) skip_world
      ⟨26, 8, 1280, 1024⟩ ⟨.YUYV8_2X8, .JPEG, false, false⟩ context_b 1280 1024 rfl
      (Or.inr rfl) (by decide) (by decide) (by decide) (by decide) (by decide)).2.imp
      (fun _ h => h.imp (fun _ h => h.imp (fun _ h => ⟨h.1, h.2.1⟩)))⟩

/-! ## Output size after a zero-width crop -/

/-- Claim C24: the stored output size does not stay non-zero.  From the idle probe state
(output size 1280 x 1024, scaling not allowed) a successful active crop to
`{26, 8, 0, 1024}` stores a crop rectangle of width 0; a following successful active
`mt9m111_set_fmt` with a 640 x 480 request then takes the output width from the crop
width and stores output width 0; after that the guard of `_mt9m111_set_selection`
rejects the commit of a skip-x control change with `-EINVAL`. -/
theorem C24_zero_output_width :
    (mt9m111_set_selection sim_env idle_world full_cfg
      ⟨.V4L2_SUBDEV_FORMAT_ACTIVE, 0, .V4L2_SEL_TGT_CROP, ⟨26, 8, 0, 1024⟩⟩).rc = 0 ∧
    (mt9m111_set_selection sim_env idle_world full_cfg
      ⟨.V4L2_SUBDEV_FORMAT_ACTIVE, 0, .V4L2_SEL_TGT_CROP, ⟨26, 8, 0, 1024⟩⟩).w.dev.rect
      = ⟨26, 8, 0, 1024⟩ ∧
    (mt9m111_set_fmt sim_env
      (mt9m111_set_selection sim_env idle_world full_cfg
        ⟨.V4L2_SUBDEV_FORMAT_ACTIVE, 0, .V4L2_SEL_TGT_CROP, ⟨26, 8, 0, 1024⟩⟩).w
      full_cfg ⟨.V4L2_SUBDEV_FORMAT_ACTIVE, 0, ⟨640, 480, .YUYV8_2X8⟩⟩).rc = 0 ∧
    (mt9m111_set_fmt sim_env
      (mt9m111_set_selection sim_env idle_world full_cfg
        ⟨.V4L2_SUBDEV_FORMAT_ACTIVE, 0, .V4L2_SEL_TGT_CROP, ⟨26, 8, 0, 1024⟩⟩).w
      full_cfg ⟨.V4L2_SUBDEV_FORMAT_ACTIVE, 0, ⟨640, 480, .YUYV8_2X8⟩⟩).w.dev.width = 0 ∧
    (_mt9m111_s_ctrl sim_env
      (mt9m111_set_fmt sim_env
        (mt9m111_set_selection sim_env idle_world full_cfg
          ⟨.V4L2_SUBDEV_FORMAT_ACTIVE, 0, .V4L2_SEL_TGT_CROP, ⟨26, 8, 0, 1024⟩⟩).w
        full_cfg ⟨.V4L2_SUBDEV_FORMAT_ACTIVE, 0, ⟨640, 480, .YUYV8_2X8⟩⟩).w
      ⟨.SKIP_X, 0⟩).1 = -EINVAL :=
  ⟨rfl, rfl, rfl, rfl, rfl⟩

/-! ## Format selection with the looked-up format -/

theorem try_selection_some (dev : mt9m111) (r : v4l2_rect) (width height : Nat)
    (f : mt9m111_datafmt) (hw : width ≠ 0) (hh : height ≠ 0) :
    ∃ R W H, _mt9m111_try_selection dev r (some width) (some height) (some f) =
      .ok (R, some W, some H) := by
  rw [try_selection_ok dev r _ _ f (by simpa using hw) (by simpa using hh)]
  by_cases hs : (dev.allow_burst && !f.bypass_ifp) = true
  · rw [if_pos hs, if_pos hs]; exact ⟨_, _, _, rfl⟩
  · rw [if_neg hs, if_neg hs]; exact ⟨_, _, _, rfl⟩

/-- The whole outcome of `mt9m111_set_fmt` once the format is looked up and the geometry
computed: a try call stores the try format; an active call acquires the sensor, commits
the geometry with the looked-up format, programs its pixel format, stores it and releases
the sensor, leaving at the first step that fails. -/
theorem set_fmt_shape (env : Env) (w : World) (cfg : v4l2_subdev_pad_config)
    (format : v4l2_subdev_format) (f : mt9m111_datafmt) (R : v4l2_rect) (W H : Nat)
    (hfind : mt9m111_find_datafmt w.dev format.format.code = some f)
    (hp : format.pad = 0)
    (hs : ¬ (format.which = .V4L2_SUBDEV_FORMAT_ACTIVE ∧ w.dev.is_streaming = true))
    (htry : _mt9m111_try_selection w.dev w.dev.rect
      (some ((format.format.width <<< w.dev.skip_x) % 2 ^ 32))
      (some ((format.format.height <<< w.dev.skip_y) % 2 ^ 32)) (some f) =
        .ok (R, some W, some H)) :
    mt9m111_set_fmt env w cfg format =
      if format.which = .V4L2_SUBDEV_FORMAT_TRY then
        ⟨0, w,
          { format with format := ⟨W >>> w.dev.skip_x, H >>> w.dev.skip_y, f.code⟩ },
          { cfg with try_fmt := ⟨W >>> w.dev.skip_x, H >>> w.dev.skip_y, f.code⟩ }⟩
      else if (mt9m111_get_device env w).1 < 0 then
        ⟨(mt9m111_get_device env w).1, (mt9m111_get_device env w).2,
          { format with format := ⟨W >>> w.dev.skip_x, H >>> w.dev.skip_y, f.code⟩ }, cfg⟩
      else if (_mt9m111_set_selection env (mt9m111_get_device env w).2 R (some f) W H).1 < 0
      then
        ⟨(_mt9m111_set_selection env (mt9m111_get_device env w).2 R (some f) W H).1,
          mt9m111_put_device env
            (_mt9m111_set_selection env (mt9m111_get_device env w).2 R (some f) W H).2,
          { format with format := ⟨W >>> w.dev.skip_x, H >>> w.dev.skip_y, f.code⟩ }, cfg⟩
      else if (mt9m111_set_pixfmt env
          (_mt9m111_set_selection env (mt9m111_get_device env w).2 R (some f) W H).2
          f.code).1 < 0 then
        ⟨(mt9m111_set_pixfmt env
            (_mt9m111_set_selection env (mt9m111_get_device env w).2 R (some f) W H).2
            f.code).1,
          mt9m111_put_device env (mt9m111_set_pixfmt env
            (_mt9m111_set_selection env (mt9m111_get_device env w).2 R (some f) W H).2
            f.code).2,
          { format with format := ⟨W >>> w.dev.skip_x, H >>> w.dev.skip_y, f.code⟩ }, cfg⟩
      else
        ⟨0, mt9m111_put_device env
            { (mt9m111_set_pixfmt env
                (_mt9m111_set_selection env (mt9m111_get_device env w).2 R (some f) W H).2
                f.code).2 with
              dev := { (mt9m111_set_pixfmt env
                (_mt9m111_set_selection env (mt9m111_get_device env w).2 R (some f) W H).2
                f.code).2.dev with fmt := some f } },
          { format with format := ⟨W >>> w.dev.skip_x, H >>> w.dev.skip_y, f.code⟩ }, cfg⟩ := by
  unfold mt9m111_set_fmt
  simp only [hp, ne_eq, not_true_eq_false, if_false, hs, hfind, htry, Option.getD_some]

theorem reg_mask_ok_ex (env : Env)
    (hw : ∀ t c v, env.i2c_smbus_write_word_swapped t c v = 0)
    (hr : ∀ t c, 0 ≤ env.i2c_smbus_read_word_swapped t c)
    (w : World) (reg data mask : Nat) (hp : (reg % 2 ^ 16) >>> 8 ≤ 2) :
    ∃ (sel : List Event) (old : Int), data_transfers sel = [] ∧
      mt9m111_reg_mask env w reg data mask =
        (0, { dev := { w.dev with lastpage := (((reg % 2 ^ 16) >>> 8 : Nat) : Int) },
              trace := w.trace ++ sel ++
                [Event.i2c_read (reg % 2 ^ 16 &&& 0xff),
                 Event.i2c_write (reg % 2 ^ 16 &&& 0xff)
                   (((old.toNat &&& (2 ^ 32 - 1 - mask % 2 ^ 16)) ||| (data % 2 ^ 16))
                     % 2 ^ 16)] }) :=
  ⟨_, _, data_transfers_select _ _, reg_mask_ok env hw hr w reg data mask hp⟩

/-- On a working bus `mt9m111_set_pixfmt` for a handled code returns 0 and performs a
read-modify-write of the output-format register of context A and then of context B,
both on page 1, with the data word of the code; `sel` and `sel2` hold page-select writes
only. -/
theorem set_pixfmt_ok (env : Env)
    (hw : ∀ t c v, env.i2c_smbus_write_word_swapped t c v = 0)
    (hr : ∀ t c, 0 ≤ env.i2c_smbus_read_word_swapped t c)
    (w : World) (code : media_bus_fmt) (d : Nat) (hpix : pixfmt_outfmt2 code = some d) :
    ∃ (sel sel2 : List Event) (oa ob : Int),
      data_transfers sel = [] ∧ data_transfers sel2 = [] ∧
      mt9m111_set_pixfmt env w code =
        (0, { dev := { w.dev with lastpage := 1 },
              trace := w.trace ++ sel ++
                [Event.i2c_read (context_a.output_fmt_ctrl2 % 2 ^ 16 &&& 0xff),
                 Event.i2c_write (context_a.output_fmt_ctrl2 % 2 ^ 16 &&& 0xff)
                   (((oa.toNat &&& (2 ^ 32 - 1 - mask_outfmt2 % 2 ^ 16)) |||
                     ((if w.dev.invert_pixclk = true then d ||| MT9M111_OUTFMT_INV_PIX_CLOCK
                       else d) % 2 ^ 16)) % 2 ^ 16)] ++ sel2 ++
                [Event.i2c_read (context_b.output_fmt_ctrl2 % 2 ^ 16 &&& 0xff),
                 Event.i2c_write (context_b.output_fmt_ctrl2 % 2 ^ 16 &&& 0xff)
                   (((ob.toNat &&& (2 ^ 32 - 1 - mask_outfmt2 % 2 ^ 16)) |||
                     ((if w.dev.invert_pixclk = true then d ||| MT9M111_OUTFMT_INV_PIX_CLOCK
                       else d) % 2 ^ 16)) % 2 ^ 16)] }) := by
  have hpb : (((context_b.output_fmt_ctrl2 % 2 ^ 16) >>> 8 : Nat) : Int) = 1 := by decide
  obtain ⟨sel, oa, h1, e1⟩ := reg_mask_ok_ex env hw hr w context_a.output_fmt_ctrl2
    (if w.dev.invert_pixclk = true then d ||| MT9M111_OUTFMT_INV_PIX_CLOCK else d)
    mask_outfmt2 (by decide)
  obtain ⟨sel2, ob, h2, e2⟩ := reg_mask_ok_ex env hw hr
    (mt9m111_reg_mask env w context_a.output_fmt_ctrl2
      (if w.dev.invert_pixclk = true then d ||| MT9M111_OUTFMT_INV_PIX_CLOCK else d)
      mask_outfmt2).2 context_b.output_fmt_ctrl2
    (if w.dev.invert_pixclk = true then d ||| MT9M111_OUTFMT_INV_PIX_CLOCK else d)
    mask_outfmt2 (by decide)
  refine ⟨sel, sel2, oa, ob, h1, h2, ?_⟩
  unfold mt9m111_set_pixfmt
  rw [hpix]
  simp only
  rw [e2, e1, hpb]
  simp only [if_true]

theorem Frame_invert_pixclk {d d' : mt9m111} (h : Frame d d') :
    d'.invert_pixclk = d.invert_pixclk := by
  have hc := h.1
  simp only [mt9m111.config, Prod.mk.injEq] at hc
  exact hc.2.2.2.2.2.2.1

/-- An active `mt9m111_set_fmt` on a working bus, with the looked-up format `f` and the
geometry `R`, `W`, `H` computed for it: the call returns 0, stores the geometry and the
format, and between acquire and release issues the data transfers of the geometry commit
followed by the programming of the output-format registers with the data word of `f`. -/
theorem set_fmt_active_ok (env : Env)
    (hw : ∀ t c v, env.i2c_smbus_write_word_swapped t c v = 0)
    (hr : ∀ t c, 0 ≤ env.i2c_smbus_read_word_swapped t c)
    (w : World) (cfg : v4l2_subdev_pad_config)
    (format : v4l2_subdev_format) (f : mt9m111_datafmt) (R : v4l2_rect) (W H : Nat)
    (ctx : mt9m111_context) (d : Nat)
    (hfind : mt9m111_find_datafmt w.dev format.format.code = some f)
    (hp : format.pad = 0)
    (hs : ¬ (format.which = .V4L2_SUBDEV_FORMAT_ACTIVE ∧ w.dev.is_streaming = true))
    (htry : _mt9m111_try_selection w.dev w.dev.rect
      (some ((format.format.width <<< w.dev.skip_x) % 2 ^ 32))
      (some ((format.format.height <<< w.dev.skip_y) % 2 ^ 32)) (some f) =
        .ok (R, some W, some H))
    (hact : format.which = .V4L2_SUBDEV_FORMAT_ACTIVE)
    (hctx : w.dev.ctx = some ctx) (hab : ctx = context_a ∨ ctx = context_b)
    (hwd : w.dev.width ≠ 0) (hht : w.dev.height ≠ 0)
    (hg : 0 ≤ (mt9m111_get_device env w).1) (href : w.dev.ref_cnt + 2 < 2 ^ 32)
    (hpix : pixfmt_outfmt2 f.code = some d) :
    (mt9m111_set_fmt env w cfg format).rc = 0 ∧
    (mt9m111_set_fmt env w cfg format).w.dev.rect = R ∧
    (mt9m111_set_fmt env w cfg format).w.dev.width = W ∧
    (mt9m111_set_fmt env w cfg format).w.dev.height = H ∧
    (mt9m111_set_fmt env w cfg format).w.dev.dirty_dim = false ∧
    (mt9m111_set_fmt env w cfg format).w.dev.fmt = some f ∧
    (mt9m111_set_fmt env w cfg format).w.dev.ref_cnt = w.dev.ref_cnt ∧
    ∃ (evs : List Event) (v : Nat) (oa ob : Int),
      (mt9m111_set_fmt env w cfg format).w.trace = w.trace ++ evs ∧
      data_transfers evs =
        (set_selection_setup w.dev ctx R W H).map regval.event ++
        [Event.i2c_read (ctx.read_mode % 2 ^ 16 &&& 0xff),
         Event.i2c_write (ctx.read_mode % 2 ^ 16 &&& 0xff) v] ++
        [Event.i2c_read (context_a.output_fmt_ctrl2 % 2 ^ 16 &&& 0xff),
         Event.i2c_write (context_a.output_fmt_ctrl2 % 2 ^ 16 &&& 0xff)
           (((oa.toNat &&& (2 ^ 32 - 1 - mask_outfmt2 % 2 ^ 16)) |||
             ((if w.dev.invert_pixclk = true then d ||| MT9M111_OUTFMT_INV_PIX_CLOCK
               else d) % 2 ^ 16)) % 2 ^ 16),
         Event.i2c_read (context_b.output_fmt_ctrl2 % 2 ^ 16 &&& 0xff),
         Event.i2c_write (context_b.output_fmt_ctrl2 % 2 ^ 16 &&& 0xff)
           (((ob.toNat &&& (2 ^ 32 - 1 - mask_outfmt2 % 2 ^ 16)) |||
             ((if w.dev.invert_pixclk = true then d ||| MT9M111_OUTFMT_INV_PIX_CLOCK
               else d) % 2 ^ 16)) % 2 ^ 16)] := by
  -- the acquire
  obtain ⟨acq1, g1, g2, _, g4⟩ := get_device_spec env w
  obtain ⟨g0, gd⟩ := g4 (not_lt.mpr hg)
  rw [Nat.mod_eq_of_lt (by omega : w.dev.ref_cnt + 1 < 2 ^ 32)] at gd
  obtain ⟨G, hG⟩ : ∃ G, mt9m111_get_device env w = (0, G) := ⟨_, Prod.ext g0 rfl⟩
  rw [hG] at g1 gd
  simp only at g1 gd
  have hGref : G.dev.ref_cnt = w.dev.ref_cnt + 1 := by rw [gd]
  -- the commit
  have hg2 : 0 ≤ (mt9m111_get_device env G).1 := by
    rw [get_device_held env G (by omega) (by omega)]
  obtain ⟨acq, mid, rel, c1, c2, c3, c4, c5⟩ := commit_success env hw hr G R f ctx W H
    (by rw [gd]; exact hctx) hab (by rw [gd]; exact hwd) (by rw [gd]; exact hht) hg2
  obtain ⟨_, _, _, _, ok, _⟩ := set_selection_outcome env G R (some f) W H (by omega)
  obtain ⟨-, -, o1, o2, o3, o4, o5⟩ := ok (by rw [c1])
  have fr := frame_set_selection env G R (some f) W H
  obtain ⟨S, hS⟩ : ∃ S, _mt9m111_set_selection env G R (some f) W H = (0, S) :=
    ⟨_, Prod.ext c1 rfl⟩
  rw [hS] at c2 o1 o2 o3 o4 o5 fr
  simp only at c2 o1 o2 o3 o4 o5 fr
  have hinv : S.dev.invert_pixclk = w.dev.invert_pixclk := by
    rw [Frame_invert_pixclk fr, gd]
  have hsetup : set_selection_setup G.dev ctx R W H = set_selection_setup w.dev ctx R W H := by
    rw [gd]; rfl
  -- the pixel format
  obtain ⟨sel, sel2, oa, ob, p1, p2, e⟩ := set_pixfmt_ok env hw hr S f.code d hpix
  rw [hinv] at e
  -- the call
  have hT : ¬ format.which = .V4L2_SUBDEV_FORMAT_TRY := by rw [hact]; decide
  have sh := set_fmt_shape env w cfg format f R W H hfind hp hs htry
  rw [if_neg hT] at sh
  simp only [hG, hS, e, lt_self_iff_false, if_false] at sh
  obtain ⟨rel2, r1, r2⟩ := commit_release env
    { dev := { ({ S.dev with lastpage := 1 } : mt9m111) with fmt := some f },
      trace := S.trace ++ sel ++
        [Event.i2c_read (context_a.output_fmt_ctrl2 % 2 ^ 16 &&& 0xff),
         Event.i2c_write (context_a.output_fmt_ctrl2 % 2 ^ 16 &&& 0xff)
           (((oa.toNat &&& (2 ^ 32 - 1 - mask_outfmt2 % 2 ^ 16)) |||
             ((if w.dev.invert_pixclk = true then d ||| MT9M111_OUTFMT_INV_PIX_CLOCK
               else d) % 2 ^ 16)) % 2 ^ 16)] ++ sel2 ++
        [Event.i2c_read (context_b.output_fmt_ctrl2 % 2 ^ 16 &&& 0xff),
         Event.i2c_write (context_b.output_fmt_ctrl2 % 2 ^ 16 &&& 0xff)
           (((ob.toNat &&& (2 ^ 32 - 1 - mask_outfmt2 % 2 ^ 16)) |||
             ((if w.dev.invert_pixclk = true then d ||| MT9M111_OUTFMT_INV_PIX_CLOCK
               else d) % 2 ^ 16)) % 2 ^ 16)] }
  obtain ⟨_, _, _, pd⟩ := put_device_spec env
    { dev := { ({ S.dev with lastpage := 1 } : mt9m111) with fmt := some f },
      trace := S.trace ++ sel ++
        [Event.i2c_read (context_a.output_fmt_ctrl2 % 2 ^ 16 &&& 0xff),
         Event.i2c_write (context_a.output_fmt_ctrl2 % 2 ^ 16 &&& 0xff)
           (((oa.toNat &&& (2 ^ 32 - 1 - mask_outfmt2 % 2 ^ 16)) |||
             ((if w.dev.invert_pixclk = true then d ||| MT9M111_OUTFMT_INV_PIX_CLOCK
               else d) % 2 ^ 16)) % 2 ^ 16)] ++ sel2 ++
        [Event.i2c_read (context_b.output_fmt_ctrl2 % 2 ^ 16 &&& 0xff),
         Event.i2c_write (context_b.output_fmt_ctrl2 % 2 ^ 16 &&& 0xff)
           (((ob.toNat &&& (2 ^ 32 - 1 - mask_outfmt2 % 2 ^ 16)) |||
             ((if w.dev.invert_pixclk = true then d ||| MT9M111_OUTFMT_INV_PIX_CLOCK
               else d) % 2 ^ 16)) % 2 ^ 16)] }
    (by show S.dev.ref_cnt ≠ 0; rw [o5, hGref]; omega)
  rw [sh]
  refine ⟨rfl, ?_, ?_, ?_, ?_, ?_, ?_, ?_⟩
  · show (mt9m111_put_device env _).dev.rect = R
    rw [pd]; exact o1
  · show (mt9m111_put_device env _).dev.width = W
    rw [pd]; exact o2
  · show (mt9m111_put_device env _).dev.height = H
    rw [pd]; exact o3
  · show (mt9m111_put_device env _).dev.dirty_dim = false
    rw [pd]; exact o4
  · show (mt9m111_put_device env _).dev.fmt = some f
    rw [pd]
  · show (mt9m111_put_device env _).dev.ref_cnt = w.dev.ref_cnt
    rw [pd]
    show S.dev.ref_cnt - 1 = w.dev.ref_cnt
    rw [o5, hGref]; omega
  · obtain ⟨v, hv⟩ : ∃ v, S.trace = G.trace ++ acq ++ mid ++
        [Event.i2c_read (ctx.read_mode % 2 ^ 16 &&& 0xff),
         Event.i2c_write (ctx.read_mode % 2 ^ 16 &&& 0xff) v] ++ rel := ⟨_, c2⟩
    refine ⟨acq1 ++ acq ++ mid ++
        [Event.i2c_read (ctx.read_mode % 2 ^ 16 &&& 0xff),
         Event.i2c_write (ctx.read_mode % 2 ^ 16 &&& 0xff) v] ++ rel ++ sel ++
        [Event.i2c_read (context_a.output_fmt_ctrl2 % 2 ^ 16 &&& 0xff),
         Event.i2c_write (context_a.output_fmt_ctrl2 % 2 ^ 16 &&& 0xff)
           (((oa.toNat &&& (2 ^ 32 - 1 - mask_outfmt2 % 2 ^ 16)) |||
             ((if w.dev.invert_pixclk = true then d ||| MT9M111_OUTFMT_INV_PIX_CLOCK
               else d) % 2 ^ 16)) % 2 ^ 16)] ++ sel2 ++
        [Event.i2c_read (context_b.output_fmt_ctrl2 % 2 ^ 16 &&& 0xff),
         Event.i2c_write (context_b.output_fmt_ctrl2 % 2 ^ 16 &&& 0xff)
           (((ob.toNat &&& (2 ^ 32 - 1 - mask_outfmt2 % 2 ^ 16)) |||
             ((if w.dev.invert_pixclk = true then d ||| MT9M111_OUTFMT_INV_PIX_CLOCK
               else d) % 2 ^ 16)) % 2 ^ 16)] ++ rel2,
      v, oa, ob, ?_, ?_⟩
    · show (mt9m111_put_device env _).trace = _
      rw [r1, hv, g1]
      simp only [List.append_assoc]
    · simp only [data_transfers_append, data_transfers_non_i2c acq1 g2, c3, c4, c5, p1, p2,
        r2, hsetup, List.nil_append, List.append_nil,
        data_transfers_rmw _ _ (read_mode_not_page_map ctx hab),
        data_transfers_rmw _ _ (by decide :
          (context_a.output_fmt_ctrl2 % 2 ^ 16 &&& 0xff) ≠ MT9M111_PAGE_MAP),
        data_transfers_rmw _ _ (by decide :
          (context_b.output_fmt_ctrl2 % 2 ^ 16 &&& 0xff) ≠ MT9M111_PAGE_MAP)]
      simp only [List.append_assoc, List.cons_append, List.nil_append]

/-- Claim C15: format lookup with fallback.  `mt9m111_find_datafmt(code)` returns the
catalog entry of a code of the base catalog, of the 10-bit catalog when `allow_10bit` is
set and of the processed-Bayer catalog when `allow_burst` is set; for every other code it
returns the stored format `f`.  `mt9m111_set_fmt` (pad 0, not an active call while
streaming, non-zero request) then proceeds with `f`: the geometry `R`, `W`, `H` is the
one `_mt9m111_try_selection` computes for `f`; the reported format is
`W >> skip_x` x `H >> skip_y` with the code of `f`; a try call returns 0 and stores the
reported format as try format and nothing else; an active call acquires the sensor,
commits `R`, `W`, `H` with `f`, programs the pixel format of `f`, stores `f` and
releases the sensor, returning the error of the first step that fails; the stored format
is `f` after the call in every case.  On a bus whose writes return 0 and whose reads do
not fail (context A or B, non-zero stored sizes, successful acquire, a code of `f` that
`mt9m111_set_pixfmt` handles) the active call returns 0, the stored rectangle and output
size are `R`, `W`, `H`, and its data transfers are the writes of the commit batch for
`R`, `W`, `H`, the read and write of the read-mode register, and the read and write of
the output-format registers of context A and B with the data word of `f`. -/
theorem C15_find_datafmt_fallback (env : Env) (w : World) (cfg : v4l2_subdev_pad_config) :
    (∀ f ∈ mt9m111_colour_fmts, mt9m111_find_datafmt w.dev f.code = some f) ∧
    (w.dev.allow_10bit = true →
      ∀ f ∈ mt9m111_10bit_fmts, mt9m111_find_datafmt w.dev f.code = some f) ∧
    (w.dev.allow_burst = true →
      ∀ f ∈ mt9m111_processed_fmts, mt9m111_find_datafmt w.dev f.code = some f) ∧
    (∀ code : media_bus_fmt,
      (∀ f ∈ mt9m111_colour_fmts, f.code ≠ code) →
      (w.dev.allow_10bit = true → ∀ f ∈ mt9m111_10bit_fmts, f.code ≠ code) →
      (w.dev.allow_burst = true → ∀ f ∈ mt9m111_processed_fmts, f.code ≠ code) →
      mt9m111_find_datafmt w.dev code = w.dev.fmt ∧
      ∀ (f : mt9m111_datafmt) (format : v4l2_subdev_format),
        w.dev.fmt = some f → format.format.code = code → format.pad = 0 →
        ¬ (format.which = .V4L2_SUBDEV_FORMAT_ACTIVE ∧ w.dev.is_streaming = true) →
        (format.format.width <<< w.dev.skip_x) % 2 ^ 32 ≠ 0 →
        (format.format.height <<< w.dev.skip_y) % 2 ^ 32 ≠ 0 →
        ∃ (R : v4l2_rect) (W H : Nat),
          _mt9m111_try_selection w.dev w.dev.rect
            (some ((format.format.width <<< w.dev.skip_x) % 2 ^ 32))
            (some ((format.format.height <<< w.dev.skip_y) % 2 ^ 32)) (some f) =
              .ok (R, some W, some H) ∧
          (mt9m111_set_fmt env w cfg format =
            if format.which = .V4L2_SUBDEV_FORMAT_TRY then
              ⟨0, w,
                { format with format := ⟨W >>> w.dev.skip_x, H >>> w.dev.skip_y, f.code⟩ },
                { cfg with try_fmt := ⟨W >>> w.dev.skip_x, H >>> w.dev.skip_y, f.code⟩ }⟩
            else if (mt9m111_get_device env w).1 < 0 then
              ⟨(mt9m111_get_device env w).1, (mt9m111_get_device env w).2,
                { format with format := ⟨W >>> w.dev.skip_x, H >>> w.dev.skip_y, f.code⟩ }, cfg⟩
            else if (_mt9m111_set_selection env (mt9m111_get_device env w).2 R (some f) W H).1 < 0
            then
              ⟨(_mt9m111_set_selection env (mt9m111_get_device env w).2 R (some f) W H).1,
                mt9m111_put_device env
                  (_mt9m111_set_selection env (mt9m111_get_device env w).2 R (some f) W H).2,
                { format with format := ⟨W >>> w.dev.skip_x, H >>> w.dev.skip_y, f.code⟩ }, cfg⟩
            else if (mt9m111_set_pixfmt env
                (_mt9m111_set_selection env (mt9m111_get_device env w).2 R (some f) W H).2
                f.code).1 < 0 then
              ⟨(mt9m111_set_pixfmt env
                  (_mt9m111_set_selection env (mt9m111_get_device env w).2 R (some f) W H).2
                  f.code).1,
                mt9m111_put_device env (mt9m111_set_pixfmt env
                  (_mt9m111_set_selection env (mt9m111_get_device env w).2 R (some f) W H).2
                  f.code).2,
                { format with format := ⟨W >>> w.dev.skip_x, H >>> w.dev.skip_y, f.code⟩ }, cfg⟩
            else
              ⟨0, mt9m111_put_device env
                  { (mt9m111_set_pixfmt env
                      (_mt9m111_set_selection env (mt9m111_get_device env w).2 R (some f) W H).2
                      f.code).2 with
                    dev := { (mt9m111_set_pixfmt env
                      (_mt9m111_set_selection env (mt9m111_get_device env w).2 R (some f) W H).2
                      f.code).2.dev with fmt := some f } },
                { format with format := ⟨W >>> w.dev.skip_x, H >>> w.dev.skip_y, f.code⟩ }, cfg⟩) ∧
          (mt9m111_set_fmt env w cfg format).format.format.code = f.code ∧
          (mt9m111_set_fmt env w cfg format).w.dev.fmt = some f ∧
          (∀ (ctx : mt9m111_context) (d : Nat),
            format.which = .V4L2_SUBDEV_FORMAT_ACTIVE →
            (∀ t c v, env.i2c_smbus_write_word_swapped t c v = 0) →
            (∀ t c, 0 ≤ env.i2c_smbus_read_word_swapped t c) →
            w.dev.ctx = some ctx → (ctx = context_a ∨ ctx = context_b) →
            w.dev.width ≠ 0 → w.dev.height ≠ 0 →
            0 ≤ (mt9m111_get_device env w).1 → w.dev.ref_cnt + 2 < 2 ^ 32 →
            pixfmt_outfmt2 f.code = some d →
            (mt9m111_set_fmt env w cfg format).rc = 0 ∧
            (mt9m111_set_fmt env w cfg format).w.dev.rect = R ∧
            (mt9m111_set_fmt env w cfg format).w.dev.width = W ∧
            (mt9m111_set_fmt env w cfg format).w.dev.height = H ∧
            (mt9m111_set_fmt env w cfg format).w.dev.dirty_dim = false ∧
            (mt9m111_set_fmt env w cfg format).w.dev.ref_cnt = w.dev.ref_cnt ∧
            ∃ (evs : List Event) (v : Nat) (oa ob : Int),
              (mt9m111_set_fmt env w cfg format).w.trace = w.trace ++ evs ∧
              data_transfers evs =
                (set_selection_setup w.dev ctx R W H).map regval.event ++
                [Event.i2c_read (ctx.read_mode % 2 ^ 16 &&& 0xff),
                 Event.i2c_write (ctx.read_mode % 2 ^ 16 &&& 0xff) v] ++
                [Event.i2c_read (context_a.output_fmt_ctrl2 % 2 ^ 16 &&& 0xff),
                 Event.i2c_write (context_a.output_fmt_ctrl2 % 2 ^ 16 &&& 0xff)
                   (((oa.toNat &&& (2 ^ 32 - 1 - mask_outfmt2 % 2 ^ 16)) |||
                   ((if w.dev.invert_pixclk = true then d ||| MT9M111_OUTFMT_INV_PIX_CLOCK
                     else d) % 2 ^ 16)) % 2 ^ 16),
                 Event.i2c_read (context_b.output_fmt_ctrl2 % 2 ^ 16 &&& 0xff),
                 Event.i2c_write (context_b.output_fmt_ctrl2 % 2 ^ 16 &&& 0xff)
                   (((ob.toNat &&& (2 ^ 32 - 1 - mask_outfmt2 % 2 ^ 16)) |||
                   ((if w.dev.invert_pixclk = true then d ||| MT9M111_OUTFMT_INV_PIX_CLOCK
                     else d) % 2 ^ 16)) % 2 ^ 16)])) := by
  refine ⟨find_datafmt_base w.dev, find_datafmt_10bit w.dev, find_datafmt_processed w.dev, ?_⟩
  intro code h1 h2 h3
  have hfb := find_datafmt_fallback w.dev code h1 h2 h3
  refine ⟨hfb, ?_⟩
  intro f format hf hc hp hs hw hh
  have hfind : mt9m111_find_datafmt w.dev format.format.code = some f := by
    rw [hc, hfb, hf]
  obtain ⟨R, W, H, htry⟩ := try_selection_some w.dev w.dev.rect _ _ f hw hh
  obtain ⟨r1, r2⟩ := set_fmt_reports env w cfg format f hfind hp hs hw hh
  refine ⟨R, W, H, htry, set_fmt_shape env w cfg format f R W H hfind hp hs htry, r1, ?_, ?_⟩
  · rcases r2 with r2 | r2
    · rw [r2, hf]
    · exact r2.2
  · intro ctx d hact hbw hbr hctx hab hwd hht hg href hpix
    obtain ⟨a1, a2, a3, a4, a5, _, a7, a8⟩ := set_fmt_active_ok env hbw hbr w cfg format f R W H
      ctx d hfind hp hs htry hact hctx hab hwd hht hg href hpix
    exact ⟨a1, a2, a3, a4, a5, a7, a8⟩

/-- Witness for claim C15: with 10-bit output not allowed, an active 640 x 480 request for
the 10-bit code `SBGGR10_1X10` on the idle probe state proceeds with the stored format
`YUYV8_2X8`: it returns 0, reports and stores the full window (scaling is not allowed) and
programs the output-format registers for `YUYV8_2X8`. -/
theorem C15_find_datafmt_fallback_witness :
    mt9m111_find_datafmt idle_world.dev .SBGGR10_1X10 = idle_world.dev.fmt ∧
    (∃ (R : v4l2_rect) (W H : Nat),
      _mt9m111_try_selection idle_world.dev idle_world.dev.rect (some 640) (some 480)
        (some ⟨.YUYV8_2X8, .JPEG, false, false⟩) = .ok (R, some W, some H) ∧
      (mt9m111_set_fmt sim_env idle_world full_cfg
        ⟨.V4L2_SUBDEV_FORMAT_ACTIVE, 0, ⟨640, 480, .SBGGR10_1X10⟩⟩).rc = 0 ∧
      (mt9m111_set_fmt sim_env idle_world full_cfg
        ⟨.V4L2_SUBDEV_FORMAT_ACTIVE, 0, ⟨640, 480, .SBGGR10_1X10⟩⟩).w.dev.rect = R ∧
      (mt9m111_set_fmt sim_env idle_world full_cfg
        ⟨.V4L2_SUBDEV_FORMAT_ACTIVE, 0, ⟨640, 480, .SBGGR10_1X10⟩⟩).w.dev.width = W ∧
      (mt9m111_set_fmt sim_env idle_world full_cfg
        ⟨.V4L2_SUBDEV_FORMAT_ACTIVE, 0, ⟨640, 480, .SBGGR10_1X10⟩⟩).w.dev.height = H ∧
      (mt9m111_set_fmt sim_env idle_world full_cfg
        ⟨.V4L2_SUBDEV_FORMAT_ACTIVE, 0, ⟨640, 480, .SBGGR10_1X10⟩⟩).format.format.code
          = .YUYV8_2X8 ∧
      (mt9m111_set_fmt sim_env idle_world full_cfg
        ⟨.V4L2_SUBDEV_FORMAT_ACTIVE, 0, ⟨640, 480, .SBGGR10_1X10⟩⟩).w.dev.fmt
          = some ⟨.YUYV8_2X8, .JPEG, false, false⟩) ∧
    (mt9m111_set_fmt sim_env idle_world full_cfg
      ⟨.V4L2_SUBDEV_FORMAT_ACTIVE, 0, ⟨640, 480, .SBGGR10_1X10⟩⟩).format.format
        = ⟨1280, 1024, .YUYV8_2X8⟩ ∧
    (mt9m111_set_fmt sim_env idle_world full_cfg
      ⟨.V4L2_SUBDEV_FORMAT_ACTIVE, 0, ⟨640, 480, .SBGGR10_1X10⟩⟩).w.dev.rect
        = ⟨26, 8, 1280, 1024⟩ ∧
    (mt9m111_set_fmt sim_env idle_world full_cfg
      ⟨.V4L2_SUBDEV_FORMAT_ACTIVE, 0, ⟨640, 480, .SBGGR10_1X10⟩⟩).w.trace
        = [.clk_enable, .pinctrl_select .PIN_STATE_IDLE,
           .i2c_write MT9M111_PAGE_MAP 0,
           .i2c_write 0x02 26, .i2c_write 0x01 8, .i2c_write 0x04 1280, .i2c_write 0x03 1024,
           .i2c_write MT9M111_PAGE_MAP 1,
           .i2c_write 0xa1 1280, .i2c_write 0xa0 1280, .i2c_write 0xa1 1280,
           .i2c_write 0xa4 1024, .i2c_write 0xa3 1024, .i2c_write 0xa4 1024,
           .i2c_write MT9M111_PAGE_MAP 0,
           .i2c_read 0x20, .i2c_write 0x20 0,
           .i2c_write MT9M111_PAGE_MAP 1,
           .i2c_read 0x3a, .i2c_write 0x3a MT9M111_OUTFMT_SWAP_YCbCr_C_Y_RGB_EVEN,
           .i2c_read 0x9b, .i2c_write 0x9b MT9M111_OUTFMT_SWAP_YCbCr_C_Y_RGB_EVEN,
           .pinctrl_select .PIN_STATE_SLEEP, .clk_disable] :=
  have h := (C15_find_datafmt_fallback sim_env idle_world full_cfg).2.2.2 .SBGGR10_1X10
    (by decide) (fun h => absurd h (by decide)) (fun h => absurd h (by decide))
  ⟨h.1,
    (h.2 ⟨.YUYV8_2X8, .JPEG, false, false⟩
      ⟨.V4L2_SUBDEV_FORMAT_ACTIVE, 0, ⟨640, 480, .SBGGR10_1X10⟩⟩ rfl rfl rfl
      (by decide) (by decide) (by decide)).imp (fun _ hR => hR.imp (fun _ hW =>
        hW.imp (fun _ hH =>
          have A := hH.2.2.2.2 context_b MT9M111_OUTFMT_SWAP_YCbCr_C_Y_RGB_EVEN rfl
            (fun _ _ _ => rfl) sim_env_read_nonneg rfl (Or.inr rfl) (by decide) (by decide)
            (by decide) (by decide) rfl
          ⟨hH.1, A.1, A.2.1, A.2.2.1, A.2.2.2.1, hH.2.2.1, hH.2.2.2.1⟩))),
    rfl, rfl, rfl⟩

end MT9M111
